import Mathlib

/-!
# plant_thing: irrigation controller

A shallow embedding of `main/optmed.c` (median selection networks) and of
`main/app_main.c` (irrigation state machine, remote configuration protocol,
persistence), followed by theorems about the embedded code.

Conventions of the embedding
* C arrays are lists; a function that mutates its array returns the array too.
* `uint16_t` / `uint64_t` values are natural numbers; every narrowing store and
  every unsigned operation that can wrap is written with an explicit modulus.
* `double` / `float` values are rationals (exact arithmetic).
* Calls to the hardware and to the libraries (ADC, GPIO, DHT, MQTT, cJSON, NVS)
  are inputs of the functions (what the call returns) and entries of an effect
  trace (that the call was made).
-/

namespace PlantThing

/-! ## optmed.c -/

/-- The macro `INT_SWAP(a,b)` of optmed.c with `a = p[i]`, `b = p[j]`:
`int temp=(a);(a)=(b);(b)=temp;`. -/
def INT_SWAP (p : List Int) (i j : Nat) : List Int :=
  let temp := p.getD i 0
  let p := p.set i (p.getD j 0)
  p.set j temp

/-- The macro `INT_SORT(a,b)` of optmed.c with `a = p[i]`, `b = p[j]`:
`if ((a)>(b)) INT_SWAP((a),(b));`. -/
def INT_SORT (p : List Int) (i j : Nat) : List Int :=
  if p.getD i 0 > p.getD j 0 then INT_SWAP p i j else p

/-- The function `opt_med9` of optmed.c: the returned value and the array as the
nineteen compare-and-swap steps leave it. -/
def opt_med9 (p : List Int) : Int × List Int :=
  let p := INT_SORT p 1 2
  let p := INT_SORT p 4 5
  let p := INT_SORT p 7 8
  let p := INT_SORT p 0 1
  let p := INT_SORT p 3 4
  let p := INT_SORT p 6 7
  let p := INT_SORT p 1 2
  let p := INT_SORT p 4 5
  let p := INT_SORT p 7 8
  let p := INT_SORT p 0 3
  let p := INT_SORT p 5 8
  let p := INT_SORT p 4 7
  let p := INT_SORT p 3 6
  let p := INT_SORT p 1 4
  let p := INT_SORT p 2 5
  let p := INT_SORT p 4 7
  let p := INT_SORT p 4 2
  let p := INT_SORT p 6 4
  let p := INT_SORT p 4 2
  (p.getD 4 0, p)

/-- A run of `INT_SORT` steps given as the list of their index pairs. -/
def sort_pairs (p : List Int) (cs : List (Nat × Nat)) : List Int :=
  cs.foldl (fun q c => INT_SORT q c.1 c.2) p

/-- The index pairs of the `INT_SORT` steps of `opt_med9`, in program order. -/
def opt_med9_pairs : List (Nat × Nat) :=
  [(1, 2), (4, 5), (7, 8), (0, 1), (3, 4), (6, 7), (1, 2), (4, 5), (7, 8),
   (0, 3), (5, 8), (4, 7), (3, 6), (1, 4), (2, 5), (4, 7), (4, 2), (6, 4), (4, 2)]

/-- One compare-and-swap step on truth values (`false < true`); the image of
`INT_SORT` under a monotone map from the integers to the truth values. -/
def bit_sort (b : List Bool) (c : Nat × Nat) : List Bool :=
  if b.getD c.1 false = true ∧ b.getD c.2 false = false then
    (b.set c.1 false).set c.2 true
  else b

/-- A run of `bit_sort` steps. -/
def bit_sort_pairs (b : List Bool) (cs : List (Nat × Nat)) : List Bool :=
  cs.foldl bit_sort b

/-- The ascending sort used to state what a median is. -/
def ascending (p : List Int) : List Int :=
  List.insertionSort (fun a b => a ≤ b) p

/-! ## app_main.c : constants and data model -/

def MOISTURE_SENSOR_DRY : Nat := 720
def MOISTURE_SENSOR_WET : Nat := 2616
def SEC_IN_MICROSEC : Nat := 1000000
def PLANT_NVS_KEY : String := "plant"

/-- Conversion of an `int` to `uint16_t` (reduction modulo 2^16). -/
def to_uint16 (v : Int) : Nat := (v % 65536).toNat

/-- Subtraction of two `uint64_t` values (wraps modulo 2^64). -/
def u64_sub (a b : Nat) : Nat := (((a : Int) - (b : Int)) % 18446744073709551616).toNat

/-- Product of a promoted `uint16_t` with an `unsigned long long` constant
(modulo 2^64). -/
def u64_mul (a b : Nat) : Nat := (a * b) % 18446744073709551616

/-- Truncation of a `double` toward zero, as in a C conversion to an integer type. -/
def trunc (x : ℚ) : Int := if 0 ≤ x then ⌊x⌋ else ⌈x⌉

/-- Rounding to the nearest integer, a tie going to the even neighbour (the
rounding a C library applies when it prints a binary floating-point value). -/
def round_half_even (x : ℚ) : Int :=
  if x - ⌊x⌋ < 1 / 2 then ⌊x⌋
  else if 1 / 2 < x - ⌊x⌋ then ⌊x⌋ + 1
  else if ⌊x⌋ % 2 = 0 then ⌊x⌋
  else ⌊x⌋ + 1

/-- The number the conversion `%0.2f` of `sprintf` prints for `x`: `x` rounded
to two decimals. For `x = (raw - 720) / 1896` with an integer `raw` the exact
quotient is either a tie (an odd multiple of 1/8) or at least 1/47400 away from
every tie, so the rounding error of the `float` quotient does not change the
two decimals printed. -/
def printf_0_2f (x : ℚ) : ℚ := (round_half_even (x * 100) : ℚ) / 100

/-- Conversion of a `double` to `uint16_t`: truncation toward zero; C leaves the
conversion undefined when the truncated value is outside 0..65535, where this
embedding reduces modulo 2^16. -/
def double_to_uint16 (x : ℚ) : Nat := to_uint16 (trunc x)

/-- The macro `MOISTURE_SENSOR_VALUE_FROM_RATIO(x)`:
`(x * (MOISTURE_SENSOR_WET - MOISTURE_SENSOR_DRY) + MOISTURE_SENSOR_DRY)`. -/
def MOISTURE_SENSOR_VALUE_FROM_RATIO (x : ℚ) : ℚ :=
  x * (((MOISTURE_SENSOR_WET : Int) - (MOISTURE_SENSOR_DRY : Int) : Int) : ℚ)
    + (MOISTURE_SENSOR_DRY : ℚ)

/-- The macro `RATIO_FROM_MOISTURE_SENSOR_VALUE(x)`:
`((x - MOISTURE_SENSOR_DRY) / ((float) (MOISTURE_SENSOR_WET - MOISTURE_SENSOR_DRY)))`
for a `uint16_t` argument (promoted to `int` before the subtraction); the
`float` quotient is taken exactly, as a rational. -/
def RATIO_FROM_MOISTURE_SENSOR_VALUE (x : Nat) : ℚ :=
  ((((x : Int) - (MOISTURE_SENSOR_DRY : Int) : Int) : ℚ))
    / ((((MOISTURE_SENSOR_WET : Int) - (MOISTURE_SENSOR_DRY : Int) : Int) : ℚ))

/-- The enumeration `PlantStates`. -/
inductive PlantStates
  | PLANT_DRYING
  | PLANT_PUMP_DELAY
  | PLANT_PUMP_ON
  | PLANT_WET_HOLD
  | PLANT_DRY_HOLD
  | PLANT_ALARM
  deriving DecidableEq, Repr

/-- The integer value of an enumerator. -/
def PlantStates.val : PlantStates → Nat
  | .PLANT_DRYING => 0
  | .PLANT_PUMP_DELAY => 1
  | .PLANT_PUMP_ON => 2
  | .PLANT_WET_HOLD => 3
  | .PLANT_DRY_HOLD => 4
  | .PLANT_ALARM => 5

/-- GPIO and ADC pin configuration (`struct plant_pin_config_struct`). -/
structure plant_pin_config_struct where
  moisture_sensor_adc1_channel : Nat
  level_sensor_adc1_channel : Nat
  pump_gpio_pin : Nat
  dht_gpio_pin : Nat
  deriving DecidableEq, Repr

/-- Watering parameters (`struct plant_watering_config_struct`), all `uint16_t`. -/
structure plant_watering_config_struct where
  low_moisture : Nat
  watered_moisture : Nat
  high_moisture : Nat
  polling_period_s : Nat
  pump_on_period_s : Nat
  pump_off_period_s : Nat
  wet_hold_period_s : Nat
  dry_hold_period_s : Nat
  deriving DecidableEq, Repr

/-- State and status (`struct plant_status_struct`). -/
structure plant_status_struct where
  poll_median_moisture_sensor : Nat
  poll_median_level_sensor : Nat
  poll_temperature : ℚ
  poll_humidity : ℚ
  state_entry_time_us : Nat
  last_poll_time_us : Nat
  state : PlantStates
  initialized : Bool
  deriving DecidableEq, Repr

/-- All plant parameters (`struct plant_struct`). -/
structure plant_struct where
  pins : plant_pin_config_struct
  config : plant_watering_config_struct
  status : plant_status_struct
  deriving DecidableEq, Repr

/-- The constant `plant_status_struct_default` (members without an initialiser
are zero). -/
def plant_status_struct_default : plant_status_struct :=
  { poll_median_moisture_sensor := 0
    poll_median_level_sensor := 0
    poll_temperature := 0
    poll_humidity := 0
    state_entry_time_us := 0
    last_poll_time_us := 0
    state := .PLANT_DRYING
    initialized := false }

/-- The constant `plant_default` (`ADC1_CHANNEL_4`, `ADC1_CHANNEL_5`,
`GPIO_NUM_18`, `GPIO_NUM_19` are 4, 5, 18, 19). -/
def plant_default : plant_struct :=
  { pins :=
      { moisture_sensor_adc1_channel := 4
        level_sensor_adc1_channel := 5
        pump_gpio_pin := 18
        dht_gpio_pin := 19 }
    config :=
      { low_moisture := double_to_uint16 ( MOISTURE_SENSOR_VALUE_FROM_RATIO (80 / 100))
        watered_moisture := double_to_uint16 ( MOISTURE_SENSOR_VALUE_FROM_RATIO (92 / 100))
        high_moisture := double_to_uint16 ( MOISTURE_SENSOR_VALUE_FROM_RATIO (93 / 100))
        polling_period_s := 10
        pump_on_period_s := 1
        pump_off_period_s := 59
        wet_hold_period_s := 30 * 60
        dry_hold_period_s := 5 * 60 }
    status := plant_status_struct_default }

/-- The file-scope flags of app_main.c (`mqtt_connected`, `enable_pump`,
`use_fake_poll`, `fake_moisture`, `fake_level`). -/
structure globals where
  mqtt_connected : Bool
  enable_pump : Bool
  use_fake_poll : Bool
  fake_moisture : Nat
  fake_level : Nat
  deriving DecidableEq, Repr

/-- The values the file-scope flags are initialised with. -/
def globals_default : globals :=
  { mqtt_connected := false
    enable_pump := true
    use_fake_poll := false
    fake_moisture := 0
    fake_level := 0 }

/-- Every field of the record holds a value of its C type. -/
def plant_struct.in_range (p : plant_struct) : Prop :=
  p.config.low_moisture < 65536 ∧ p.config.watered_moisture < 65536 ∧
  p.config.high_moisture < 65536 ∧ p.config.polling_period_s < 65536 ∧
  p.config.pump_on_period_s < 65536 ∧ p.config.pump_off_period_s < 65536 ∧
  p.config.wet_hold_period_s < 65536 ∧ p.config.dry_hold_period_s < 65536 ∧
  p.status.poll_median_moisture_sensor < 65536 ∧
  p.status.poll_median_level_sensor < 65536 ∧
  p.status.state_entry_time_us < 18446744073709551616 ∧
  p.status.last_poll_time_us < 18446744073709551616

instance plant_struct.in_range_decidable (p : plant_struct) : Decidable p.in_range := by
  unfold plant_struct.in_range; infer_instance

/-! ## app_main.c : sensors, pump and state machine -/

/-- A message handed to `esp_mqtt_client_publish`: a literal text, the query
response (the eight numbers its text shows, in order: the three ratios as
`%0.2f` prints them, the five periods as `%d` prints them) or the telemetry
object (`test`, `temperature`, `humidity`, `water_available`, `state`). -/
inductive mqtt_msg
  | text (s : String)
  | query_rsp (low_moisture watered_moisture high_moisture : ℚ)
      (polling_period_s pump_on_period_s pump_off_period_s
        wet_hold_period_s dry_hold_period_s : Nat)
  | telemetry (test temperature humidity : ℚ) (water_available state : Nat)
  deriving DecidableEq, Repr

/-- The trace of calls to the outside: `gpio_set_level(pin, level)`,
`adc1_get_raw(channel)`, `esp_mqtt_client_publish(client, topic, msg, ..)`, and
one marker per run of `pollSensors`. -/
inductive Effect
  | gpio_set_level (pin level : Nat)
  | adc1_get_raw (channel : Nat)
  | mqtt_publish (topic : String) (msg : mqtt_msg)
  | poll (now : Nat)
  deriving DecidableEq, Repr

/-- What the hardware answers during one tick: `adc1_get_raw channel k` is the
value of the `k`-th ADC read of a poll (reads are numbered in program order),
`dht_read_float_data pin` the humidity and temperature the DHT driver writes
(nothing when the read fails), `client` whether the MQTT handle is non-NULL. -/
structure sensor_world where
  adc1_get_raw : Nat → Nat → Int
  dht_read_float_data : Nat → Option (ℚ × ℚ)
  client : Bool

/-- The function `pollSensors`. -/
def pollSensors (g : globals) (w : sensor_world) (plant : plant_struct) (now : Nat) :
    plant_struct × List Effect :=
  let acquired : plant_struct × List Effect :=
    if g.use_fake_poll then
      ({ plant with status := { plant.status with
            poll_median_moisture_sensor := g.fake_moisture % 65536
            poll_median_level_sensor := g.fake_level % 65536
            last_poll_time_us := now } }, [])
    else
      let moisture_readings : List Int :=
        (List.range 9).map (fun i => w.adc1_get_raw plant.pins.moisture_sensor_adc1_channel (2 * i))
      let level_readings : List Int :=
        (List.range 9).map (fun i => w.adc1_get_raw plant.pins.level_sensor_adc1_channel (2 * i + 1))
      let reads : List Effect :=
        (List.range 9).flatMap (fun _ =>
          [Effect.adc1_get_raw plant.pins.moisture_sensor_adc1_channel,
           Effect.adc1_get_raw plant.pins.level_sensor_adc1_channel])
      let status := { plant.status with
            poll_median_moisture_sensor := to_uint16 (opt_med9 moisture_readings).1
            poll_median_level_sensor := to_uint16 (opt_med9 level_readings).1
            last_poll_time_us := now }
      let status :=
        match w.dht_read_float_data plant.pins.dht_gpio_pin with
        | some (humidity, temperature) =>
            { status with poll_humidity := humidity, poll_temperature := temperature }
        | none => status
      ({ plant with status := status }, reads)
  let plant := acquired.1
  let moisture_percent := RATIO_FROM_MOISTURE_SENSOR_VALUE plant.status.poll_median_moisture_sensor
  let published : List Effect :=
    if w.client && g.mqtt_connected then
      [Effect.mqtt_publish "/test/test"
        (mqtt_msg.telemetry (100 * moisture_percent) plant.status.poll_temperature
          plant.status.poll_humidity plant.status.poll_median_level_sensor
          plant.status.state.val)]
    else []
  (plant, Effect.poll now :: (acquired.2 ++ published))

/-- The function `turnOnPump` (the pump is active low). -/
def turnOnPump (g : globals) (plant : plant_struct) : List Effect :=
  if g.enable_pump && decide (plant.status.poll_median_level_sensor > 2048) then
    [Effect.gpio_set_level plant.pins.pump_gpio_pin 0]
  else []

/-- The function `turnOffPump` (the pump is active low). -/
def turnOffPump (plant : plant_struct) : List Effect :=
  [Effect.gpio_set_level plant.pins.pump_gpio_pin 1]

/-- The function `initPlant` (the ADC width/attenuation and the GPIO pad and
direction set-up calls leave no entry in the trace). -/
def initPlant (g : globals) (w : sensor_world) (plant : plant_struct) (now : Nat) :
    plant_struct × List Effect :=
  let off := turnOffPump plant
  let polled := pollSensors g w plant now
  let plant := polled.1
  ({ plant with status := { plant.status with
        state_entry_time_us := now
        state := .PLANT_DRYING
        initialized := true } }, off ++ polled.2)

/-- The allow-list computed by the nested `switch` of `changeState`. -/
def changeState_valid (state new_state : PlantStates) : Bool :=
  match state with
  | .PLANT_DRYING =>
      (match new_state with
       | .PLANT_DRY_HOLD => true
       | _ => false)
  | .PLANT_DRY_HOLD =>
      (match new_state with
       | .PLANT_PUMP_DELAY => true
       | .PLANT_DRYING => true
       | _ => false)
  | .PLANT_PUMP_DELAY =>
      (match new_state with
       | .PLANT_PUMP_ON => true
       | .PLANT_WET_HOLD => true
       | _ => false)
  | .PLANT_PUMP_ON =>
      (match new_state with
       | .PLANT_PUMP_DELAY => true
       | _ => false)
  | .PLANT_WET_HOLD =>
      (match new_state with
       | .PLANT_DRYING => true
       | .PLANT_PUMP_DELAY => true
       | _ => false)
  | _ => false

/-- The function `changeState`. -/
def changeState (g : globals) (plant : plant_struct) (new_state : PlantStates) (now : Nat) :
    plant_struct × List Effect :=
  let valid := changeState_valid plant.status.state new_state
  if valid then
    let fx := if new_state = .PLANT_PUMP_ON then turnOnPump g plant else turnOffPump plant
    ({ plant with status := { plant.status with
          state_entry_time_us := now
          state := new_state } }, fx)
  else
    ({ plant with status := { plant.status with
          state_entry_time_us := now
          state := .PLANT_ALARM } }, [])

/-- The `switch` over the current state at the end of `handleStateMachine`. -/
def handleStateMachine_guards (g : globals) (plant : plant_struct) (now : Nat) :
    plant_struct × List Effect :=
  match plant.status.state with
  | .PLANT_DRYING =>
      if plant.status.poll_median_moisture_sensor < plant.config.low_moisture then
        changeState g plant .PLANT_DRY_HOLD now
      else (plant, [])
  | .PLANT_DRY_HOLD =>
      if plant.status.poll_median_moisture_sensor > plant.config.low_moisture then
        changeState g plant .PLANT_DRYING now
      else if u64_sub now plant.status.state_entry_time_us
          > u64_mul plant.config.dry_hold_period_s SEC_IN_MICROSEC then
        changeState g plant .PLANT_PUMP_DELAY now
      else (plant, [])
  | .PLANT_PUMP_DELAY =>
      if plant.status.poll_median_moisture_sensor ≥ plant.config.high_moisture then
        changeState g plant .PLANT_WET_HOLD now
      else if u64_sub now plant.status.state_entry_time_us
          > u64_mul plant.config.pump_off_period_s SEC_IN_MICROSEC then
        changeState g plant .PLANT_PUMP_ON now
      else (plant, [])
  | .PLANT_PUMP_ON =>
      if u64_sub now plant.status.state_entry_time_us
          > u64_mul plant.config.pump_on_period_s SEC_IN_MICROSEC then
        changeState g plant .PLANT_PUMP_DELAY now
      else (plant, [])
  | .PLANT_WET_HOLD =>
      if plant.status.poll_median_moisture_sensor ≤ plant.config.watered_moisture then
        changeState g plant .PLANT_PUMP_DELAY now
      else if u64_sub now plant.status.state_entry_time_us
          > u64_mul plant.config.wet_hold_period_s SEC_IN_MICROSEC then
        changeState g plant .PLANT_DRYING now
      else (plant, [])
  | _ => (plant, [])

/-- The polling condition of `handleStateMachine`:
`state < PLANT_ALARM && now - last_poll_time_us > polling_period_s * SEC_IN_MICROSEC`. -/
def poll_due (plant : plant_struct) (now : Nat) : Bool :=
  decide (plant.status.state.val < PlantStates.PLANT_ALARM.val) &&
    decide (u64_sub now plant.status.last_poll_time_us
      > u64_mul plant.config.polling_period_s SEC_IN_MICROSEC)

/-- The function `handleStateMachine`, with `now = esp_timer_get_time()` as an
input: initialisation when needed, the poll when due, then the guards. -/
def handleStateMachine (g : globals) (w : sensor_world) (plant : plant_struct) (now : Nat) :
    plant_struct × List Effect :=
  let s1 : plant_struct × List Effect :=
    if !plant.status.initialized then initPlant g w plant now else (plant, [])
  let s2 : plant_struct × List Effect :=
    if poll_due s1.1 now then pollSensors g w s1.1 now else (s1.1, [])
  let s3 := handleStateMachine_guards g s2.1 now
  (s3.1, s1.2 ++ s2.2 ++ s3.2)

/-- The guard table of the state machine as the specification words it, on a
reading `m`, an elapsed time `elapsed` in microseconds and a configuration. -/
def guard_table (state : PlantStates) (m elapsed : Nat) (c : plant_watering_config_struct) :
    PlantStates :=
  match state with
  | .PLANT_DRYING => if m < c.low_moisture then .PLANT_DRY_HOLD else .PLANT_DRYING
  | .PLANT_DRY_HOLD =>
      if m > c.low_moisture then .PLANT_DRYING
      else if elapsed > c.dry_hold_period_s * 1000000 then .PLANT_PUMP_DELAY
      else .PLANT_DRY_HOLD
  | .PLANT_PUMP_DELAY =>
      if m ≥ c.high_moisture then .PLANT_WET_HOLD
      else if elapsed > c.pump_off_period_s * 1000000 then .PLANT_PUMP_ON
      else .PLANT_PUMP_DELAY
  | .PLANT_PUMP_ON =>
      if elapsed > c.pump_on_period_s * 1000000 then .PLANT_PUMP_DELAY else .PLANT_PUMP_ON
  | .PLANT_WET_HOLD =>
      if m ≤ c.watered_moisture then .PLANT_PUMP_DELAY
      else if elapsed > c.wet_hold_period_s * 1000000 then .PLANT_DRYING
      else .PLANT_WET_HOLD
  | .PLANT_ALARM => .PLANT_ALARM

/-- The allow-list of `changeState` as the specification lists it. -/
def allow_list : List (PlantStates × PlantStates) :=
  [(.PLANT_DRYING, .PLANT_DRY_HOLD), (.PLANT_DRY_HOLD, .PLANT_PUMP_DELAY),
   (.PLANT_DRY_HOLD, .PLANT_DRYING), (.PLANT_PUMP_DELAY, .PLANT_PUMP_ON),
   (.PLANT_PUMP_DELAY, .PLANT_WET_HOLD), (.PLANT_PUMP_ON, .PLANT_PUMP_DELAY),
   (.PLANT_WET_HOLD, .PLANT_DRYING), (.PLANT_WET_HOLD, .PLANT_PUMP_DELAY)]

/-- Repeated ticks: one `handleStateMachine` per timestamp of the list, each
with its own hardware answers. -/
def ticks (g : globals) (plant : plant_struct) : List (sensor_world × Nat) → plant_struct
  | [] => plant
  | (w, now) :: rest => ticks g (handleStateMachine g w plant now).1 rest

/-! ## app_main.c : persistence and remote configuration -/

/-- The type `esp_err_t`; `ESP_OK` is 0. -/
abbrev esp_err_t := Int

def ESP_OK : esp_err_t := 0

/-- The flash key-value store under the namespace "storage": for each key the
blob a successful `nvs_set_blob` wrote last (a blob is a whole `plant_struct`). -/
abbrev nvs_store := String → Option plant_struct

/-- What the flash driver answers to the calls of one operation: the results of
`nvs_open`, `nvs_set_blob`, `nvs_commit`, of the `nvs_get_blob` call that asks
for the size of the blob and of the `nvs_get_blob` call that reads it. -/
structure nvs_driver where
  open_err : esp_err_t
  set_blob_err : esp_err_t
  commit_err : esp_err_t
  get_size_err : esp_err_t
  get_blob_err : esp_err_t
  deriving DecidableEq, Repr

/-- A driver whose calls all succeed. -/
def nvs_driver_ok : nvs_driver :=
  { open_err := ESP_OK, set_blob_err := ESP_OK, commit_err := ESP_OK,
    get_size_err := ESP_OK, get_blob_err := ESP_OK }

/-- The function `store_plant_to_nvs`: the error code returned and the store. -/
def store_plant_to_nvs (drv : nvs_driver) (nvs : nvs_store) (plant : plant_struct)
    (nvs_key : String) : esp_err_t × nvs_store :=
  if drv.open_err ≠ ESP_OK then (drv.open_err, nvs)
  else if drv.set_blob_err ≠ ESP_OK then (drv.set_blob_err, nvs)
  else
    let nvs := fun k => if k = nvs_key then some plant else nvs k
    if drv.commit_err ≠ ESP_OK then (drv.commit_err, nvs)
    else (ESP_OK, nvs)

/-- The ESP-IDF error code `ESP_ERR_NVS_NOT_FOUND` (`ESP_ERR_NVS_BASE + 0x02`,
with `ESP_ERR_NVS_BASE = 0x1100`). -/
def ESP_ERR_NVS_NOT_FOUND : esp_err_t := 4354

/-- The library call `nvs_get_blob` on a key: the error code and the blob found.
An answer `err` of the driver other than `ESP_OK` and `ESP_ERR_NVS_NOT_FOUND` is
a failure of the call; otherwise the call reports what the store holds, a blob
with `ESP_OK` or none with `ESP_ERR_NVS_NOT_FOUND`. -/
def nvs_get_blob (err : esp_err_t) (nvs : nvs_store) (nvs_key : String) :
    esp_err_t × Option plant_struct :=
  if err ≠ ESP_OK ∧ err ≠ ESP_ERR_NVS_NOT_FOUND then (err, none)
  else
    match nvs nvs_key with
    | some blob => (ESP_OK, some blob)
    | none => (ESP_ERR_NVS_NOT_FOUND, none)

/-- The size in bytes of a stored blob, `sizeof(struct plant_struct)`: four
`int` pins, eight `uint16_t` fields, two `uint16_t` medians and two `float`s,
two `uint64_t` times, the state and the flag, each aligned on the ESP32. -/
def sizeof_plant_struct : Nat := 72

/-- The function `read_plant_from_nvs`: the error code returned and the
caller's record. `required_size` starts at 0 and is set by the first
`nvs_get_blob` only when it finds a blob; the second call fills the record
only when it succeeds. -/
def read_plant_from_nvs (drv : nvs_driver) (nvs : nvs_store) (plant : plant_struct)
    (nvs_key : String) : esp_err_t × plant_struct :=
  if drv.open_err ≠ ESP_OK then (drv.open_err, plant)
  else
    let sized := nvs_get_blob drv.get_size_err nvs nvs_key
    let required_size : Nat := if sized.2.isSome then sizeof_plant_struct else 0
    if sized.1 ≠ ESP_OK ∧ sized.1 ≠ ESP_ERR_NVS_NOT_FOUND then (sized.1, plant)
    else if required_size > 0 then
      let got := nvs_get_blob drv.get_blob_err nvs nvs_key
      let plant :=
        match got.2 with
        | some blob => blob
        | none => plant
      let plant := { plant with status := plant_status_struct_default }
      if got.1 ≠ ESP_OK then (got.1, plant)
      else (ESP_OK, plant)
    else (ESP_OK, plant)

/-- A parsed JSON value as cJSON holds it; a number carries both `valuedouble`
and `valueint`. -/
inductive cJSON
  | null
  | bool (b : Bool)
  | number (valuedouble : ℚ) (valueint : Int)
  | string (s : String)
  | array (items : List cJSON)
  | object (items : List (String × cJSON))

/-- The cJSON function `cJSON_GetObjectItemCaseSensitive`: the first member with
that exact name, NULL when there is none or the item has no named members. -/
def cJSON_GetObjectItemCaseSensitive (object : Option cJSON) (name : String) : Option cJSON :=
  match object with
  | some (.object items) => (items.find? (fun kv => kv.1 = name)).map (fun kv => kv.2)
  | _ => none

/-- The cJSON function `cJSON_IsObject` (false on NULL). -/
def cJSON_IsObject (item : Option cJSON) : Bool :=
  match item with
  | some (.object _) => true
  | _ => false

/-- The cJSON function `cJSON_IsNumber` (false on NULL). -/
def cJSON_IsNumber (item : Option cJSON) : Bool :=
  match item with
  | some (.number _ _) => true
  | _ => false

/-- The member `valuedouble` of a number item (read only after `cJSON_IsNumber`). -/
def valuedouble (item : Option cJSON) : ℚ :=
  match item with
  | some (.number d _) => d
  | _ => 0

/-- The member `valueint` of a number item (read only after `cJSON_IsNumber`). -/
def valueint (item : Option cJSON) : Int :=
  match item with
  | some (.number _ i) => i
  | _ => 0

/-- The test `0 == strncmp("query", event->data, sizeof("query")-1)`: the first
five characters of the payload are `query`. -/
def is_query (data : String) : Bool :=
  decide (data.toList.take 5 = ['q', 'u', 'e', 'r', 'y'])

/-- Modelled from the spec: the ESP-IDF macro `ESP_ERROR_CHECK`, which is not in
the repository. A persistence failure is a fatal condition for the operation:
the check is fatal exactly when the code is not `ESP_OK`. -/
def ESP_ERROR_CHECK (err : esp_err_t) : Bool := decide (err ≠ ESP_OK)

/-- The outcome of `process_mqqt_data`: `global_plant` and the store afterwards,
the messages published, and whether the call ended in the fatal error path. -/
structure mqqt_result where
  plant : plant_struct
  nvs : nvs_store
  published : List Effect
  aborted : Bool

def RESPONSE_TOPIC : String := "/topic/qos1"
def CONFIG_ACCEPTED : mqtt_msg := .text "CONFIG ACCEPTED"
def CONFIG_REJECTED_SANITY : mqtt_msg := .text "CONFIG REJECTED - Failed sanity check"
def CONFIG_REJECTED_PARSE : mqtt_msg := .text "CONFIG REJECTED - Parse Failed"
def JSON_PARSE_ERROR : mqtt_msg := .text "JSON PARSE ERROR"
def UNEXPECTED_JSON_STRUCTURE : mqtt_msg := .text "Unexpected JSON structure"

/-- The "Simple sanity check of parameters" of `process_mqqt_data`, on the eight
items of the request. -/
def sanity_check (low_moisture_item watered_moisture_item high_moisture_item
    polling_period_s_item pump_on_period_s_item pump_off_period_s_item
    wet_hold_period_s_item dry_hold_period_s_item : Option cJSON) : Bool :=
  decide (valuedouble low_moisture_item < valuedouble watered_moisture_item) &&
  decide (valuedouble watered_moisture_item ≤ valuedouble high_moisture_item) &&
  decide (valueint polling_period_s_item > 0) &&
  decide (valueint pump_on_period_s_item > 0) &&
  decide (valueint pump_off_period_s_item > 0) &&
  decide (valueint wet_hold_period_s_item > 0) &&
  decide (valueint dry_hold_period_s_item > 0)

/-- The function `process_mqqt_data`, for the payload `data` (`event->data`);
`cJSON_Parse` is the library parser, `drv` the flash driver's answers. -/
def process_mqqt_data (cJSON_Parse : String → Option cJSON) (drv : nvs_driver)
    (global_plant : plant_struct) (nvs : nvs_store) (data : String) : mqqt_result :=
  let json := cJSON_Parse data
  if is_query data then
    let query_rsp := mqtt_msg.query_rsp
      (printf_0_2f ( RATIO_FROM_MOISTURE_SENSOR_VALUE global_plant.config.low_moisture))
      (printf_0_2f ( RATIO_FROM_MOISTURE_SENSOR_VALUE global_plant.config.watered_moisture))
      (printf_0_2f ( RATIO_FROM_MOISTURE_SENSOR_VALUE global_plant.config.high_moisture))
      global_plant.config.polling_period_s
      global_plant.config.pump_on_period_s
      global_plant.config.pump_off_period_s
      global_plant.config.wet_hold_period_s
      global_plant.config.dry_hold_period_s
    { plant := global_plant, nvs := nvs,
      published := [Effect.mqtt_publish RESPONSE_TOPIC query_rsp], aborted := false }
  else if json.isNone then
    { plant := global_plant, nvs := nvs,
      published := [Effect.mqtt_publish RESPONSE_TOPIC JSON_PARSE_ERROR], aborted := false }
  else
    let config := cJSON_GetObjectItemCaseSensitive json "config"
    if cJSON_IsObject config then
      let low_moisture_item := cJSON_GetObjectItemCaseSensitive config "low_moisture"
      let watered_moisture_item := cJSON_GetObjectItemCaseSensitive config "watered_moisture"
      let high_moisture_item := cJSON_GetObjectItemCaseSensitive config "high_moisture"
      let polling_period_s_item := cJSON_GetObjectItemCaseSensitive config "polling_period_s"
      let pump_on_period_s_item := cJSON_GetObjectItemCaseSensitive config "pump_on_period_s"
      let pump_off_period_s_item := cJSON_GetObjectItemCaseSensitive config "pump_off_period_s"
      let wet_hold_period_s_item := cJSON_GetObjectItemCaseSensitive config "wet_hold_period_s"
      let dry_hold_period_s_item := cJSON_GetObjectItemCaseSensitive config "dry_hold_period_s"
      if cJSON_IsNumber low_moisture_item &&
          cJSON_IsNumber watered_moisture_item &&
          cJSON_IsNumber high_moisture_item &&
          cJSON_IsNumber polling_period_s_item &&
          cJSON_IsNumber pump_on_period_s_item &&
          cJSON_IsNumber pump_off_period_s_item &&
          cJSON_IsNumber wet_hold_period_s_item &&
          cJSON_IsNumber dry_hold_period_s_item then
        if sanity_check low_moisture_item watered_moisture_item high_moisture_item
            polling_period_s_item pump_on_period_s_item pump_off_period_s_item
            wet_hold_period_s_item dry_hold_period_s_item then
          let global_plant := { global_plant with config :=
            { low_moisture :=
                double_to_uint16 ( MOISTURE_SENSOR_VALUE_FROM_RATIO (valuedouble low_moisture_item))
              watered_moisture :=
                double_to_uint16 ( MOISTURE_SENSOR_VALUE_FROM_RATIO (valuedouble watered_moisture_item))
              high_moisture :=
                double_to_uint16 ( MOISTURE_SENSOR_VALUE_FROM_RATIO (valuedouble high_moisture_item))
              polling_period_s := to_uint16 (valueint polling_period_s_item)
              pump_on_period_s := to_uint16 (valueint pump_on_period_s_item)
              pump_off_period_s := to_uint16 (valueint pump_off_period_s_item)
              wet_hold_period_s := to_uint16 (valueint wet_hold_period_s_item)
              dry_hold_period_s := to_uint16 (valueint dry_hold_period_s_item) } }
          let stored := store_plant_to_nvs drv nvs global_plant PLANT_NVS_KEY
          if ESP_ERROR_CHECK stored.1 then
            { plant := global_plant, nvs := stored.2, published := [], aborted := true }
          else
            { plant := global_plant, nvs := stored.2,
              published := [Effect.mqtt_publish RESPONSE_TOPIC CONFIG_ACCEPTED],
              aborted := false }
        else
          { plant := global_plant, nvs := nvs,
            published := [Effect.mqtt_publish RESPONSE_TOPIC CONFIG_REJECTED_SANITY],
            aborted := false }
      else
        { plant := global_plant, nvs := nvs,
          published := [Effect.mqtt_publish RESPONSE_TOPIC CONFIG_REJECTED_PARSE],
          aborted := false }
    else
      { plant := global_plant, nvs := nvs,
        published := [Effect.mqtt_publish RESPONSE_TOPIC UNEXPECTED_JSON_STRUCTURE],
        aborted := false }

/-- The IrrigationConfig invariant of the specification:
`low_moisture < watered_moisture <= high_moisture` and all five periods > 0. -/
def config_invariant (c : plant_watering_config_struct) : Prop :=
  c.low_moisture < c.watered_moisture ∧ c.watered_moisture ≤ c.high_moisture ∧
  0 < c.polling_period_s ∧ 0 < c.pump_on_period_s ∧ 0 < c.pump_off_period_s ∧
  0 < c.wet_hold_period_s ∧ 0 < c.dry_hold_period_s

instance config_invariant_decidable (c : plant_watering_config_struct) :
    Decidable (config_invariant c) := by
  unfold config_invariant; infer_instance

/-- A configuration update request: the eight members of the nested "config"
object, ratios as `valuedouble`, periods as `valueint`. -/
structure config_request where
  low_moisture : ℚ
  watered_moisture : ℚ
  high_moisture : ℚ
  polling_period_s : Int
  pump_on_period_s : Int
  pump_off_period_s : Int
  wet_hold_period_s : Int
  dry_hold_period_s : Int

/-- The parsed form of the request `{"config": {...}}` with its eight members
as numbers (for an integer member cJSON sets `valuedouble` to the same value). -/
def config_request.json (r : config_request) : cJSON :=
  .object [("config", .object
    [("low_moisture", .number r.low_moisture (trunc r.low_moisture)),
     ("watered_moisture", .number r.watered_moisture (trunc r.watered_moisture)),
     ("high_moisture", .number r.high_moisture (trunc r.high_moisture)),
     ("polling_period_s", .number r.polling_period_s r.polling_period_s),
     ("pump_on_period_s", .number r.pump_on_period_s r.pump_on_period_s),
     ("pump_off_period_s", .number r.pump_off_period_s r.pump_off_period_s),
     ("wet_hold_period_s", .number r.wet_hold_period_s r.wet_hold_period_s),
     ("dry_hold_period_s", .number r.dry_hold_period_s r.dry_hold_period_s)])]

/-- The record after the polling step of a tick of an initialised plant: the
poll is run when it is due. -/
def after_poll (g : globals) (w : sensor_world) (plant : plant_struct) (now : Nat) :
    plant_struct :=
  if poll_due plant now then (pollSensors g w plant now).1 else plant

/-- The `gpio_set_level` calls of a trace, as (pin, level) pairs. -/
def gpio_writes (fx : List Effect) : List (Nat × Nat) :=
  fx.filterMap (fun e =>
    match e with
    | .gpio_set_level pin level => some (pin, level)
    | _ => none)

/-- The number of runs of `pollSensors` in a trace. -/
def polls (fx : List Effect) : Nat :=
  fx.countP (fun e =>
    match e with
    | .poll _ => true
    | _ => false)

/-- The member `name` of the nested "config" object of a parsed payload, as
`process_mqqt_data` looks it up. -/
def request_item (json : Option cJSON) (name : String) : Option cJSON :=
  cJSON_GetObjectItemCaseSensitive (cJSON_GetObjectItemCaseSensitive json "config") name

/-- The payload parsed to an object with a nested "config" object that holds all
eight fields as numbers. -/
def well_typed_request (json : Option cJSON) : Prop :=
  cJSON_IsObject (cJSON_GetObjectItemCaseSensitive json "config") = true ∧
  cJSON_IsNumber (request_item json "low_moisture") = true ∧
  cJSON_IsNumber (request_item json "watered_moisture") = true ∧
  cJSON_IsNumber (request_item json "high_moisture") = true ∧
  cJSON_IsNumber (request_item json "polling_period_s") = true ∧
  cJSON_IsNumber (request_item json "pump_on_period_s") = true ∧
  cJSON_IsNumber (request_item json "pump_off_period_s") = true ∧
  cJSON_IsNumber (request_item json "wet_hold_period_s") = true ∧
  cJSON_IsNumber (request_item json "dry_hold_period_s") = true

/-- The sanity condition as the specification words it: low < watered <= high
on the ratios of the request and each of the five periods > 0 as integers. -/
def request_sane (json : Option cJSON) : Prop :=
  valuedouble (request_item json "low_moisture")
    < valuedouble (request_item json "watered_moisture") ∧
  valuedouble (request_item json "watered_moisture")
    ≤ valuedouble (request_item json "high_moisture") ∧
  0 < valueint (request_item json "polling_period_s") ∧
  0 < valueint (request_item json "pump_on_period_s") ∧
  0 < valueint (request_item json "pump_off_period_s") ∧
  0 < valueint (request_item json "wet_hold_period_s") ∧
  0 < valueint (request_item json "dry_hold_period_s")

instance well_typed_request_decidable (json : Option cJSON) :
    Decidable (well_typed_request json) := by
  unfold well_typed_request; infer_instance

instance request_sane_decidable (json : Option cJSON) : Decidable (request_sane json) := by
  unfold request_sane; infer_instance

/-- The configuration `process_mqqt_data` writes for a request that passed the
sanity check (the eight assignments to `global_plant.config`). -/
def converted_config (json : Option cJSON) : plant_watering_config_struct :=
  { low_moisture := double_to_uint16
      ( MOISTURE_SENSOR_VALUE_FROM_RATIO (valuedouble (request_item json "low_moisture")))
    watered_moisture := double_to_uint16
      ( MOISTURE_SENSOR_VALUE_FROM_RATIO (valuedouble (request_item json "watered_moisture")))
    high_moisture := double_to_uint16
      ( MOISTURE_SENSOR_VALUE_FROM_RATIO (valuedouble (request_item json "high_moisture")))
    polling_period_s := to_uint16 (valueint (request_item json "polling_period_s"))
    pump_on_period_s := to_uint16 (valueint (request_item json "pump_on_period_s"))
    pump_off_period_s := to_uint16 (valueint (request_item json "pump_off_period_s"))
    wet_hold_period_s := to_uint16 (valueint (request_item json "wet_hold_period_s"))
    dry_hold_period_s := to_uint16 (valueint (request_item json "dry_hold_period_s")) }

/-- The three driver calls of `store_plant_to_nvs` all answer `ESP_OK`. -/
def nvs_driver.store_ok (drv : nvs_driver) : Prop :=
  drv.open_err = ESP_OK ∧ drv.set_blob_err = ESP_OK ∧ drv.commit_err = ESP_OK

instance nvs_driver.store_ok_decidable (drv : nvs_driver) : Decidable drv.store_ok := by
  unfold nvs_driver.store_ok; infer_instance

/-- The ADC channels read in a trace, in program order. -/
def adc_reads (fx : List Effect) : List Nat :=
  fx.filterMap (fun e =>
    match e with
    | .adc1_get_raw channel => some channel
    | _ => none)

/-- The level last commanded on the pin `pin` once the trace `fx` has run:
the level of the last `gpio_set_level` on that pin, `prev` when there is none. -/
def last_pump_command (pin : Nat) (prev : Option Nat) (fx : List Effect) : Option Nat :=
  match ((gpio_writes fx).filter (fun pl => pl.1 = pin)).getLast? with
  | some pl => some pl.2
  | none => prev

/-- One step of the running controller: a tick of `handleStateMachine` (with
its flags, hardware answers and timestamp) or a change of the configuration
between two ticks. -/
inductive controller_step
  | tick (g : globals) (w : sensor_world) (now : Nat)
  | configure (c : plant_watering_config_struct)

/-- The controller with the pump as explicit state: the record and the level
last commanded on the pump pin (none before the first command), after the
steps of the list. -/
def controller_run :
    plant_struct × Option Nat → List controller_step → plant_struct × Option Nat
  | s, [] => s
  | s, .tick g w now :: rest =>
      controller_run
        ((handleStateMachine g w s.1 now).1,
          last_pump_command s.1.pins.pump_gpio_pin s.2 (handleStateMachine g w s.1 now).2) rest
  | s, .configure c :: rest => controller_run ({ s.1 with config := c }, s.2) rest

/-- Whether a list of steps holds a tick. -/
def has_tick : List controller_step → Bool
  | [] => false
  | .tick _ _ _ :: _ => true
  | .configure _ :: rest => has_tick rest

/-- Every tick of the list finds, after its polling step, a moisture reading
that satisfies `ok`. -/
def readings_all (ok : Nat → Prop) (g : globals) :
    plant_struct → List (sensor_world × Nat) → Prop
  | _, [] => True
  | p, (w, now) :: rest =>
      ok (after_poll g w p now).status.poll_median_moisture_sensor ∧
        readings_all ok g (handleStateMachine g w p now).1 rest

/-- The nine samples `pollSensors` draws from the moisture channel. -/
def moisture_samples (w : sensor_world) (plant : plant_struct) : List Int :=
  (List.range 9).map (fun i => w.adc1_get_raw plant.pins.moisture_sensor_adc1_channel (2 * i))

/-- The nine samples `pollSensors` draws from the level channel. -/
def level_samples (w : sensor_world) (plant : plant_struct) : List Int :=
  (List.range 9).map (fun i => w.adc1_get_raw plant.pins.level_sensor_adc1_channel (2 * i + 1))

/-- The record `q` with its state replaced by `s`. -/
def in_state (q : plant_struct) (s : PlantStates) : plant_struct :=
  { q with status := { q.status with state := s } }

/-! ## optmed.c : the other selection networks -/

/-- The function `opt_med3` of optmed.c: the returned value and the array. -/
def opt_med3 (p : List Int) : Int × List Int :=
  let p := INT_SORT p 0 1
  let p := INT_SORT p 1 2
  let p := INT_SORT p 0 1
  (p.getD 1 0, p)

/-- The index pairs of the `INT_SORT` steps of `opt_med3`, in program order. -/
def opt_med3_pairs : List (Nat × Nat) := [(0, 1), (1, 2), (0, 1)]

/-- The function `opt_med5` of optmed.c: the returned value and the array. -/
def opt_med5 (p : List Int) : Int × List Int :=
  let p := INT_SORT p 0 1
  let p := INT_SORT p 3 4
  let p := INT_SORT p 0 3
  let p := INT_SORT p 1 4
  let p := INT_SORT p 1 2
  let p := INT_SORT p 2 3
  let p := INT_SORT p 1 2
  (p.getD 2 0, p)

/-- The index pairs of the `INT_SORT` steps of `opt_med5`, in program order. -/
def opt_med5_pairs : List (Nat × Nat) :=
  [(0, 1), (3, 4), (0, 3), (1, 4), (1, 2), (2, 3), (1, 2)]

/-- Two's-complement reduction of an integer to the 32-bit `int` (C leaves
signed overflow undefined; the usual targets wrap). -/
def to_int32 (v : Int) : Int := (v + 2147483648) % 4294967296 - 2147483648

/-- The function `opt_med6` of optmed.c: the returned value and the array. The
`return ( p[2] + p[3] ) * 0.5;` adds two `int`s, multiplies the sum by the
`double` 0.5 and converts the product to the return type `int`. -/
def opt_med6 (p : List Int) : Int × List Int :=
  let p := INT_SORT p 1 2
  let p := INT_SORT p 3 4
  let p := INT_SORT p 0 1
  let p := INT_SORT p 2 3
  let p := INT_SORT p 4 5
  let p := INT_SORT p 1 2
  let p := INT_SORT p 3 4
  let p := INT_SORT p 0 1
  let p := INT_SORT p 2 3
  let p := INT_SORT p 4 5
  let p := INT_SORT p 1 2
  let p := INT_SORT p 3 4
  (trunc (((to_int32 (p.getD 2 0 + p.getD 3 0) : Int) : ℚ) * (1 / 2)), p)

/-- The index pairs of the `INT_SORT` steps of `opt_med6`, in program order. -/
def opt_med6_pairs : List (Nat × Nat) :=
  [(1, 2), (3, 4), (0, 1), (2, 3), (4, 5), (1, 2), (3, 4), (0, 1), (2, 3), (4, 5),
   (1, 2), (3, 4)]

/-- The function `opt_med7` of optmed.c: the returned value and the array. -/
def opt_med7 (p : List Int) : Int × List Int :=
  let p := INT_SORT p 0 5
  let p := INT_SORT p 0 3
  let p := INT_SORT p 1 6
  let p := INT_SORT p 2 4
  let p := INT_SORT p 0 1
  let p := INT_SORT p 3 5
  let p := INT_SORT p 2 6
  let p := INT_SORT p 2 3
  let p := INT_SORT p 3 6
  let p := INT_SORT p 4 5
  let p := INT_SORT p 1 4
  let p := INT_SORT p 1 3
  let p := INT_SORT p 3 4
  (p.getD 3 0, p)

/-- The index pairs of the `INT_SORT` steps of `opt_med7`, in program order. -/
def opt_med7_pairs : List (Nat × Nat) :=
  [(0, 5), (0, 3), (1, 6), (2, 4), (0, 1), (3, 5), (2, 6), (2, 3), (3, 6), (4, 5),
   (1, 4), (1, 3), (3, 4)]

/-- The index pairs of the ninety-nine `INT_SORT` steps of `opt_med25`, in
program order, three to a line as in the source. -/
def opt_med25_pairs : List (Nat × Nat) :=
  [(0, 1), (3, 4), (2, 4),
   (2, 3), (6, 7), (5, 7),
   (5, 6), (9, 10), (8, 10),
   (8, 9), (12, 13), (11, 13),
   (11, 12), (15, 16), (14, 16),
   (14, 15), (18, 19), (17, 19),
   (17, 18), (21, 22), (20, 22),
   (20, 21), (23, 24), (2, 5),
   (3, 6), (0, 6), (0, 3),
   (4, 7), (1, 7), (1, 4),
   (11, 14), (8, 14), (8, 11),
   (12, 15), (9, 15), (9, 12),
   (13, 16), (10, 16), (10, 13),
   (20, 23), (17, 23), (17, 20),
   (21, 24), (18, 24), (18, 21),
   (19, 22), (8, 17), (9, 18),
   (0, 18), (0, 9), (10, 19),
   (1, 19), (1, 10), (11, 20),
   (2, 20), (2, 11), (12, 21),
   (3, 21), (3, 12), (13, 22),
   (4, 22), (4, 13), (14, 23),
   (5, 23), (5, 14), (15, 24),
   (6, 24), (6, 15), (7, 16),
   (7, 19), (13, 21), (15, 23),
   (7, 13), (7, 15), (1, 9),
   (3, 11), (5, 17), (11, 17),
   (9, 17), (4, 10), (6, 12),
   (7, 14), (4, 6), (4, 7),
   (12, 14), (10, 14), (6, 7),
   (10, 12), (6, 10), (6, 17),
   (12, 17), (7, 17), (7, 10),
   (12, 18), (7, 12), (10, 18),
   (12, 20), (10, 20), (10, 12)]

/-- The function `opt_med25` of optmed.c: the returned value and the array (the
ninety-nine `INT_SORT` steps are run from the list of their index pairs). -/
def opt_med25 (p : List Int) : Int × List Int :=
  let p := sort_pairs p opt_med25_pairs
  (p.getD 12 0, p)

/-! ## Truth tables for the zero-one check of large networks -/

/-- The truth table of "true" over `n` variables: bit `m` is set for every
assignment `m < 2^n`. -/
def ones_table : Nat → Nat
  | 0 => 1
  | n + 1 => ones_table n ||| (ones_table n <<< (2 ^ n))

/-- The truth table of variable `i` over `n` variables: bit `m` is set exactly
when bit `i` of the assignment `m` is. -/
def var_table : Nat → Nat → Nat
  | 0, _ => 0
  | n + 1, i =>
    if i = n then ones_table n <<< (2 ^ n)
    else var_table n i ||| (var_table n i <<< (2 ^ n))

/-- The input tables of a network of `n + e` wires in case `c`: the first `n`
wires carry the `n` variables, the last `e` wires the constants given by the
bits of `c`. -/
def case_tables (n e c : Nat) : List Nat :=
  (List.range n).map (var_table n)
    ++ (List.range e).map (fun i => if c.testBit i then ones_table n else 0)

/-- One compare-and-swap step on truth tables: the minimum is the conjunction,
the maximum the disjunction. -/
def table_sort (t : List Nat) (c : Nat × Nat) : List Nat :=
  let a := t.getD c.1 0
  let b := t.getD c.2 0
  (t.set c.1 (a &&& b)).set c.2 (a ||| b)

/-- Row `k` of the threshold tables, columns 0..`cols`: entry `j` is the truth
table of "at least `j` of the first `k` wires of `wires` are true". -/
def threshold_row (ones : Nat) (cols : Nat) (wires : List Nat) : Nat → List Nat
  | 0 => ones :: List.replicate cols 0
  | k + 1 =>
    let prev := threshold_row ones cols wires k
    let v := wires.getD k 0
    ones :: (List.range cols).map (fun j => prev.getD (j + 1) 0 ||| (prev.getD j 0 &&& v))

/-- The check, on all `2^n` assignments of case `c` at once, that output `k` of
the network `cs` on `n + e` wires is true exactly when at least `n + e - r` of
the inputs are. -/
def network_check (n e c k r : Nat) (cs : List (Nat × Nat)) : Bool :=
  let t0 := case_tables n e c
  let t := cs.foldl table_sort t0
  t.getD k 0 == (threshold_row (ones_table n) (n + e - r) t0 (n + e)).getD (n + e - r) 0

/-- The assignment number `m` of `n` truth values: entry `i` is bit `i` of `m`. -/
def bits_of (n m : Nat) : List Bool := (List.range n).map (fun i => m.testBit i)

/-- The round-trip bound of a ratio `r` reported back as `q`: `q` is
`(trunc(r * 1896 + 720) - 720) / 1896`, lies in `(r - 1/1896, r]` and equals `r`
exactly when `r * 1896` is an integer. -/
def round_trip_bound (r q : ℚ) : Prop :=
  q = ((trunc (r * 1896 + 720) : ℚ) - 720) / 1896 ∧
  r - 1 / 1896 < q ∧ q ≤ r ∧ (q = r ↔ ∃ k : Int, r * 1896 = (k : ℚ))

/-- The bound of the amended round trip of a ratio `r` reported back as `q` by a
query: `q` is the value `y = (trunc(r * 1896 + 720) - 720) / 1896` as `%0.2f`
prints it; `y` lies in `(r - 1/1896, r]`, `q` is within 1/200 of `y`, so `q`
lies in `(r - 1/1896 - 1/200, r + 1/200]`, and `q` equals `r` exactly when
`r * 100` is an integer. -/
def reported_bound (r q : ℚ) : Prop :=
  q = printf_0_2f (((trunc (r * 1896 + 720) : ℚ) - 720) / 1896) ∧
  r - 1 / 1896 < ((trunc (r * 1896 + 720) : ℚ) - 720) / 1896 ∧
  ((trunc (r * 1896 + 720) : ℚ) - 720) / 1896 ≤ r ∧
  |q - ((trunc (r * 1896 + 720) : ℚ) - 720) / 1896| ≤ 1 / 200 ∧
  r - 1 / 1896 - 1 / 200 < q ∧ q ≤ r + 1 / 200 ∧
  (q = r ↔ ∃ k : Int, r * 100 = (k : ℚ))

/-! ## Concrete inputs used in examples -/

/-- Hardware that answers every ADC read with `raw` and has no DHT reading. -/
def sample_world (raw : Int) : sensor_world :=
  { adc1_get_raw := fun _ _ => raw, dht_read_float_data := fun _ => none, client := false }

/-- The default thresholds and periods, as stored values. -/
def sample_config : plant_watering_config_struct :=
  { low_moisture := 2236
    watered_moisture := 2464
    high_moisture := 2483
    polling_period_s := 10
    pump_on_period_s := 1
    pump_off_period_s := 59
    wet_hold_period_s := 1800
    dry_hold_period_s := 300 }

/-- An initialised plant with the default pins and `sample_config`. -/
def sample_plant (state : PlantStates) (moisture level entry last : Nat) : plant_struct :=
  { pins :=
      { moisture_sensor_adc1_channel := 4
        level_sensor_adc1_channel := 5
        pump_gpio_pin := 18
        dht_gpio_pin := 19 }
    config := sample_config
    status :=
      { poll_median_moisture_sensor := moisture
        poll_median_level_sensor := level
        poll_temperature := 0
        poll_humidity := 0
        state_entry_time_us := entry
        last_poll_time_us := last
        state := state
        initialized := true } }

/-- An empty flash store. -/
def nvs_empty : nvs_store := fun _ => none

/-- A driver whose `nvs_commit` fails (with `ESP_FAIL`, -1). -/
def nvs_driver_commit_fails : nvs_driver :=
  { open_err := ESP_OK, set_blob_err := ESP_OK, commit_err := -1,
    get_size_err := ESP_OK, get_blob_err := ESP_OK }

/-- The request of the documentation comment above `process_mqqt_data`
(0.80, 0.92, 0.93, 10, 2, 58, 1800, 300). -/
def request_documented : config_request :=
  { low_moisture := 4 / 5
    watered_moisture := 23 / 25
    high_moisture := 93 / 100
    polling_period_s := 10
    pump_on_period_s := 2
    pump_off_period_s := 58
    wet_hold_period_s := 1800
    dry_hold_period_s := 300 }

/-- A request with ratios 0.5, 0.5005, 0.93 and a wet-hold period of 65536 s. -/
def request_collapsing : config_request :=
  { low_moisture := 1 / 2
    watered_moisture := 1001 / 2000
    high_moisture := 93 / 100
    polling_period_s := 10
    pump_on_period_s := 1
    pump_off_period_s := 59
    wet_hold_period_s := 65536
    dry_hold_period_s := 300 }

/-- The documented request with a polling period of 70000 s. -/
def request_long_period : config_request :=
  { low_moisture := 4 / 5
    watered_moisture := 23 / 25
    high_moisture := 93 / 100
    polling_period_s := 70000
    pump_on_period_s := 2
    pump_off_period_s := 58
    wet_hold_period_s := 1800
    dry_hold_period_s := 300 }

/-- A request with ratios 0.0625, 0.125, 0.93 and the documented periods. -/
def request_eighths : config_request :=
  { low_moisture := 1 / 16
    watered_moisture := 1 / 8
    high_moisture := 93 / 100
    polling_period_s := 10
    pump_on_period_s := 2
    pump_off_period_s := 58
    wet_hold_period_s := 1800
    dry_hold_period_s := 300 }

/-- A parser that answers every payload with the parsed request `r`. -/
def parse_as (r : config_request) : String → Option cJSON :=
  fun _ => some r.json

/-- An uninitialised plant whose stored state is PUMP_ON. -/
def sample_uninitialised : plant_struct :=
  { sample_plant .PLANT_PUMP_ON 0 0 0 0 with
      status := { plant_status_struct_default with state := .PLANT_PUMP_ON } }

/-! ## Theorems: optmed.c -/

/-- The body of `opt_med9` is the run of `INT_SORT` over `opt_med9_pairs`. -/
theorem opt_med9_eq_sort_pairs (p : List Int) :
    opt_med9 p = ((sort_pairs p opt_med9_pairs).getD 4 0, sort_pairs p opt_med9_pairs) := by
  simp only [opt_med9, sort_pairs, opt_med9_pairs, List.foldl]

/-- The step `INT_SORT` keeps the length of the array. -/
theorem INT_SORT_length (p : List Int) (i j : Nat) : (INT_SORT p i j).length = p.length := by
  unfold INT_SORT INT_SWAP
  split <;> simp

/-- A run of `INT_SORT` steps keeps the length of the array. -/
theorem sort_pairs_length (cs : List (Nat × Nat)) (p : List Int) :
    (sort_pairs p cs).length = p.length := by
  induction cs generalizing p with
  | nil => rfl
  | cons c cs ih =>
    show (sort_pairs (INT_SORT p c.1 c.2) cs).length = p.length
    rw [ih, INT_SORT_length]

/-- The step `INT_SORT` commutes with every monotone map to the truth values. -/
theorem INT_SORT_map (f : Int → Bool) (hf : ∀ a b : Int, a ≤ b → f a = true → f b = true)
    (p : List Int) (i j : Nat) (hi : i < p.length) (hj : j < p.length) :
    (INT_SORT p i j).map f = bit_sort (p.map f) (i, j) := by
  have ei : p.getD i 0 = p[i] := List.getD_eq_getElem _ _ hi
  have ej : p.getD j 0 = p[j] := List.getD_eq_getElem _ _ hj
  have hgi : (p.map f).getD i false = f p[i] := by
    rw [List.getD_eq_getElem _ _ (by simpa using hi)]; simp
  have hgj : (p.map f).getD j false = f p[j] := by
    rw [List.getD_eq_getElem _ _ (by simpa using hj)]; simp
  unfold INT_SORT INT_SWAP bit_sort
  simp only [hgi, hgj, ei, ej]
  by_cases hlt : p[i] > p[j]
  · rw [if_pos hlt]
    simp only [List.map_set]
    by_cases hc : f p[i] = true ∧ f p[j] = false
    · rw [if_pos hc, hc.1, hc.2]
    · rw [if_neg hc]
      have hji : f p[j] = f p[i] := by
        cases h1 : f p[j] with
        | true => exact (hf _ _ (le_of_lt hlt) h1).symm
        | false =>
          cases h2 : f p[i] with
          | true => exact absurd ⟨h2, h1⟩ hc
          | false => rfl
      apply List.ext_getElem
      · simp
      · intro n h1 h2
        simp only [List.getElem_set, List.getElem_map]
        split
        · next h => subst h; exact hji.symm
        · split
          · next h => subst h; exact hji
          · rfl
  · rw [if_neg hlt]
    have hc : ¬ (f p[i] = true ∧ f p[j] = false) := by
      rintro ⟨h1, h2⟩
      have := hf _ _ (not_lt.mp hlt) h1
      rw [h2] at this; exact Bool.noConfusion this
    rw [if_neg hc]

/-- A run of `INT_SORT` steps with indices inside the array commutes with every
monotone map to the truth values. -/
theorem sort_pairs_map (f : Int → Bool) (hf : ∀ a b : Int, a ≤ b → f a = true → f b = true)
    (cs : List (Nat × Nat)) (p : List Int)
    (hcs : ∀ c ∈ cs, c.1 < p.length ∧ c.2 < p.length) :
    (sort_pairs p cs).map f = bit_sort_pairs (p.map f) cs := by
  induction cs generalizing p with
  | nil => rfl
  | cons c cs ih =>
    have hc := hcs c (List.mem_cons_self _ _)
    show (sort_pairs (INT_SORT p c.1 c.2) cs).map f = bit_sort_pairs (bit_sort (p.map f) c) cs
    rw [ih (INT_SORT p c.1 c.2) (by
      intro d hd
      rw [INT_SORT_length]
      exact hcs d (List.mem_cons_of_mem _ hd))]
    rw [INT_SORT_map f hf p c.1 c.2 hc.1 hc.2]

set_option maxRecDepth 1000000 in
/-- On truth values the network of `opt_med9` leaves `true` in the middle exactly
when at least five of the nine inputs are `true` (all 512 inputs checked). -/
theorem opt_med9_bits : ∀ b0 b1 b2 b3 b4 b5 b6 b7 b8 : Bool,
    (bit_sort_pairs [b0, b1, b2, b3, b4, b5, b6, b7, b8] opt_med9_pairs).getD 4 false
      = decide (5 ≤ [b0, b1, b2, b3, b4, b5, b6, b7, b8].count true) := by
  decide

/-- In an ascending list, the entry at index `k` is the only value `y` with at
least `length - k` entries `≥ y` and at most `length - k - 1` entries `> y`. -/
theorem sorted_getElem_of_counts (s : List Int) (hs : s.Sorted (fun a b => a ≤ b))
    (k : Nat) (hk : k < s.length) (y : Int)
    (hge : s.length - k ≤ s.countP (fun x => decide (y ≤ x)))
    (hgt : s.countP (fun x => decide (y < x)) + k + 1 ≤ s.length) :
    s[k] = y := by
  have hpw := List.pairwise_iff_getElem.mp hs
  have hmono : ∀ (a b : Nat) (ha : a < s.length) (hb : b < s.length), a ≤ b → s[a] ≤ s[b] := by
    intro a b ha hb hab
    rcases Nat.lt_or_eq_of_le hab with h | h
    · exact hpw a b ha hb h
    · subst h; exact le_refl _
  rcases lt_trichotomy s[k] y with h | h | h
  · exfalso
    have h0 : (s.take (k + 1)).countP (fun x => decide (y ≤ x)) = 0 := by
      rw [List.countP_eq_zero]
      intro a ha
      rw [List.mem_take_iff_getElem] at ha
      obtain ⟨n, hn, rfl⟩ := ha
      have hn1 : n < k + 1 := lt_of_lt_of_le hn (min_le_left _ _)
      have hn2 : n < s.length := lt_of_lt_of_le hn (min_le_right _ _)
      have := hmono n k hn2 hk (by omega)
      simp only [decide_eq_true_eq, not_le]
      omega
    have h1 : (s.drop (k + 1)).countP (fun x => decide (y ≤ x)) ≤ s.length - (k + 1) := by
      have := List.countP_le_length (fun x => decide (y ≤ x)) (l := s.drop (k + 1))
      simpa using this
    have h2 := List.countP_append (fun x => decide (y ≤ x)) (s.take (k + 1)) (s.drop (k + 1))
    rw [List.take_append_drop] at h2
    omega
  · exact h
  · exfalso
    have h0 : (s.drop k).countP (fun x => decide (y < x)) = (s.drop k).length := by
      rw [List.countP_eq_length]
      intro a ha
      rw [List.mem_drop_iff_getElem] at ha
      obtain ⟨n, hn, rfl⟩ := ha
      have := hmono k (k + n) hk (by omega) (by omega)
      simp only [decide_eq_true_eq]
      omega
    have h2 := List.countP_append (fun x => decide (y < x)) (s.take k) (s.drop k)
    rw [List.take_append_drop] at h2
    have h3 : (s.drop k).length = s.length - k := by simp
    omega


/-- Reading inside the bounds commutes with `List.map`, whatever the defaults. -/
theorem getD_map_of_lt (f : Int → Bool) (l : List Int) (n : Nat) (h : n < l.length) :
    (l.map f).getD n false = f (l.getD n 0) := by
  rw [List.getD_eq_getElem _ _ h, List.getD_eq_getElem _ _ (by simpa using h)]; simp

/-- Counting `true` in the image is counting the elements the map sends to `true`. -/
theorem count_true_map (f : Int → Bool) (l : List Int) : (l.map f).count true = l.countP f := by
  induction l with
  | nil => rfl
  | cons a l ih =>
    rw [List.map_cons, List.count_cons, List.countP_cons, ih]
    cases f a <;> simp

/-- The value `opt_med9` returns has at least five of the nine inputs `≥` it and
at most four `>` it. -/
theorem opt_med9_counts (p : List Int) (hp : p.length = 9) :
    5 ≤ p.countP (fun x => decide ((opt_med9 p).1 ≤ x)) ∧
    p.countP (fun x => decide ((opt_med9 p).1 < x)) ≤ 4 := by
  have hidx : ∀ c ∈ opt_med9_pairs, c.1 < p.length ∧ c.2 < p.length := by
    rw [hp]; decide
  have hlen : (sort_pairs p opt_med9_pairs).length = 9 := by rw [sort_pairs_length, hp]
  rw [opt_med9_eq_sort_pairs]
  generalize hy : (sort_pairs p opt_med9_pairs).getD 4 0 = y
  show 5 ≤ p.countP (fun x => decide (y ≤ x)) ∧ p.countP (fun x => decide (y < x)) ≤ 4
  -- the middle output of the network on the image of `p` under `f`
  have key : ∀ f : Int → Bool, (∀ a b : Int, a ≤ b → f a = true → f b = true) →
      f y = decide (5 ≤ p.countP f) := by
    intro f hf
    have h1 := sort_pairs_map f hf opt_med9_pairs p hidx
    have h2 := getD_map_of_lt f (sort_pairs p opt_med9_pairs) 4 (by omega)
    rw [hy, h1] at h2
    rw [← h2]
    match p, hp with
    | [a0, a1, a2, a3, a4, a5, a6, a7, a8], _ =>
      have hb := opt_med9_bits (f a0) (f a1) (f a2) (f a3) (f a4) (f a5) (f a6) (f a7) (f a8)
      have hc := count_true_map f [a0, a1, a2, a3, a4, a5, a6, a7, a8]
      simp only [List.map_cons, List.map_nil] at hc ⊢
      rw [hb, hc]
  constructor
  · have := key (fun x => decide (y ≤ x))
      (fun a b hab h => by simp only [decide_eq_true_eq] at h ⊢; omega)
    simpa using this.symm
  · have := key (fun x => decide (y < x))
      (fun a b hab h => by simp only [decide_eq_true_eq] at h ⊢; omega)
    simp only [lt_self_iff_false, decide_False] at this
    have h := this.symm
    simp only [decide_eq_false_iff_not, not_le] at h
    omega

/-- C6: for every array of 9 ints, `opt_med9` returns the element at index 4 of
the array sorted in ascending order, i.e. its median. -/
theorem opt_med9_is_median (p : List Int) (hp : p.length = 9) :
    (ascending p)[4]? = some (opt_med9 p).1 := by
  have hperm : (ascending p).Perm p := List.perm_insertionSort _ p
  have hsorted : (ascending p).Sorted (fun a b => a ≤ b) := List.sorted_insertionSort _ p
  have hlen : (ascending p).length = 9 := by rw [hperm.length_eq, hp]
  obtain ⟨h1, h2⟩ := opt_med9_counts p hp
  rw [← hperm.countP_eq] at h1 h2
  generalize (opt_med9 p).1 = y at h1 h2 ⊢
  generalize ascending p = s at hsorted hlen h1 h2 ⊢
  have h4 : 4 < s.length := by omega
  rw [List.getElem?_eq_getElem h4,
    sorted_getElem_of_counts s hsorted 4 h4 y (by omega) (by omega)]

/-- The median of 9, 1, 8, 2, 7, 3, 6, 4, 5. -/
theorem opt_med9_is_median_witness :
    [9, 1, 8, 2, 7, 3, 6, 4, 5].length = 9 ∧
    (ascending [9, 1, 8, 2, 7, 3, 6, 4, 5])[4]? = some (opt_med9 [9, 1, 8, 2, 7, 3, 6, 4, 5]).1 :=
  ⟨by decide, opt_med9_is_median [9, 1, 8, 2, 7, 3, 6, 4, 5] (by decide)⟩

/-! ## Theorems: state machine -/

/-- The `gpio_set_level` calls of a concatenated trace. -/
theorem gpio_writes_append (a b : List Effect) :
    gpio_writes (a ++ b) = gpio_writes a ++ gpio_writes b := by
  unfold gpio_writes; exact List.filterMap_append _ _ _

/-- The trace of `pollSensors`: the poll marker, the ADC reads, the telemetry; no
`gpio_set_level` call and one poll. -/
theorem pollSensors_effects (g : globals) (w : sensor_world) (plant : plant_struct)
    (now : Nat) :
    ∃ reads pubs, (pollSensors g w plant now).2 = Effect.poll now :: (reads ++ pubs) ∧
      gpio_writes reads = [] ∧ gpio_writes pubs = [] ∧ polls reads = 0 ∧ polls pubs = 0 := by
  refine ⟨_, _, rfl, ?_, ?_, ?_, ?_⟩
  · by_cases h : g.use_fake_poll = true
    · rw [if_pos h]; rfl
    · rw [if_neg h]; rfl
  · by_cases h : (w.client && g.mqtt_connected) = true
    · rw [if_pos h]; rfl
    · rw [if_neg h]; rfl
  · by_cases h : g.use_fake_poll = true
    · rw [if_pos h]; rfl
    · rw [if_neg h]; rfl
  · by_cases h : (w.client && g.mqtt_connected) = true
    · rw [if_pos h]; rfl
    · rw [if_neg h]; rfl

/-- The function `pollSensors` makes no `gpio_set_level` call. -/
theorem pollSensors_gpio_writes (g : globals) (w : sensor_world) (plant : plant_struct)
    (now : Nat) : gpio_writes (pollSensors g w plant now).2 = [] := by
  obtain ⟨reads, pubs, h, h1, h2, -, -⟩ := pollSensors_effects g w plant now
  rw [h]
  show gpio_writes ([Effect.poll now] ++ (reads ++ pubs)) = []
  rw [gpio_writes_append, gpio_writes_append, h1, h2]; rfl

/-- What `pollSensors` leaves alone, and the poll time it sets. -/
theorem pollSensors_frame (g : globals) (w : sensor_world) (plant : plant_struct) (now : Nat) :
    (pollSensors g w plant now).1.pins = plant.pins ∧
    (pollSensors g w plant now).1.config = plant.config ∧
    (pollSensors g w plant now).1.status.state = plant.status.state ∧
    (pollSensors g w plant now).1.status.state_entry_time_us = plant.status.state_entry_time_us ∧
    (pollSensors g w plant now).1.status.initialized = plant.status.initialized ∧
    (pollSensors g w plant now).1.status.last_poll_time_us = now := by
  refine ⟨?_, ?_, ?_, ?_, ?_, ?_⟩ <;>
  · unfold pollSensors
    dsimp only
    split
    · rfl
    · split <;> rfl

/-- What the polling step of a tick leaves alone. -/
theorem after_poll_frame (g : globals) (w : sensor_world) (plant : plant_struct) (now : Nat) :
    (after_poll g w plant now).pins = plant.pins ∧
    (after_poll g w plant now).config = plant.config ∧
    (after_poll g w plant now).status.state = plant.status.state ∧
    (after_poll g w plant now).status.state_entry_time_us = plant.status.state_entry_time_us ∧
    (after_poll g w plant now).status.initialized = plant.status.initialized := by
  unfold after_poll
  obtain ⟨h1, h2, h3, h4, h5, -⟩ := pollSensors_frame g w plant now
  split
  · exact ⟨h1, h2, h3, h4, h5⟩
  · exact ⟨rfl, rfl, rfl, rfl, rfl⟩

/-- A tick of an initialised plant is the poll step followed by the guards. -/
theorem handleStateMachine_initialized (g : globals) (w : sensor_world) (plant : plant_struct)
    (now : Nat) (hi : plant.status.initialized = true) :
    handleStateMachine g w plant now =
      ((handleStateMachine_guards g (after_poll g w plant now) now).1,
       (if poll_due plant now then (pollSensors g w plant now).2 else []) ++
         (handleStateMachine_guards g (after_poll g w plant now) now).2) := by
  unfold handleStateMachine after_poll
  simp only [hi, Bool.not_true, Bool.false_eq_true, if_false, List.nil_append]
  by_cases h : poll_due plant now = true
  · simp only [if_pos h]
  · simp only [if_neg h]

/-- A `uint16_t` period times 1,000,000 does not wrap in 64 bits. -/
theorem u64_mul_period (s : Nat) (h : s < 65536) : u64_mul s SEC_IN_MICROSEC = s * 1000000 := by
  unfold u64_mul SEC_IN_MICROSEC
  apply Nat.mod_eq_of_lt
  omega

/-- The unsigned difference is the plain difference when it is not negative. -/
theorem u64_sub_of_le (a b : Nat) (hab : b ≤ a) (ha : a < 18446744073709551616) :
    u64_sub a b = a - b := by
  unfold u64_sub
  omega

/-- The state the guard `switch` leaves is the one the guard table gives. -/
theorem handleStateMachine_guards_state (g : globals) (q : plant_struct) (now : Nat)
    (h5 : q.config.pump_on_period_s < 65536) (h6 : q.config.pump_off_period_s < 65536)
    (h7 : q.config.wet_hold_period_s < 65536) (h8 : q.config.dry_hold_period_s < 65536) :
    (handleStateMachine_guards g q now).1.status.state =
      guard_table q.status.state q.status.poll_median_moisture_sensor
        (u64_sub now q.status.state_entry_time_us) q.config := by
  unfold handleStateMachine_guards guard_table
  cases hs : q.status.state <;>
    simp only [u64_mul_period _ h5, u64_mul_period _ h6, u64_mul_period _ h7,
      u64_mul_period _ h8] <;>
    (repeat' split) <;>
    simp [changeState, changeState_valid, hs]


/-- C1: one tick of an initialised plant that is not in ALARM ends in the state
the guard table gives for the reading available after this tick's poll and the
elapsed time `now - state_entry_time` (the unsigned 64-bit difference the code
computes, which is the plain difference whenever the entry time is not after
`now`), periods being compared as seconds times 1,000,000. -/
theorem handleStateMachine_guard_table (g : globals) (w : sensor_world) (p : plant_struct)
    (now : Nat) (hr : p.in_range) (hi : p.status.initialized = true) :
    (handleStateMachine g w p now).1.status.state =
        guard_table p.status.state
          (after_poll g w p now).status.poll_median_moisture_sensor
          (u64_sub now p.status.state_entry_time_us) p.config ∧
      (p.status.state_entry_time_us ≤ now → now < 18446744073709551616 →
        u64_sub now p.status.state_entry_time_us = now - p.status.state_entry_time_us) := by
  refine ⟨?_, fun h1 h2 => u64_sub_of_le _ _ h1 h2⟩
  obtain ⟨-, h2, h3, h4, -⟩ := after_poll_frame g w p now
  rw [handleStateMachine_initialized g w p now hi]
  show (handleStateMachine_guards g (after_poll g w p now) now).1.status.state = _
  obtain ⟨-, -, -, -, h5, h6, h7, h8, -⟩ := hr
  rw [handleStateMachine_guards_state g _ now (h2 ▸ h5) (h2 ▸ h6) (h2 ▸ h7) (h2 ▸ h8),
    h2, h3, h4]

/-- A plant in DRY_HOLD for 300.000001 s with a reading below `low_moisture`. -/
theorem handleStateMachine_guard_table_witness :
    (sample_plant .PLANT_DRY_HOLD 2000 3000 1000000 301000000).in_range ∧
    (sample_plant .PLANT_DRY_HOLD 2000 3000 1000000 301000000).status.initialized = true ∧
    ((handleStateMachine globals_default (sample_world 2000)
        (sample_plant .PLANT_DRY_HOLD 2000 3000 1000000 301000000) 301000001).1.status.state =
        guard_table (sample_plant .PLANT_DRY_HOLD 2000 3000 1000000 301000000).status.state
          (after_poll globals_default (sample_world 2000)
            (sample_plant .PLANT_DRY_HOLD 2000 3000 1000000 301000000)
            301000001).status.poll_median_moisture_sensor
          (u64_sub 301000001
            (sample_plant .PLANT_DRY_HOLD 2000 3000 1000000 301000000).status.state_entry_time_us)
          (sample_plant .PLANT_DRY_HOLD 2000 3000 1000000 301000000).config ∧
      ((sample_plant .PLANT_DRY_HOLD 2000 3000 1000000 301000000).status.state_entry_time_us
          ≤ 301000001 → 301000001 < 18446744073709551616 →
        u64_sub 301000001
            (sample_plant .PLANT_DRY_HOLD 2000 3000 1000000 301000000).status.state_entry_time_us
          = 301000001
            - (sample_plant .PLANT_DRY_HOLD 2000 3000 1000000 301000000).status.state_entry_time_us)) :=
  ⟨by decide, rfl,
    handleStateMachine_guard_table globals_default (sample_world 2000)
      (sample_plant .PLANT_DRY_HOLD 2000 3000 1000000 301000000) 301000001
      (by decide) rfl⟩

/-- C2: `changeState` leaves the plant in the requested state when the pair
(current state, requested state) is in the allow-list and in ALARM otherwise
(so always in ALARM when the current state is ALARM), and in both cases sets
`state_entry_time_us` to `now`. -/
theorem changeState_allow_list (g : globals) (plant : plant_struct) (new_state : PlantStates)
    (now : Nat) :
    (changeState g plant new_state now).1.status.state
        = (if (plant.status.state, new_state) ∈ allow_list then new_state
           else PlantStates.PLANT_ALARM) ∧
      (changeState g plant new_state now).1.status.state_entry_time_us = now := by
  unfold changeState
  cases hs : plant.status.state <;> cases new_state <;>
    simp [changeState_valid, allow_list]

/-- C3 (the code at the failing input): a rejected request, here DRYING asked of
a plant in PUMP_ON, ends in ALARM and makes no `gpio_set_level` call at all, so
no pump-OFF is issued. -/
theorem changeState_rejected_issues_no_pump_off :
    (changeState globals_default (sample_plant .PLANT_PUMP_ON 2000 3000 0 0)
        .PLANT_DRYING 5).1.status.state = PlantStates.PLANT_ALARM ∧
    (changeState globals_default (sample_plant .PLANT_PUMP_ON 2000 3000 0 0)
        .PLANT_DRYING 5).2 = [] := by
  decide

/-- Every accepted transition into a state other than PUMP_ON issues exactly one
pump-OFF, and every rejected request issues nothing. -/
theorem changeState_pump_off (g : globals) (plant : plant_struct) (new_state : PlantStates)
    (now : Nat) :
    (changeState_valid plant.status.state new_state = true →
      new_state ≠ PlantStates.PLANT_PUMP_ON →
      (changeState g plant new_state now).2
        = [Effect.gpio_set_level plant.pins.pump_gpio_pin 1]) ∧
    (changeState_valid plant.status.state new_state = false →
      (changeState g plant new_state now).2 = []) := by
  unfold changeState
  constructor
  · intro hv hn
    simp [hv, hn, turnOffPump]
  · intro hv
    simp [hv]

/-- C4: when the tick of a plant in PUMP_DELAY takes the transition to PUMP_ON
(reading below `high_moisture`, elapsed time above `pump_off_period_s`), the
state becomes PUMP_ON and the `gpio_set_level` calls of the tick are exactly one
pump-ON (level 0 on the pump pin) when `enable_pump` is set and the level
reading is above 2048, and none at all otherwise. -/
theorem pump_on_interlock (g : globals) (w : sensor_world) (p : plant_struct) (now : Nat)
    (hr : p.in_range) (hi : p.status.initialized = true)
    (hs : p.status.state = PlantStates.PLANT_PUMP_DELAY)
    (hm : (after_poll g w p now).status.poll_median_moisture_sensor < p.config.high_moisture)
    (he : u64_sub now p.status.state_entry_time_us > p.config.pump_off_period_s * 1000000) :
    (handleStateMachine g w p now).1.status.state = PlantStates.PLANT_PUMP_ON ∧
    gpio_writes (handleStateMachine g w p now).2 =
      (if g.enable_pump = true ∧ (after_poll g w p now).status.poll_median_level_sensor > 2048
        then [(p.pins.pump_gpio_pin, 0)] else []) := by
  obtain ⟨h1, h2, h3, h4, -⟩ := after_poll_frame g w p now
  obtain ⟨-, -, -, -, -, h6, -⟩ := hr
  rw [handleStateMachine_initialized g w p now hi]
  have hpoll : gpio_writes (if poll_due p now = true then (pollSensors g w p now).2 else []) = [] := by
    split
    · exact pollSensors_gpio_writes g w p now
    · rfl
  have hg : handleStateMachine_guards g (after_poll g w p now) now =
      changeState g (after_poll g w p now) .PLANT_PUMP_ON now := by
    unfold handleStateMachine_guards
    rw [h3, hs]
    simp only [h2, h4, u64_mul_period _ h6]
    rw [if_neg (by omega), if_pos he]
  simp only [hg, gpio_writes_append, hpoll, List.nil_append]
  unfold changeState
  simp only [h3, hs, changeState_valid, if_true, turnOnPump, h1]
  constructor
  · trivial
  · by_cases hc : g.enable_pump = true ∧
        (after_poll g w p now).status.poll_median_level_sensor > 2048
    · rw [if_pos hc]
      simp [hc.1, hc.2, gpio_writes]
    · rw [if_neg hc]
      have : (g.enable_pump &&
          decide ((after_poll g w p now).status.poll_median_level_sensor > 2048)) = false := by
        rcases not_and_or.mp hc with h | h
        · simp [h]
        · simp [h]
      simp [this, gpio_writes]

/-- C5: a tick of an initialised plant in ALARM makes no call to the outside (no
poll, no pump command) and leaves the whole record unchanged, so the record is
still the same, in ALARM, after any number of ticks. -/
theorem alarm_is_frozen (g : globals) (w : sensor_world) (p : plant_struct) (now : Nat)
    (hi : p.status.initialized = true) (hs : p.status.state = PlantStates.PLANT_ALARM) :
    handleStateMachine g w p now = (p, []) ∧
    ∀ l : List (sensor_world × Nat), ticks g p l = p := by
  have h1 : ∀ (w : sensor_world) (now : Nat), handleStateMachine g w p now = (p, []) := by
    intro w now
    rw [handleStateMachine_initialized g w p now hi]
    have hp : poll_due p now = false := by
      unfold poll_due; rw [hs]; rfl
    have ha : after_poll g w p now = p := by
      unfold after_poll; rw [hp]; rfl
    rw [ha, hp]
    unfold handleStateMachine_guards
    rw [hs]
    rfl
  refine ⟨h1 w now, ?_⟩
  intro l
  induction l with
  | nil => rfl
  | cons a l ih =>
    obtain ⟨w2, now2⟩ := a
    show ticks g (handleStateMachine g w2 p now2).1 l = p
    rw [h1 w2 now2]
    exact ih

/-- A plant in PUMP_DELAY for 300.000001 s, reading 2000, level 3000. -/
theorem pump_on_interlock_witness :
    (sample_plant .PLANT_PUMP_DELAY 2000 3000 1000000 301000000).in_range ∧
    (sample_plant .PLANT_PUMP_DELAY 2000 3000 1000000 301000000).status.initialized = true ∧
    (sample_plant .PLANT_PUMP_DELAY 2000 3000 1000000 301000000).status.state
      = PlantStates.PLANT_PUMP_DELAY ∧
    ((handleStateMachine globals_default (sample_world 2000)
        (sample_plant .PLANT_PUMP_DELAY 2000 3000 1000000 301000000) 301000001).1.status.state
        = PlantStates.PLANT_PUMP_ON ∧
      gpio_writes (handleStateMachine globals_default (sample_world 2000)
        (sample_plant .PLANT_PUMP_DELAY 2000 3000 1000000 301000000) 301000001).2 =
        (if globals_default.enable_pump = true ∧
            (after_poll globals_default (sample_world 2000)
              (sample_plant .PLANT_PUMP_DELAY 2000 3000 1000000 301000000)
              301000001).status.poll_median_level_sensor > 2048
          then [((sample_plant .PLANT_PUMP_DELAY 2000 3000 1000000 301000000).pins.pump_gpio_pin, 0)]
          else [])) :=
  ⟨by decide, rfl, rfl,
    pump_on_interlock globals_default (sample_world 2000)
      (sample_plant .PLANT_PUMP_DELAY 2000 3000 1000000 301000000) 301000001
      (by decide) rfl rfl (by decide) (by decide)⟩

/-- A plant in ALARM. -/
theorem alarm_is_frozen_witness :
    (sample_plant .PLANT_ALARM 2000 3000 5 7).status.initialized = true ∧
    (sample_plant .PLANT_ALARM 2000 3000 5 7).status.state = PlantStates.PLANT_ALARM ∧
    (handleStateMachine globals_default (sample_world 100)
        (sample_plant .PLANT_ALARM 2000 3000 5 7) 900000000
        = (sample_plant .PLANT_ALARM 2000 3000 5 7, []) ∧
      ∀ l : List (sensor_world × Nat),
        ticks globals_default (sample_plant .PLANT_ALARM 2000 3000 5 7) l
          = sample_plant .PLANT_ALARM 2000 3000 5 7) :=
  ⟨rfl, rfl,
    alarm_is_frozen globals_default (sample_world 100)
      (sample_plant .PLANT_ALARM 2000 3000 5 7) 900000000 rfl rfl⟩

/-! ## Theorems: remote configuration -/

/-- The conversion of a `double` between `n` and `n + 1` to `uint16_t` is `n`. -/
theorem double_to_uint16_of_bounds (x : ℚ) (n : Nat) (hn : n < 65536)
    (h1 : (n : ℚ) ≤ x) (h2 : x < (n : ℚ) + 1) : double_to_uint16 x = n := by
  have h0 : (0 : ℚ) ≤ x := le_trans (Nat.cast_nonneg n) h1
  have hf : ⌊x⌋ = (n : Int) := by
    rw [Int.floor_eq_iff]
    exact ⟨by exact_mod_cast h1, by exact_mod_cast h2⟩
  unfold double_to_uint16 trunc to_uint16
  rw [if_pos h0, hf]
  omega

/-- The function `store_plant_to_nvs` returns `ESP_OK` exactly when its three driver
calls do. -/
theorem store_plant_to_nvs_ok_iff (drv : nvs_driver) (nvs : nvs_store) (plant : plant_struct)
    (key : String) : (store_plant_to_nvs drv nvs plant key).1 = ESP_OK ↔ drv.store_ok := by
  unfold store_plant_to_nvs nvs_driver.store_ok
  by_cases h1 : drv.open_err = ESP_OK
  · by_cases h2 : drv.set_blob_err = ESP_OK
    · by_cases h3 : drv.commit_err = ESP_OK
      · simp [h1, h2, h3]
      · simp [h1, h2, h3]
    · simp [h1, h2]
  · simp [h1]

/-- When the driver calls succeed the record is written under the key. -/
theorem store_plant_to_nvs_ok (drv : nvs_driver) (nvs : nvs_store) (plant : plant_struct)
    (key : String) (h : drv.store_ok) :
    store_plant_to_nvs drv nvs plant key
      = (ESP_OK, fun k => if k = key then some plant else nvs k) := by
  obtain ⟨h1, h2, h3⟩ := h
  unfold store_plant_to_nvs
  simp [h1, h2, h3]

/-- The sanity check of the code is the sanity condition of the specification. -/
theorem sanity_check_iff (json : Option cJSON) :
    sanity_check (request_item json "low_moisture") (request_item json "watered_moisture")
      (request_item json "high_moisture") (request_item json "polling_period_s")
      (request_item json "pump_on_period_s") (request_item json "pump_off_period_s")
      (request_item json "wet_hold_period_s") (request_item json "dry_hold_period_s") = true
    ↔ request_sane json := by
  unfold sanity_check request_sane
  simp only [Bool.and_eq_true, decide_eq_true_eq, gt_iff_lt, and_assoc]

/-- A payload with a nested "config" object did parse. -/
theorem well_typed_request_isSome (json : Option cJSON) (hw : well_typed_request json) :
    json.isNone = false := by
  obtain ⟨h, -⟩ := hw
  cases json with
  | none => simp [cJSON_GetObjectItemCaseSensitive, cJSON_IsObject] at h
  | some j => rfl

/-- A well-typed update request: the three outcomes of `process_mqqt_data`. -/
theorem process_mqqt_data_well_typed (cJSON_Parse : String → Option cJSON) (drv : nvs_driver)
    (plant : plant_struct) (nvs : nvs_store) (data : String)
    (hq : is_query data = false) (hw : well_typed_request (cJSON_Parse data)) :
    process_mqqt_data cJSON_Parse drv plant nvs data =
      if request_sane (cJSON_Parse data) then
        if drv.store_ok then
          mqqt_result.mk { plant with config := converted_config (cJSON_Parse data) }
            (fun k => if k = PLANT_NVS_KEY
              then some { plant with config := converted_config (cJSON_Parse data) } else nvs k)
            [Effect.mqtt_publish RESPONSE_TOPIC CONFIG_ACCEPTED] false
        else
          mqqt_result.mk { plant with config := converted_config (cJSON_Parse data) }
            (store_plant_to_nvs drv nvs
              { plant with config := converted_config (cJSON_Parse data) } PLANT_NVS_KEY).2
            [] true
      else
        mqqt_result.mk plant nvs
          [Effect.mqtt_publish RESPONSE_TOPIC CONFIG_REJECTED_SANITY] false := by
  have hsome := well_typed_request_isSome _ hw
  obtain ⟨h0, h1, h2, h3, h4, h5, h6, h7, h8⟩ := hw
  unfold request_item at h1 h2 h3 h4 h5 h6 h7 h8
  have hs := sanity_check_iff (cJSON_Parse data)
  unfold request_item at hs
  unfold process_mqqt_data
  simp only [hq, hsome, h0, h1, h2, h3, h4, h5, h6, h7, h8, Bool.false_eq_true, if_false,
    Bool.and_self, if_true]
  by_cases hsane : request_sane (cJSON_Parse data)
  · rw [if_pos (hs.mpr hsane), if_pos hsane]
    by_cases hok : drv.store_ok
    · rw [if_pos hok]
      have := store_plant_to_nvs_ok drv nvs
        { plant with config := converted_config (cJSON_Parse data) } PLANT_NVS_KEY hok
      unfold converted_config request_item at this
      simp only [this, ESP_ERROR_CHECK, ne_eq, not_true_eq_false, decide_False,
        Bool.false_eq_true, if_false]
      rfl
    · rw [if_neg hok]
      have hne : (store_plant_to_nvs drv nvs
          { plant with config := converted_config (cJSON_Parse data) } PLANT_NVS_KEY).1 ≠ ESP_OK :=
        fun h => hok ((store_plant_to_nvs_ok_iff _ _ _ _).mp h)
      unfold converted_config request_item at hne
      simp only [ESP_ERROR_CHECK, hne, ne_eq, not_false_eq_true, decide_True, if_true]
      rfl
  · rw [if_neg (fun h => hsane (hs.mp h)), if_neg hsane]


/-! ### The parsed form of a request -/

/-- The parsed form of a request is well typed. -/
theorem config_request.json_well_typed (r : config_request) :
    well_typed_request (some r.json) :=
  ⟨rfl, rfl, rfl, rfl, rfl, rfl, rfl, rfl, rfl⟩

/-- The sanity condition on the parsed form of a request. -/
theorem config_request.json_sane_iff (r : config_request) :
    request_sane (some r.json) ↔
      (r.low_moisture < r.watered_moisture ∧ r.watered_moisture ≤ r.high_moisture ∧
        0 < r.polling_period_s ∧ 0 < r.pump_on_period_s ∧ 0 < r.pump_off_period_s ∧
        0 < r.wet_hold_period_s ∧ 0 < r.dry_hold_period_s) := Iff.rfl

/-- The configuration written for the parsed form of a request. -/
theorem config_request.json_converted (r : config_request) :
    converted_config (some r.json) =
      { low_moisture := double_to_uint16 ( MOISTURE_SENSOR_VALUE_FROM_RATIO r.low_moisture)
        watered_moisture := double_to_uint16 ( MOISTURE_SENSOR_VALUE_FROM_RATIO r.watered_moisture)
        high_moisture := double_to_uint16 ( MOISTURE_SENSOR_VALUE_FROM_RATIO r.high_moisture)
        polling_period_s := to_uint16 r.polling_period_s
        pump_on_period_s := to_uint16 r.pump_on_period_s
        pump_off_period_s := to_uint16 r.pump_off_period_s
        wet_hold_period_s := to_uint16 r.wet_hold_period_s
        dry_hold_period_s := to_uint16 r.dry_hold_period_s } := rfl

/-- The documented request passes the sanity check. -/
theorem request_documented_sane : request_sane (some request_documented.json) := by
  rw [config_request.json_sane_iff]
  norm_num [request_documented]

/-- The request `request_collapsing` passes the sanity check. -/
theorem request_collapsing_sane : request_sane (some request_collapsing.json) := by
  rw [config_request.json_sane_iff]
  norm_num [request_collapsing]

/-- The request `request_long_period` passes the sanity check. -/
theorem request_long_period_sane : request_sane (some request_long_period.json) := by
  rw [config_request.json_sane_iff]
  norm_num [request_long_period]

/-- The thresholds a ratio is converted to, for the ratios of the examples. -/
theorem converted_thresholds :
    double_to_uint16 ( MOISTURE_SENSOR_VALUE_FROM_RATIO (1 / 2)) = 1668 ∧
    double_to_uint16 ( MOISTURE_SENSOR_VALUE_FROM_RATIO (1001 / 2000)) = 1668 ∧
    double_to_uint16 ( MOISTURE_SENSOR_VALUE_FROM_RATIO (4 / 5)) = 2236 ∧
    double_to_uint16 ( MOISTURE_SENSOR_VALUE_FROM_RATIO (23 / 25)) = 2464 ∧
    double_to_uint16 ( MOISTURE_SENSOR_VALUE_FROM_RATIO (93 / 100)) = 2483 := by
  refine ⟨?_, ?_, ?_, ?_, ?_⟩ <;>
  · apply double_to_uint16_of_bounds _ _ (by norm_num) <;>
      norm_num [ MOISTURE_SENSOR_VALUE_FROM_RATIO, MOISTURE_SENSOR_WET, MOISTURE_SENSOR_DRY]


/-- C7 (the code at the failing input): from a configuration that satisfies the
invariant, the request with ratios 0.5, 0.5005, 0.93 and periods 10, 1, 59,
65536, 300 passes the sanity check and is answered "CONFIG ACCEPTED", yet the
stored configuration has `low_moisture = watered_moisture = 1668` and
`wet_hold_period_s = 0`, so it breaks the invariant. -/
theorem accepted_update_breaks_invariant :
    config_invariant (sample_plant .PLANT_DRYING 2000 3000 0 0).config ∧
    request_sane (some request_collapsing.json) ∧
    (process_mqqt_data (parse_as request_collapsing) nvs_driver_ok
        (sample_plant .PLANT_DRYING 2000 3000 0 0) nvs_empty "update").published
      = [Effect.mqtt_publish RESPONSE_TOPIC CONFIG_ACCEPTED] ∧
    (process_mqqt_data (parse_as request_collapsing) nvs_driver_ok
        (sample_plant .PLANT_DRYING 2000 3000 0 0) nvs_empty "update").plant.config
      = { low_moisture := 1668, watered_moisture := 1668, high_moisture := 2483,
          polling_period_s := 10, pump_on_period_s := 1, pump_off_period_s := 59,
          wet_hold_period_s := 0, dry_hold_period_s := 300 } ∧
    ¬ config_invariant (process_mqqt_data (parse_as request_collapsing) nvs_driver_ok
        (sample_plant .PLANT_DRYING 2000 3000 0 0) nvs_empty "update").plant.config := by
  have hrun := process_mqqt_data_well_typed (parse_as request_collapsing) nvs_driver_ok
    (sample_plant .PLANT_DRYING 2000 3000 0 0) nvs_empty "update" (by decide)
    (config_request.json_well_typed request_collapsing)
  rw [if_pos (show request_sane (parse_as request_collapsing "update") from request_collapsing_sane), if_pos (by decide)] at hrun
  have hcfg : converted_config (parse_as request_collapsing "update")
      = { low_moisture := 1668, watered_moisture := 1668, high_moisture := 2483,
          polling_period_s := 10, pump_on_period_s := 1, pump_off_period_s := 59,
          wet_hold_period_s := 0, dry_hold_period_s := 300 } := by
    obtain ⟨h1, h2, -, -, h5⟩ := converted_thresholds
    show converted_config (some request_collapsing.json) = _
    rw [config_request.json_converted]
    simp only [request_collapsing, h1, h2, h5]
    rfl
  rw [hrun]
  refine ⟨by decide, request_collapsing_sane, rfl, hcfg, ?_⟩
  show ¬ config_invariant (converted_config (parse_as request_collapsing "update"))
  rw [hcfg]
  decide

/-- C8 (counterexample): the documented request is well typed and passes the
sanity check, but when `nvs_commit` fails nothing is published: the answer is
not "CONFIG ACCEPTED" although the sanity condition holds. -/
theorem sane_request_not_accepted_when_commit_fails :
    is_query "update" = false ∧
    well_typed_request (parse_as request_documented "update") ∧
    request_sane (parse_as request_documented "update") ∧
    (process_mqqt_data (parse_as request_documented) nvs_driver_commit_fails
        (sample_plant .PLANT_DRYING 2000 3000 0 0) nvs_empty "update").published = [] ∧
    ¬ ((process_mqqt_data (parse_as request_documented) nvs_driver_commit_fails
          (sample_plant .PLANT_DRYING 2000 3000 0 0) nvs_empty "update").published
        = [Effect.mqtt_publish RESPONSE_TOPIC CONFIG_ACCEPTED]
      ↔ request_sane (parse_as request_documented "update")) := by
  have hrun := process_mqqt_data_well_typed (parse_as request_documented)
    nvs_driver_commit_fails (sample_plant .PLANT_DRYING 2000 3000 0 0) nvs_empty "update"
    (by decide) (config_request.json_well_typed request_documented)
  rw [if_pos (show request_sane (parse_as request_documented "update") from request_documented_sane), if_neg (by decide)] at hrun
  rw [hrun]
  refine ⟨by decide, config_request.json_well_typed request_documented,
    request_documented_sane, rfl, ?_⟩
  intro h
  have := h.mpr request_documented_sane
  exact absurd this (by simp)

/-- C8 (amended): for a payload that does not start with `query` and parses to
an object whose nested "config" object holds all eight fields as numbers, the
answer is "CONFIG ACCEPTED" exactly when the sanity condition holds and the
three driver calls of `store_plant_to_nvs` succeed; when the sanity condition
fails the answer is the sanity-check rejection; when it holds and the store
fails, nothing is published and the call ends in the fatal error path. -/
theorem accepted_iff_sane_and_stored (cJSON_Parse : String → Option cJSON) (drv : nvs_driver)
    (plant : plant_struct) (nvs : nvs_store) (data : String)
    (hq : is_query data = false) (hw : well_typed_request (cJSON_Parse data)) :
    ((process_mqqt_data cJSON_Parse drv plant nvs data).published
        = [Effect.mqtt_publish RESPONSE_TOPIC CONFIG_ACCEPTED]
      ↔ (request_sane (cJSON_Parse data) ∧ drv.store_ok)) ∧
    (¬ request_sane (cJSON_Parse data) →
      (process_mqqt_data cJSON_Parse drv plant nvs data).published
        = [Effect.mqtt_publish RESPONSE_TOPIC CONFIG_REJECTED_SANITY]) ∧
    (request_sane (cJSON_Parse data) → ¬ drv.store_ok →
      (process_mqqt_data cJSON_Parse drv plant nvs data).published = [] ∧
      (process_mqqt_data cJSON_Parse drv plant nvs data).aborted = true) := by
  rw [process_mqqt_data_well_typed cJSON_Parse drv plant nvs data hq hw]
  by_cases hs : request_sane (cJSON_Parse data)
  · by_cases hok : drv.store_ok
    · simp [hs, hok]
    · simp [hs, hok]
  · simp [hs, CONFIG_ACCEPTED, CONFIG_REJECTED_SANITY]

/-- The documented request on a working store. -/
theorem accepted_iff_sane_and_stored_witness :
    is_query "update" = false ∧
    well_typed_request (parse_as request_documented "update") ∧
    (((process_mqqt_data (parse_as request_documented) nvs_driver_ok
          (sample_plant .PLANT_DRYING 2000 3000 0 0) nvs_empty "update").published
        = [Effect.mqtt_publish RESPONSE_TOPIC CONFIG_ACCEPTED]
      ↔ (request_sane (parse_as request_documented "update") ∧ nvs_driver_ok.store_ok)) ∧
    (¬ request_sane (parse_as request_documented "update") →
      (process_mqqt_data (parse_as request_documented) nvs_driver_ok
          (sample_plant .PLANT_DRYING 2000 3000 0 0) nvs_empty "update").published
        = [Effect.mqtt_publish RESPONSE_TOPIC CONFIG_REJECTED_SANITY]) ∧
    (request_sane (parse_as request_documented "update") → ¬ nvs_driver_ok.store_ok →
      (process_mqqt_data (parse_as request_documented) nvs_driver_ok
          (sample_plant .PLANT_DRYING 2000 3000 0 0) nvs_empty "update").published = [] ∧
      (process_mqqt_data (parse_as request_documented) nvs_driver_ok
          (sample_plant .PLANT_DRYING 2000 3000 0 0) nvs_empty "update").aborted = true)) :=
  ⟨by decide, config_request.json_well_typed request_documented,
    accepted_iff_sane_and_stored (parse_as request_documented) nvs_driver_ok
      (sample_plant .PLANT_DRYING 2000 3000 0 0) nvs_empty "update" (by decide)
      (config_request.json_well_typed request_documented)⟩

/-- C9: whenever `process_mqqt_data` publishes a response and the response is not
"CONFIG ACCEPTED" (query response, parse error, unexpected structure, parse
failed, sanity check failed), the plant record, all eight configuration fields
included, and the flash store are exactly as before. -/
theorem rejection_is_atomic (cJSON_Parse : String → Option cJSON) (drv : nvs_driver)
    (plant : plant_struct) (nvs : nvs_store) (data : String)
    (h1 : (process_mqqt_data cJSON_Parse drv plant nvs data).published ≠ [])
    (h2 : Effect.mqtt_publish RESPONSE_TOPIC CONFIG_ACCEPTED
      ∉ (process_mqqt_data cJSON_Parse drv plant nvs data).published) :
    (process_mqqt_data cJSON_Parse drv plant nvs data).plant = plant ∧
    (process_mqqt_data cJSON_Parse drv plant nvs data).nvs = nvs := by
  unfold process_mqqt_data at h1 h2 ⊢
  dsimp only at h1 h2 ⊢
  split_ifs at h1 h2 ⊢ <;> first
    | exact ⟨rfl, rfl⟩
    | exact absurd rfl h1
    | exact absurd (List.mem_singleton.mpr rfl) h2

/-- A payload that is not JSON. -/
theorem rejection_is_atomic_witness :
    (process_mqqt_data (fun _ => none) nvs_driver_ok
        (sample_plant .PLANT_DRYING 2000 3000 0 0) nvs_empty "not json").published ≠ [] ∧
    Effect.mqtt_publish RESPONSE_TOPIC CONFIG_ACCEPTED
      ∉ (process_mqqt_data (fun _ => none) nvs_driver_ok
        (sample_plant .PLANT_DRYING 2000 3000 0 0) nvs_empty "not json").published ∧
    ((process_mqqt_data (fun _ => none) nvs_driver_ok
        (sample_plant .PLANT_DRYING 2000 3000 0 0) nvs_empty "not json").plant
        = sample_plant .PLANT_DRYING 2000 3000 0 0 ∧
      (process_mqqt_data (fun _ => none) nvs_driver_ok
        (sample_plant .PLANT_DRYING 2000 3000 0 0) nvs_empty "not json").nvs = nvs_empty) :=
  ⟨by decide, by decide,
    rejection_is_atomic (fun _ => none) nvs_driver_ok
      (sample_plant .PLANT_DRYING 2000 3000 0 0) nvs_empty "not json"
      (by decide) (by decide)⟩

/-- C10 (the code at the failing input): the documented request with
`polling_period_s = 70000` is answered "CONFIG ACCEPTED", the thresholds are
stored as 2236, 2464, 2483, but the stored polling period is 4464 (70000 modulo
65536), not the requested 70000; the record written to the flash store is the
record with that period. -/
theorem accepted_period_is_truncated :
    request_long_period.polling_period_s = 70000 ∧
    (process_mqqt_data (parse_as request_long_period) nvs_driver_ok
        (sample_plant .PLANT_DRYING 2000 3000 0 0) nvs_empty "update").published
      = [Effect.mqtt_publish RESPONSE_TOPIC CONFIG_ACCEPTED] ∧
    (process_mqqt_data (parse_as request_long_period) nvs_driver_ok
        (sample_plant .PLANT_DRYING 2000 3000 0 0) nvs_empty "update").plant.config
      = { low_moisture := 2236, watered_moisture := 2464, high_moisture := 2483,
          polling_period_s := 4464, pump_on_period_s := 2, pump_off_period_s := 58,
          wet_hold_period_s := 1800, dry_hold_period_s := 300 } ∧
    (process_mqqt_data (parse_as request_long_period) nvs_driver_ok
        (sample_plant .PLANT_DRYING 2000 3000 0 0) nvs_empty "update").nvs PLANT_NVS_KEY
      = some (process_mqqt_data (parse_as request_long_period) nvs_driver_ok
        (sample_plant .PLANT_DRYING 2000 3000 0 0) nvs_empty "update").plant := by
  have hrun := process_mqqt_data_well_typed (parse_as request_long_period) nvs_driver_ok
    (sample_plant .PLANT_DRYING 2000 3000 0 0) nvs_empty "update" (by decide)
    (config_request.json_well_typed request_long_period)
  rw [if_pos (show request_sane (parse_as request_long_period "update") from request_long_period_sane), if_pos (by decide)] at hrun
  have hcfg : converted_config (parse_as request_long_period "update")
      = { low_moisture := 2236, watered_moisture := 2464, high_moisture := 2483,
          polling_period_s := 4464, pump_on_period_s := 2, pump_off_period_s := 58,
          wet_hold_period_s := 1800, dry_hold_period_s := 300 } := by
    obtain ⟨-, -, h3, h4, h5⟩ := converted_thresholds
    show converted_config (some request_long_period.json) = _
    rw [config_request.json_converted]
    simp only [request_long_period, h3, h4, h5]
    rfl
  rw [hrun]
  refine ⟨rfl, rfl, hcfg, ?_⟩
  dsimp only
  rw [if_pos rfl]


/-- For a ratio in [0, 1] the stored threshold is `ratio * 1896 + 720` truncated
to an integer, and lies in 720..2616. -/
theorem double_to_uint16_ratio (x : ℚ) (h0 : 0 ≤ x) (h1 : x ≤ 1) :
    (double_to_uint16 ( MOISTURE_SENSOR_VALUE_FROM_RATIO x) : Int) = ⌊x * 1896 + 720⌋ ∧
    720 ≤ double_to_uint16 ( MOISTURE_SENSOR_VALUE_FROM_RATIO x) ∧
    double_to_uint16 ( MOISTURE_SENSOR_VALUE_FROM_RATIO x) ≤ 2616 := by
  have hv : MOISTURE_SENSOR_VALUE_FROM_RATIO x = x * 1896 + 720 := by
    norm_num [ MOISTURE_SENSOR_VALUE_FROM_RATIO, MOISTURE_SENSOR_WET, MOISTURE_SENSOR_DRY]
  have hlo : (720 : Int) ≤ ⌊x * 1896 + 720⌋ := by
    rw [Int.le_floor]; push_cast; nlinarith
  have hhi : ⌊x * 1896 + 720⌋ ≤ (2616 : Int) := by
    have : ⌊x * 1896 + 720⌋ < (2616 : Int) + 1 := by
      rw [Int.floor_lt]; push_cast; nlinarith
    omega
  have hnn : (0 : ℚ) ≤ x * 1896 + 720 := by nlinarith
  rw [hv]
  unfold double_to_uint16 trunc to_uint16
  rw [if_pos hnn]
  omega

/-- A period between 1 and 65535 is stored unchanged. -/
theorem to_uint16_of_lt (v : Int) (h0 : 0 ≤ v) (h1 : v < 65536) : (to_uint16 v : Int) = v := by
  unfold to_uint16
  omega

/-- An answered "CONFIG ACCEPTED" means the request passed the sanity check, the
converted request is the stored configuration, pins and status are untouched,
and the record written under the key "plant" is the record held in memory. -/
theorem accepted_update_stored (cJSON_Parse : String → Option cJSON) (drv : nvs_driver)
    (plant : plant_struct) (nvs : nvs_store) (data : String)
    (hq : is_query data = false) (hw : well_typed_request (cJSON_Parse data))
    (hacc : (process_mqqt_data cJSON_Parse drv plant nvs data).published
      = [Effect.mqtt_publish RESPONSE_TOPIC CONFIG_ACCEPTED]) :
    request_sane (cJSON_Parse data) ∧
    (process_mqqt_data cJSON_Parse drv plant nvs data).plant
      = { plant with config := converted_config (cJSON_Parse data) } ∧
    (process_mqqt_data cJSON_Parse drv plant nvs data).nvs PLANT_NVS_KEY
      = some (process_mqqt_data cJSON_Parse drv plant nvs data).plant := by
  rw [process_mqqt_data_well_typed cJSON_Parse drv plant nvs data hq hw] at hacc ⊢
  by_cases hs : request_sane (cJSON_Parse data)
  · by_cases hok : drv.store_ok
    · rw [if_pos hs, if_pos hok]
      refine ⟨hs, rfl, ?_⟩
      dsimp only
      rw [if_pos rfl]
    · rw [if_pos hs, if_neg hok] at hacc
      exact absurd hacc (by simp)
  · rw [if_neg hs] at hacc
    exact absurd hacc (by simp [CONFIG_ACCEPTED, CONFIG_REJECTED_SANITY])

/-! ## Theorems: the other selection networks -/

/-- A value `y` that every monotone map `f` to the truth values sends to
"at least `length - r` inputs are sent to `true`" is the entry at index `r` of
the ascending sort. -/
theorem order_statistic_of_threshold (p : List Int) (r : Nat) (hr : r < p.length) (y : Int)
    (key : ∀ f : Int → Bool, (∀ a b : Int, a ≤ b → f a = true → f b = true) →
      f y = decide (p.length - r ≤ p.countP f)) :
    (ascending p)[r]? = some y := by
  have hperm : (ascending p).Perm p := List.perm_insertionSort _ p
  have hsorted : (ascending p).Sorted (fun a b => a ≤ b) := List.sorted_insertionSort _ p
  have hlen : (ascending p).length = p.length := hperm.length_eq
  have h1 : p.length - r ≤ p.countP (fun x => decide (y ≤ x)) := by
    have := key (fun x => decide (y ≤ x))
      (fun a b hab h => by simp only [decide_eq_true_eq] at h ⊢; omega)
    simpa using this.symm
  have h2 : p.countP (fun x => decide (y < x)) + r + 1 ≤ p.length := by
    have := key (fun x => decide (y < x))
      (fun a b hab h => by simp only [decide_eq_true_eq] at h ⊢; omega)
    simp only [lt_self_iff_false, decide_False] at this
    have h := this.symm
    simp only [decide_eq_false_iff_not, not_le] at h
    omega
  rw [← hperm.countP_eq] at h1 h2
  rw [← hlen] at h1 h2 hr
  generalize ascending p = s at hsorted h1 h2 hr ⊢
  rw [List.getElem?_eq_getElem hr, sorted_getElem_of_counts s hsorted r hr y h1 h2]

/-- Zero-one principle for one output of a run of `INT_SORT` steps: if on every
list of `n` truth values output `k` is `true` exactly when at least `n - r`
inputs are, then on every array of `n` ints output `k` is the entry at index `r`
of the ascending sort. -/
theorem sort_pairs_selects (cs : List (Nat × Nat)) (n k r : Nat) (hk : k < n) (hr : r < n)
    (hcs : ∀ c ∈ cs, c.1 < n ∧ c.2 < n)
    (hbits : ∀ b : List Bool, b.length = n →
      (bit_sort_pairs b cs).getD k false = decide (n - r ≤ b.count true))
    (p : List Int) (hp : p.length = n) :
    (ascending p)[r]? = some ((sort_pairs p cs).getD k 0) := by
  apply order_statistic_of_threshold p r (by omega)
  intro f hf
  have h1 := sort_pairs_map f hf cs p (by rw [hp]; exact hcs)
  have h2 := getD_map_of_lt f (sort_pairs p cs) k (by rw [sort_pairs_length, hp]; exact hk)
  rw [← h2, h1, hbits (p.map f) (by simp [hp]), count_true_map, hp]

/-- The body of `opt_med3` is the run of `INT_SORT` over `opt_med3_pairs`. -/
theorem opt_med3_eq_sort_pairs (p : List Int) :
    opt_med3 p = ((sort_pairs p opt_med3_pairs).getD 1 0, sort_pairs p opt_med3_pairs) := by
  simp only [opt_med3, sort_pairs, opt_med3_pairs, List.foldl]

/-- The body of `opt_med5` is the run of `INT_SORT` over `opt_med5_pairs`. -/
theorem opt_med5_eq_sort_pairs (p : List Int) :
    opt_med5 p = ((sort_pairs p opt_med5_pairs).getD 2 0, sort_pairs p opt_med5_pairs) := by
  simp only [opt_med5, sort_pairs, opt_med5_pairs, List.foldl]

/-- The body of `opt_med7` is the run of `INT_SORT` over `opt_med7_pairs`. -/
theorem opt_med7_eq_sort_pairs (p : List Int) :
    opt_med7 p = ((sort_pairs p opt_med7_pairs).getD 3 0, sort_pairs p opt_med7_pairs) := by
  simp only [opt_med7, sort_pairs, opt_med7_pairs, List.foldl]

/-- On truth values the network of `opt_med3` leaves `true` in the middle exactly
when at least two of the three inputs are `true` (all 8 inputs checked). -/
theorem opt_med3_bits (b : List Bool) (hb : b.length = 3) :
    (bit_sort_pairs b opt_med3_pairs).getD 1 false = decide (3 - 1 ≤ b.count true) := by
  have h : ∀ b0 b1 b2 : Bool,
      (bit_sort_pairs [b0, b1, b2] opt_med3_pairs).getD 1 false
        = decide (3 - 1 ≤ [b0, b1, b2].count true) := by decide
  match b, hb with
  | [b0, b1, b2], _ => exact h b0 b1 b2

set_option maxRecDepth 100000 in
/-- On truth values the network of `opt_med5` leaves `true` in the middle exactly
when at least three of the five inputs are `true` (all 32 inputs checked). -/
theorem opt_med5_bits (b : List Bool) (hb : b.length = 5) :
    (bit_sort_pairs b opt_med5_pairs).getD 2 false = decide (5 - 2 ≤ b.count true) := by
  have h : ∀ b0 b1 b2 b3 b4 : Bool,
      (bit_sort_pairs [b0, b1, b2, b3, b4] opt_med5_pairs).getD 2 false
        = decide (5 - 2 ≤ [b0, b1, b2, b3, b4].count true) := by decide
  match b, hb with
  | [b0, b1, b2, b3, b4], _ => exact h b0 b1 b2 b3 b4

set_option maxRecDepth 1000000 in
/-- On truth values the network of `opt_med7` leaves `true` in the middle exactly
when at least four of the seven inputs are `true` (all 128 inputs checked). -/
theorem opt_med7_bits (b : List Bool) (hb : b.length = 7) :
    (bit_sort_pairs b opt_med7_pairs).getD 3 false = decide (7 - 3 ≤ b.count true) := by
  have h : ∀ b0 b1 b2 b3 b4 b5 b6 : Bool,
      (bit_sort_pairs [b0, b1, b2, b3, b4, b5, b6] opt_med7_pairs).getD 3 false
        = decide (7 - 3 ≤ [b0, b1, b2, b3, b4, b5, b6].count true) := by decide
  match b, hb with
  | [b0, b1, b2, b3, b4, b5, b6], _ => exact h b0 b1 b2 b3 b4 b5 b6

/-- The list form of `opt_med9_bits`. -/
theorem opt_med9_bits_list (b : List Bool) (hb : b.length = 9) :
    (bit_sort_pairs b opt_med9_pairs).getD 4 false = decide (9 - 4 ≤ b.count true) := by
  match b, hb with
  | [b0, b1, b2, b3, b4, b5, b6, b7, b8], _ => exact opt_med9_bits b0 b1 b2 b3 b4 b5 b6 b7 b8

/-- The value `opt_med3` returns is the entry at index 1 of the ascending sort. -/
theorem opt_med3_selects (p : List Int) (hp : p.length = 3) :
    (ascending p)[1]? = some (opt_med3 p).1 := by
  rw [opt_med3_eq_sort_pairs]
  dsimp only
  exact sort_pairs_selects opt_med3_pairs 3 1 1 (by omega) (by omega) (by decide)
    opt_med3_bits p hp

/-- The value `opt_med5` returns is the entry at index 2 of the ascending sort. -/
theorem opt_med5_selects (p : List Int) (hp : p.length = 5) :
    (ascending p)[2]? = some (opt_med5 p).1 := by
  rw [opt_med5_eq_sort_pairs]
  dsimp only
  exact sort_pairs_selects opt_med5_pairs 5 2 2 (by omega) (by omega) (by decide)
    opt_med5_bits p hp

/-- The value `opt_med7` returns is the entry at index 3 of the ascending sort. -/
theorem opt_med7_selects (p : List Int) (hp : p.length = 7) :
    (ascending p)[3]? = some (opt_med7 p).1 := by
  rw [opt_med7_eq_sort_pairs]
  dsimp only
  exact sort_pairs_selects opt_med7_pairs 7 3 3 (by omega) (by omega) (by decide)
    opt_med7_bits p hp

/-- The value `opt_med9` returns is the entry at index 4 of the ascending sort
(by the general zero-one lemma). -/
theorem opt_med9_selects (p : List Int) (hp : p.length = 9) :
    (ascending p)[4]? = some (opt_med9 p).1 := by
  rw [opt_med9_eq_sort_pairs]
  dsimp only
  exact sort_pairs_selects opt_med9_pairs 9 4 4 (by omega) (by omega) (by decide)
    opt_med9_bits_list p hp

/-- C14: for every int array of length 3, 5 and 7, `opt_med3`, `opt_med5` and
`opt_med7` return the median: the element at index 1, 2 and 3 respectively of
the array sorted in ascending order. -/
theorem opt_med357_is_median (p3 p5 p7 : List Int) (h3 : p3.length = 3) (h5 : p5.length = 5)
    (h7 : p7.length = 7) :
    (ascending p3)[1]? = some (opt_med3 p3).1 ∧
    (ascending p5)[2]? = some (opt_med5 p5).1 ∧
    (ascending p7)[3]? = some (opt_med7 p7).1 :=
  ⟨opt_med3_selects p3 h3, opt_med5_selects p5 h5, opt_med7_selects p7 h7⟩

/-- The medians of 3, 1, 2, of 5, 1, 4, 2, 3 and of 7, 1, 6, 2, 5, 3, 4. -/
theorem opt_med357_is_median_witness :
    [3, 1, 2].length = 3 ∧ [5, 1, 4, 2, 3].length = 5 ∧ [7, 1, 6, 2, 5, 3, 4].length = 7 ∧
    ((ascending [3, 1, 2])[1]? = some (opt_med3 [3, 1, 2]).1 ∧
      (ascending [5, 1, 4, 2, 3])[2]? = some (opt_med5 [5, 1, 4, 2, 3]).1 ∧
      (ascending [7, 1, 6, 2, 5, 3, 4])[3]? = some (opt_med7 [7, 1, 6, 2, 5, 3, 4]).1) :=
  ⟨rfl, rfl, rfl,
    opt_med357_is_median [3, 1, 2] [5, 1, 4, 2, 3] [7, 1, 6, 2, 5, 3, 4] rfl rfl rfl⟩

/-! ### Permutations -/

/-- The step `INT_SORT` permutes the array. -/
theorem INT_SORT_perm (p : List Int) (i j : Nat) (hi : i < p.length) (hj : j < p.length) :
    (INT_SORT p i j).Perm p := by
  unfold INT_SORT INT_SWAP
  split
  · rw [List.getD_eq_getElem _ _ hi, List.getD_eq_getElem _ _ hj]
    rw [List.perm_iff_count]
    intro a
    rw [List.count_set _ _ _ _ (by simpa using hj), List.count_set _ _ _ _ hi]
    simp only [List.getElem_set]
    have h1 : 0 < p.count p[i] := List.count_pos_iff.mpr (List.getElem_mem hi)
    have h2 : 0 < p.count p[j] := List.count_pos_iff.mpr (List.getElem_mem hj)
    by_cases hij : i = j
    · subst hij
      simp only [if_true]
      by_cases ha : p[i] = a
      · subst ha; simp
      · simp [ha]
    · simp only [if_neg hij]
      by_cases ha : p[i] = a <;> by_cases hb : p[j] = a
      · subst ha; simp [hb]
      · subst ha; simp [hb]
      · subst hb; simp [ha]
      · simp [ha, hb]
  · exact List.Perm.refl _

/-- A run of `INT_SORT` steps with indices inside the array permutes it. -/
theorem sort_pairs_perm (cs : List (Nat × Nat)) (p : List Int)
    (hcs : ∀ c ∈ cs, c.1 < p.length ∧ c.2 < p.length) : (sort_pairs p cs).Perm p := by
  induction cs generalizing p with
  | nil => exact List.Perm.refl _
  | cons c cs ih =>
    have hc := hcs c (List.mem_cons_self _ _)
    show (sort_pairs (INT_SORT p c.1 c.2) cs).Perm p
    refine (ih (INT_SORT p c.1 c.2) ?_).trans (INT_SORT_perm p c.1 c.2 hc.1 hc.2)
    intro d hd
    rw [INT_SORT_length]
    exact hcs d (List.mem_cons_of_mem _ hd)

/-- Arrays that are permutations of one another have the same ascending sort. -/
theorem ascending_eq_of_perm (p q : List Int) (h : p.Perm q) : ascending p = ascending q := by
  apply List.eq_of_perm_of_sorted (r := fun a b : Int => a ≤ b)
  · exact ((List.perm_insertionSort _ p).trans h).trans (List.perm_insertionSort _ q).symm
  · exact List.sorted_insertionSort _ p
  · exact List.sorted_insertionSort _ q

/-- C16: for every array of 9 ints, the array `opt_med9` leaves is a permutation
of the input, its middle element `p[4]` is the value returned, and that value is
the median of the input. -/
theorem opt_med9_permutes (p : List Int) (hp : p.length = 9) :
    (opt_med9 p).2.Perm p ∧
    (opt_med9 p).2[4]? = some (opt_med9 p).1 ∧
    (ascending p)[4]? = some (opt_med9 p).1 := by
  have hsel := opt_med9_selects p hp
  rw [opt_med9_eq_sort_pairs] at hsel ⊢
  dsimp only at hsel ⊢
  have hlen : (sort_pairs p opt_med9_pairs).length = 9 := by rw [sort_pairs_length, hp]
  refine ⟨sort_pairs_perm _ p (by rw [hp]; decide), ?_, hsel⟩
  generalize sort_pairs p opt_med9_pairs = q at hlen ⊢
  rw [List.getD_eq_getElem?_getD]
  have h4 : 4 < q.length := by omega
  rw [List.getElem?_eq_getElem h4]
  rfl

/-- The array left for 9, 1, 8, 2, 7, 3, 6, 4, 5. -/
theorem opt_med9_permutes_witness :
    [9, 1, 8, 2, 7, 3, 6, 4, 5].length = 9 ∧
    ((opt_med9 [9, 1, 8, 2, 7, 3, 6, 4, 5]).2.Perm [9, 1, 8, 2, 7, 3, 6, 4, 5] ∧
      (opt_med9 [9, 1, 8, 2, 7, 3, 6, 4, 5]).2[4]? = some (opt_med9 [9, 1, 8, 2, 7, 3, 6, 4, 5]).1 ∧
      (ascending [9, 1, 8, 2, 7, 3, 6, 4, 5])[4]?
        = some (opt_med9 [9, 1, 8, 2, 7, 3, 6, 4, 5]).1) :=
  ⟨rfl, opt_med9_permutes [9, 1, 8, 2, 7, 3, 6, 4, 5] rfl⟩


/-! ### The network of six -/

/-- The body of `opt_med6` is the run of `INT_SORT` over `opt_med6_pairs` followed
by the halved sum of entries 2 and 3. -/
theorem opt_med6_eq_sort_pairs (p : List Int) :
    opt_med6 p =
      (trunc (((to_int32 ((sort_pairs p opt_med6_pairs).getD 2 0
          + (sort_pairs p opt_med6_pairs).getD 3 0) : Int) : ℚ) * (1 / 2)),
        sort_pairs p opt_med6_pairs) := by
  simp only [opt_med6, sort_pairs, opt_med6_pairs, List.foldl]

/-- On truth values, outputs 2 and 3 of the network of `opt_med6`: one of them
is `true` exactly when at least three inputs are, both exactly when at least
four are (all 64 inputs checked). -/
theorem opt_med6_bits (b : List Bool) (hb : b.length = 6) :
    ((bit_sort_pairs b opt_med6_pairs).getD 2 false
        || (bit_sort_pairs b opt_med6_pairs).getD 3 false) = decide (6 - 3 ≤ b.count true) ∧
    ((bit_sort_pairs b opt_med6_pairs).getD 2 false
        && (bit_sort_pairs b opt_med6_pairs).getD 3 false) = decide (6 - 2 ≤ b.count true) := by
  have h : ∀ b0 b1 b2 b3 b4 b5 : Bool,
      ((bit_sort_pairs [b0, b1, b2, b3, b4, b5] opt_med6_pairs).getD 2 false
          || (bit_sort_pairs [b0, b1, b2, b3, b4, b5] opt_med6_pairs).getD 3 false)
        = decide (6 - 3 ≤ [b0, b1, b2, b3, b4, b5].count true) ∧
      ((bit_sort_pairs [b0, b1, b2, b3, b4, b5] opt_med6_pairs).getD 2 false
          && (bit_sort_pairs [b0, b1, b2, b3, b4, b5] opt_med6_pairs).getD 3 false)
        = decide (6 - 2 ≤ [b0, b1, b2, b3, b4, b5].count true) := by decide
  match b, hb with
  | [b0, b1, b2, b3, b4, b5], _ => exact h b0 b1 b2 b3 b4 b5

/-- A monotone map to the truth values sends a maximum to the disjunction. -/
theorem monotone_max (f : Int → Bool) (hf : ∀ a b : Int, a ≤ b → f a = true → f b = true)
    (a b : Int) : f (max a b) = (f a || f b) := by
  rcases le_total a b with h | h
  · rw [max_eq_right h]
    cases ha : f a with
    | false => simp
    | true => simp [hf a b h ha]
  · rw [max_eq_left h]
    cases hb : f b with
    | false => simp
    | true => simp [hf b a h hb]

/-- A monotone map to the truth values sends a minimum to the conjunction. -/
theorem monotone_min (f : Int → Bool) (hf : ∀ a b : Int, a ≤ b → f a = true → f b = true)
    (a b : Int) : f (min a b) = (f a && f b) := by
  rcases le_total a b with h | h
  · rw [min_eq_left h]
    cases ha : f a with
    | false => simp
    | true => simp [hf a b h ha]
  · rw [min_eq_right h]
    cases hb : f b with
    | false => simp
    | true => simp [hf b a h hb]

/-- After the steps of `opt_med6`, entries 2 and 3 of the array are the entries
at index 2 and 3 of the ascending sort, in one order or the other; their sum is
the sum of the two central order statistics. -/
theorem opt_med6_central (p : List Int) (hp : p.length = 6) :
    (ascending p)[2]? = some (min ((sort_pairs p opt_med6_pairs).getD 2 0)
      ((sort_pairs p opt_med6_pairs).getD 3 0)) ∧
    (ascending p)[3]? = some (max ((sort_pairs p opt_med6_pairs).getD 2 0)
      ((sort_pairs p opt_med6_pairs).getD 3 0)) ∧
    (sort_pairs p opt_med6_pairs).getD 2 0 + (sort_pairs p opt_med6_pairs).getD 3 0
      = (ascending p).getD 2 0 + (ascending p).getD 3 0 := by
  have hidx : ∀ c ∈ opt_med6_pairs, c.1 < p.length ∧ c.2 < p.length := by
    rw [hp]; decide
  have hlen : (sort_pairs p opt_med6_pairs).length = 6 := by rw [sort_pairs_length, hp]
  have hout : ∀ f : Int → Bool, (∀ a b : Int, a ≤ b → f a = true → f b = true) →
      (f ((sort_pairs p opt_med6_pairs).getD 2 0)
          || f ((sort_pairs p opt_med6_pairs).getD 3 0)) = decide (p.length - 3 ≤ p.countP f) ∧
      (f ((sort_pairs p opt_med6_pairs).getD 2 0)
          && f ((sort_pairs p opt_med6_pairs).getD 3 0)) = decide (p.length - 2 ≤ p.countP f) := by
    intro f hf
    have h1 := sort_pairs_map f hf opt_med6_pairs p hidx
    have h2 := getD_map_of_lt f (sort_pairs p opt_med6_pairs) 2 (by omega)
    have h3 := getD_map_of_lt f (sort_pairs p opt_med6_pairs) 3 (by omega)
    have hb := opt_med6_bits (p.map f) (by simp [hp])
    rw [← h1, h2, h3, count_true_map] at hb
    rw [hp]
    exact hb
  have hmin := order_statistic_of_threshold p 2 (by omega)
    (min ((sort_pairs p opt_med6_pairs).getD 2 0) ((sort_pairs p opt_med6_pairs).getD 3 0))
    (fun f hf => by rw [monotone_min f hf]; exact (hout f hf).2)
  have hmax := order_statistic_of_threshold p 3 (by omega)
    (max ((sort_pairs p opt_med6_pairs).getD 2 0) ((sort_pairs p opt_med6_pairs).getD 3 0))
    (fun f hf => by rw [monotone_max f hf]; exact (hout f hf).1)
  refine ⟨hmin, hmax, ?_⟩
  rw [List.getD_eq_getElem?_getD (ascending p), List.getD_eq_getElem?_getD (ascending p),
    hmin, hmax]
  simp only [Option.getD_some]
  generalize (sort_pairs p opt_med6_pairs).getD 2 0 = a
  generalize (sort_pairs p opt_med6_pairs).getD 3 0 = b
  rcases le_total a b with h | h
  · rw [min_eq_left h, max_eq_right h]
  · rw [min_eq_right h, max_eq_left h, add_comm]

/-- A sum inside the range of `int` is not changed by the reduction. -/
theorem to_int32_of_fits (v : Int) (h1 : -2147483648 ≤ v) (h2 : v ≤ 2147483647) :
    to_int32 v = v := by
  unfold to_int32
  omega

/-- C12 (amended): for every array of 6 ints whose two central order statistics
have a sum that fits in an `int`, `opt_med6` returns their arithmetic mean
truncated toward zero to an integer (the return type is `int`). -/
theorem opt_med6_truncated_mean (p : List Int) (hp : p.length = 6)
    (hlo : -2147483648 ≤ (ascending p).getD 2 0 + (ascending p).getD 3 0)
    (hhi : (ascending p).getD 2 0 + (ascending p).getD 3 0 ≤ 2147483647) :
    (opt_med6 p).1
      = trunc ((((ascending p).getD 2 0 + (ascending p).getD 3 0 : Int) : ℚ) / 2) := by
  obtain ⟨-, -, hsum⟩ := opt_med6_central p hp
  rw [opt_med6_eq_sort_pairs]
  dsimp only
  rw [hsum, to_int32_of_fits _ hlo hhi]
  generalize (ascending p).getD 2 0 + (ascending p).getD 3 0 = v
  rw [show ((v : ℚ) * (1 / 2)) = (v : ℚ) / 2 by ring]

/-- The array 1, 2, 3, 4, 5, 6. -/
theorem opt_med6_truncated_mean_witness :
    [1, 2, 3, 4, 5, 6].length = 6 ∧
    -2147483648 ≤ (ascending [1, 2, 3, 4, 5, 6]).getD 2 0 + (ascending [1, 2, 3, 4, 5, 6]).getD 3 0 ∧
    (ascending [1, 2, 3, 4, 5, 6]).getD 2 0 + (ascending [1, 2, 3, 4, 5, 6]).getD 3 0
      ≤ 2147483647 ∧
    (opt_med6 [1, 2, 3, 4, 5, 6]).1
      = trunc ((((ascending [1, 2, 3, 4, 5, 6]).getD 2 0
          + (ascending [1, 2, 3, 4, 5, 6]).getD 3 0 : Int) : ℚ) / 2) :=
  ⟨rfl, by decide, by decide,
    opt_med6_truncated_mean [1, 2, 3, 4, 5, 6] rfl (by decide) (by decide)⟩

/-- C12 (counterexample): on 1, 2, 3, 4, 5, 6 the two central order statistics
are 3 and 4, and `opt_med6` returns 3, which is not their mean 7/2. -/
theorem opt_med6_returns_3_not_mean :
    (ascending [1, 2, 3, 4, 5, 6])[2]? = some 3 ∧
    (ascending [1, 2, 3, 4, 5, 6])[3]? = some 4 ∧
    (opt_med6 [1, 2, 3, 4, 5, 6]).1 = 3 ∧
    ((opt_med6 [1, 2, 3, 4, 5, 6]).1 : ℚ) ≠ (3 + 4) / 2 := by
  have hq : sort_pairs [1, 2, 3, 4, 5, 6] opt_med6_pairs = [1, 2, 3, 4, 5, 6] := by decide
  have hv : (opt_med6 [1, 2, 3, 4, 5, 6]).1 = 3 := by
    rw [opt_med6_eq_sort_pairs]
    dsimp only
    rw [hq]
    have h1 : to_int32 ([1, 2, 3, 4, 5, 6].getD 2 0 + [1, 2, 3, 4, 5, 6].getD 3 0) = 7 := by
      decide
    rw [h1]
    unfold trunc
    rw [if_pos (by norm_num), Int.floor_eq_iff]
    norm_num
  refine ⟨by decide, by decide, hv, ?_⟩
  rw [hv]
  norm_num


/-- The value `opt_med6` returns depends on the ascending sort only. -/
theorem opt_med6_of_ascending (p : List Int) (hp : p.length = 6) :
    (opt_med6 p).1 = trunc (((to_int32 ((ascending p).getD 2 0 + (ascending p).getD 3 0) : Int)
      : ℚ) * (1 / 2)) := by
  obtain ⟨-, -, hsum⟩ := opt_med6_central p hp
  rw [opt_med6_eq_sort_pairs]
  dsimp only
  rw [hsum]

/-- C13: for N = 3, 5, 6, 7 and 9, `opt_medN` returns the same value on two int
arrays of length N that are permutations of one another. -/
theorem opt_med_permutation_invariant (p3 q3 p5 q5 p6 q6 p7 q7 p9 q9 : List Int)
    (h3 : p3.Perm q3) (l3 : p3.length = 3) (h5 : p5.Perm q5) (l5 : p5.length = 5)
    (h6 : p6.Perm q6) (l6 : p6.length = 6) (h7 : p7.Perm q7) (l7 : p7.length = 7)
    (h9 : p9.Perm q9) (l9 : p9.length = 9) :
    (opt_med3 p3).1 = (opt_med3 q3).1 ∧ (opt_med5 p5).1 = (opt_med5 q5).1 ∧
    (opt_med6 p6).1 = (opt_med6 q6).1 ∧ (opt_med7 p7).1 = (opt_med7 q7).1 ∧
    (opt_med9 p9).1 = (opt_med9 q9).1 := by
  have e3 := opt_med3_selects p3 l3
  have f3 := opt_med3_selects q3 (h3.length_eq ▸ l3)
  have e5 := opt_med5_selects p5 l5
  have f5 := opt_med5_selects q5 (h5.length_eq ▸ l5)
  have e7 := opt_med7_selects p7 l7
  have f7 := opt_med7_selects q7 (h7.length_eq ▸ l7)
  have e9 := opt_med9_selects p9 l9
  have f9 := opt_med9_selects q9 (h9.length_eq ▸ l9)
  have e6 := opt_med6_of_ascending p6 l6
  have f6 := opt_med6_of_ascending q6 (h6.length_eq ▸ l6)
  rw [ascending_eq_of_perm p3 q3 h3] at e3
  rw [ascending_eq_of_perm p5 q5 h5] at e5
  rw [ascending_eq_of_perm p6 q6 h6] at e6
  rw [ascending_eq_of_perm p7 q7 h7] at e7
  rw [ascending_eq_of_perm p9 q9 h9] at e9
  generalize (opt_med3 p3).1 = a3 at e3 ⊢
  generalize (opt_med3 q3).1 = b3 at f3 ⊢
  generalize (opt_med5 p5).1 = a5 at e5 ⊢
  generalize (opt_med5 q5).1 = b5 at f5 ⊢
  generalize (opt_med6 p6).1 = a6 at e6 ⊢
  generalize (opt_med6 q6).1 = b6 at f6 ⊢
  generalize (opt_med7 p7).1 = a7 at e7 ⊢
  generalize (opt_med7 q7).1 = b7 at f7 ⊢
  generalize (opt_med9 p9).1 = a9 at e9 ⊢
  generalize (opt_med9 q9).1 = b9 at f9 ⊢
  refine ⟨?_, ?_, ?_, ?_, ?_⟩
  · exact Option.some.inj (e3.symm.trans f3)
  · exact Option.some.inj (e5.symm.trans f5)
  · exact e6.trans f6.symm
  · exact Option.some.inj (e7.symm.trans f7)
  · exact Option.some.inj (e9.symm.trans f9)

/-- Five arrays and a rearrangement of each. -/
theorem opt_med_permutation_invariant_witness :
    (List.Perm [3, 1, 2] [2, 3, 1] ∧ [3, 1, 2].length = 3 ∧
      List.Perm [5, 1, 4, 2, 3] [1, 2, 3, 4, 5] ∧ [5, 1, 4, 2, 3].length = 5 ∧
      List.Perm [6, 1, 5, 2, 4, 3] [3, 4, 2, 5, 1, 6] ∧ [6, 1, 5, 2, 4, 3].length = 6 ∧
      List.Perm [7, 1, 6, 2, 5, 3, 4] [4, 3, 5, 2, 6, 1, 7] ∧ [7, 1, 6, 2, 5, 3, 4].length = 7 ∧
      List.Perm [9, 1, 8, 2, 7, 3, 6, 4, 5] [5, 4, 6, 3, 7, 2, 8, 1, 9] ∧
      [9, 1, 8, 2, 7, 3, 6, 4, 5].length = 9) ∧
    ((opt_med3 [3, 1, 2]).1 = (opt_med3 [2, 3, 1]).1 ∧
      (opt_med5 [5, 1, 4, 2, 3]).1 = (opt_med5 [1, 2, 3, 4, 5]).1 ∧
      (opt_med6 [6, 1, 5, 2, 4, 3]).1 = (opt_med6 [3, 4, 2, 5, 1, 6]).1 ∧
      (opt_med7 [7, 1, 6, 2, 5, 3, 4]).1 = (opt_med7 [4, 3, 5, 2, 6, 1, 7]).1 ∧
      (opt_med9 [9, 1, 8, 2, 7, 3, 6, 4, 5]).1 = (opt_med9 [5, 4, 6, 3, 7, 2, 8, 1, 9]).1) :=
  ⟨⟨by decide, rfl, by decide, rfl, by decide, rfl, by decide, rfl, by decide, rfl⟩,
    opt_med_permutation_invariant [3, 1, 2] [2, 3, 1] [5, 1, 4, 2, 3] [1, 2, 3, 4, 5]
      [6, 1, 5, 2, 4, 3] [3, 4, 2, 5, 1, 6] [7, 1, 6, 2, 5, 3, 4] [4, 3, 5, 2, 6, 1, 7]
      [9, 1, 8, 2, 7, 3, 6, 4, 5] [5, 4, 6, 3, 7, 2, 8, 1, 9]
      (by decide) rfl (by decide) rfl (by decide) rfl (by decide) rfl (by decide) rfl⟩

/-! ### The network of twenty-five, checked on truth tables -/

/-- Bit `m` of `ones_table n` is set exactly for the assignments `m < 2^n`. -/
theorem ones_table_testBit (n m : Nat) : (ones_table n).testBit m = decide (m < 2 ^ n) := by
  induction n generalizing m with
  | zero =>
    show (1 : Nat).testBit m = decide (m < 2 ^ 0)
    cases m with
    | zero => rfl
    | succ k =>
      rw [Nat.testBit_succ]
      simp
  | succ n ih =>
    show (ones_table n ||| (ones_table n <<< (2 ^ n))).testBit m = _
    rw [Nat.testBit_or, Nat.testBit_shiftLeft, ih, ih, pow_succ]
    by_cases h1 : m < 2 ^ n
    · have h2 : ¬ m ≥ 2 ^ n := by omega
      have h3 : m < 2 ^ n * 2 := by omega
      simp [h1, h2, h3]
    · by_cases h3 : m < 2 ^ n * 2
      · have h2 : m ≥ 2 ^ n := by omega
        have h4 : m - 2 ^ n < 2 ^ n := by omega
        simp [h1, h2, h3, h4]
      · have h4 : ¬ m - 2 ^ n < 2 ^ n := by omega
        simp [h1, h3, h4]

/-- Bit `n` of a number below `2^(n+1)`. -/
theorem testBit_top (n m : Nat) (h : m < 2 ^ n * 2) : m.testBit n = decide (2 ^ n ≤ m) := by
  rw [Nat.testBit_to_div_mod]
  have hpos : 0 < 2 ^ n := Nat.two_pow_pos n
  by_cases h1 : 2 ^ n ≤ m
  · have : m / 2 ^ n = 1 := by
      apply Nat.div_eq_of_lt_le
      · simpa using h1
      · simpa [Nat.mul_comm] using h
    simp [this, h1]
  · have : m / 2 ^ n = 0 := Nat.div_eq_of_lt (by omega)
    simp [this, h1]

/-- Bit `m` of `var_table n i` is bit `i` of the assignment `m`, for `m < 2^n` and
`i < n`, and is clear otherwise. -/
theorem var_table_testBit (n i m : Nat) :
    (var_table n i).testBit m = (decide (m < 2 ^ n) && decide (i < n) && m.testBit i) := by
  induction n generalizing m with
  | zero => simp [var_table]
  | succ n ih =>
    by_cases hi : i = n
    · subst hi
      show (if i = i then ones_table i <<< (2 ^ i)
        else var_table i i ||| (var_table i i <<< (2 ^ i))).testBit m = _
      rw [if_pos rfl, Nat.testBit_shiftLeft, ones_table_testBit, pow_succ]
      by_cases h3 : m < 2 ^ i * 2
      · rw [testBit_top i m h3]
        by_cases h1 : 2 ^ i ≤ m
        · have h4 : m - 2 ^ i < 2 ^ i := by omega
          simp [h1, h3, h4]
        · simp [h1, h3]
      · have h4 : ¬ m - 2 ^ i < 2 ^ i := by omega
        simp [h3, h4]
    · show (if i = n then ones_table n <<< (2 ^ n)
        else var_table n i ||| (var_table n i <<< (2 ^ n))).testBit m = _
      rw [if_neg hi, Nat.testBit_or, Nat.testBit_shiftLeft, ih, ih, pow_succ]
      by_cases hin : i < n
      · have hin1 : i < n + 1 := by omega
        by_cases h1 : m < 2 ^ n
        · have h2 : ¬ m ≥ 2 ^ n := by omega
          have h3 : m < 2 ^ n * 2 := by omega
          simp [h1, h2, h3, hin, hin1]
        · by_cases h3 : m < 2 ^ n * 2
          · have h2 : m ≥ 2 ^ n := by omega
            have h4 : m - 2 ^ n < 2 ^ n := by omega
            have h5 : m.testBit i = (m - 2 ^ n).testBit i := by
              have := Nat.testBit_two_pow_add_gt hin (m - 2 ^ n)
              rw [← this]
              congr 1
              omega
            simp [h1, h2, h3, h4, hin, hin1, h5]
          · have h4 : ¬ m - 2 ^ n < 2 ^ n := by omega
            simp [h1, h3, h4]
      · have hin1 : ¬ i < n + 1 := by omega
        simp [hin, hin1]


/-- The step `table_sort` keeps the number of tables. -/
theorem table_sort_length (t : List Nat) (c : Nat × Nat) :
    (table_sort t c).length = t.length := by
  simp [table_sort]

/-- The step `bit_sort` keeps the length of the list. -/
theorem bit_sort_length (b : List Bool) (c : Nat × Nat) : (bit_sort b c).length = b.length := by
  unfold bit_sort
  split <;> simp

/-- One `table_sort` step is one `bit_sort` step on every assignment. -/
theorem table_sort_testBit (n m : Nat) (c : Nat × Nat) (hc : c.1 < n ∧ c.2 < n ∧ c.1 ≠ c.2)
    (t : List Nat) (b : List Bool) (ht : t.length = n) (hb : b.length = n)
    (h : ∀ w, w < n → (t.getD w 0).testBit m = b.getD w false) :
    ∀ w, w < n → ((table_sort t c).getD w 0).testBit m = (bit_sort b c).getD w false := by
  intro w hw
  obtain ⟨h1, h2, h12⟩ := hc
  have e1 := h c.1 h1
  have e2 := h c.2 h2
  have ew := h w hw
  have gt : (table_sort t c).getD w 0 =
      if c.2 = w then t.getD c.1 0 ||| t.getD c.2 0
      else if c.1 = w then t.getD c.1 0 &&& t.getD c.2 0 else t.getD w 0 := by
    unfold table_sort
    rw [List.getD_eq_getElem _ _ (by simp [ht, hw])]
    simp only [List.getElem_set]
    rw [List.getD_eq_getElem _ _ (by omega : w < t.length)]
  have gb : (bit_sort b c).getD w false =
      if c.2 = w then (b.getD c.1 false || b.getD c.2 false)
      else if c.1 = w then (b.getD c.1 false && b.getD c.2 false) else b.getD w false := by
    unfold bit_sort
    by_cases hsw : b.getD c.1 false = true ∧ b.getD c.2 false = false
    · rw [if_pos hsw, List.getD_eq_getElem _ _ (by simp [hb, hw])]
      simp only [List.getElem_set]
      rw [hsw.1, hsw.2]
      by_cases hw2 : c.2 = w
      · simp [hw2]
      · by_cases hw1 : c.1 = w
        · simp [hw1, hw2]
        · simp only [if_neg hw1, if_neg hw2]
          rw [List.getD_eq_getElem _ _ (by omega : w < b.length)]
    · rw [if_neg hsw]
      by_cases hw2 : c.2 = w
      · subst hw2
        rw [if_pos rfl]
        revert hsw
        cases b.getD c.1 false <;> cases b.getD c.2 false <;> simp
      · by_cases hw1 : c.1 = w
        · subst hw1
          rw [if_neg hw2, if_pos rfl]
          revert hsw
          cases b.getD c.1 false <;> cases b.getD c.2 false <;> simp
        · rw [if_neg hw2, if_neg hw1]
  rw [gt, gb]
  by_cases hw2 : c.2 = w
  · rw [if_pos hw2, if_pos hw2, Nat.testBit_or, e1, e2]
  · by_cases hw1 : c.1 = w
    · rw [if_neg hw2, if_neg hw2, if_pos hw1, if_pos hw1, Nat.testBit_and, e1, e2]
    · rw [if_neg hw2, if_neg hw2, if_neg hw1, if_neg hw1, ew]

/-- A run of `table_sort` steps is the run of `bit_sort` steps on every
assignment. -/
theorem table_run_testBit (n m : Nat) (cs : List (Nat × Nat))
    (hcs : ∀ c ∈ cs, c.1 < n ∧ c.2 < n ∧ c.1 ≠ c.2)
    (t : List Nat) (b : List Bool) (ht : t.length = n) (hb : b.length = n)
    (h : ∀ w, w < n → (t.getD w 0).testBit m = b.getD w false) :
    ∀ w, w < n → ((cs.foldl table_sort t).getD w 0).testBit m
      = (bit_sort_pairs b cs).getD w false := by
  induction cs generalizing t b with
  | nil => exact h
  | cons c cs ih =>
    show ∀ w, w < n → ((cs.foldl table_sort (table_sort t c)).getD w 0).testBit m
      = (bit_sort_pairs (bit_sort b c) cs).getD w false
    apply ih (fun d hd => hcs d (List.mem_cons_of_mem _ hd))
    · rw [table_sort_length, ht]
    · rw [bit_sort_length, hb]
    · exact table_sort_testBit n m c (hcs c (List.mem_cons_self _ _)) t b ht hb h

/-- An assignment of `n` truth values has length `n`. -/
theorem bits_of_length (n m : Nat) : (bits_of n m).length = n := by
  simp [bits_of]

/-- Entry `w` of the assignment `m` is bit `w` of `m`. -/
theorem bits_of_getD (n m w : Nat) (hw : w < n) : (bits_of n m).getD w false = m.testBit w := by
  unfold bits_of
  rw [List.getD_eq_getElem _ _ (by simp [hw])]
  simp

/-- The input tables of case `c` represent the assignment made of the `n`
variables and the `e` constants. -/
theorem case_tables_testBit (n e c m : Nat) (hm : m < 2 ^ n) :
    ∀ w, w < n + e → (((case_tables n e c).getD w 0).testBit m
      = (bits_of n m ++ bits_of e c).getD w false) := by
  intro w hw
  unfold case_tables
  rw [List.getD_eq_getElem _ _ (by simp; omega),
    List.getD_eq_getElem _ _ (by simp [bits_of_length]; omega)]
  by_cases hwn : w < n
  · rw [List.getElem_append_left (by simpa using hwn),
      List.getElem_append_left (by simpa [bits_of_length] using hwn)]
    simp [var_table_testBit, hm, hwn, bits_of]
  · rw [List.getElem_append_right (by simpa using hwn),
      List.getElem_append_right (by simpa [bits_of_length] using hwn)]
    simp only [List.length_map, List.length_range, List.getElem_map, List.getElem_range,
      bits_of_length, bits_of]
    cases c.testBit (w - n)
    · simp
    · simp [ones_table_testBit, hm]

/-- Entry `j` of row `k` of the threshold tables is the truth table of "at least
`j` of the first `k` wires are true", for tables that represent the list `b`. -/
theorem threshold_row_testBit (m ones cols : Nat) (wires : List Nat) (b : List Bool)
    (hones : ones.testBit m = true)
    (hw : ∀ w, w < b.length → (wires.getD w 0).testBit m = b.getD w false)
    (k : Nat) (hk : k ≤ b.length) :
    ∀ j, j ≤ cols →
      ((threshold_row ones cols wires k).getD j 0).testBit m
        = decide (j ≤ (b.take k).count true) := by
  induction k with
  | zero =>
    intro j hj
    show ((ones :: List.replicate cols 0).getD j 0).testBit m = _
    cases j with
    | zero => simp [hones]
    | succ j =>
      rw [List.getD_cons_succ, List.getD_eq_getElem _ _ (by simp; omega)]
      simp
  | succ k ih =>
    intro j hj
    have hkn : k < b.length := by omega
    have ih' := ih (by omega)
    show ((ones :: (List.range cols).map (fun j =>
        (threshold_row ones cols wires k).getD (j + 1) 0 |||
          ((threshold_row ones cols wires k).getD j 0 &&& wires.getD k 0))).getD j 0).testBit m
      = _
    cases j with
    | zero => simp [hones]
    | succ j =>
      have hjn : j < cols := by omega
      have htake : b.take (k + 1) = b.take k ++ [b.getD k false] := by
        rw [List.take_succ, List.getD_eq_getElem _ _ hkn, List.getElem?_eq_getElem hkn]
        rfl
      rw [List.getD_cons_succ, List.getD_eq_getElem _ _ (by simp [hjn])]
      simp only [List.getElem_map, List.getElem_range]
      rw [Nat.testBit_or, Nat.testBit_and, ih' (j + 1) (by omega), ih' j (by omega),
        hw k hkn, htake, List.count_append]
      cases hb : b.getD k false
      · simp
      · by_cases h1 : j + 1 ≤ List.count true (List.take k b)
        · have h2 : j ≤ List.count true (List.take k b) := by omega
          simp [h1, h2]
        · by_cases h2 : j ≤ List.count true (List.take k b)
          · simp [h1, h2]
          · have h3 : ¬ j + 1 ≤ List.count true (List.take k b) + 1 := by omega
            simp [h1, h2, h3]

/-- A successful `network_check` of case `c` gives the condition of the zero-one
principle on every assignment of that case. -/
theorem network_check_bits_of (n e c k r : Nat) (cs : List (Nat × Nat)) (hk : k < n + e)
    (hcs : ∀ d ∈ cs, d.1 < n + e ∧ d.2 < n + e ∧ d.1 ≠ d.2)
    (hcheck : network_check n e c k r cs = true) (m : Nat) (hm : m < 2 ^ n) :
    (bit_sort_pairs (bits_of n m ++ bits_of e c) cs).getD k false
      = decide (n + e - r ≤ (bits_of n m ++ bits_of e c).count true) := by
  have hlen : (bits_of n m ++ bits_of e c).length = n + e := by
    simp [bits_of_length]
  have h1 := table_run_testBit (n + e) m cs hcs (case_tables n e c)
    (bits_of n m ++ bits_of e c) (by simp [case_tables]) hlen
    (case_tables_testBit n e c m hm) k hk
  have h2 := threshold_row_testBit m (ones_table n) (n + e - r) (case_tables n e c)
    (bits_of n m ++ bits_of e c) (by simp [ones_table_testBit, hm])
    (by rw [hlen]; exact case_tables_testBit n e c m hm) (n + e) (by rw [hlen])
    (n + e - r) (le_refl _)
  have h3 : (cs.foldl table_sort (case_tables n e c)).getD k 0
      = (threshold_row (ones_table n) (n + e - r) (case_tables n e c) (n + e)).getD
          (n + e - r) 0 := by
    unfold network_check at hcheck
    exact beq_iff_eq.mp hcheck
  rw [← h1, h3, h2]
  congr 2
  rw [List.take_of_length_le (by rw [hlen])]

/-- Every list of `n` truth values is the assignment of some `m < 2^n`. -/
theorem exists_bits_of (b : List Bool) :
    ∀ n, b.length = n → ∃ m, m < 2 ^ n ∧ bits_of n m = b := by
  induction b with
  | nil =>
    intro n hn
    subst hn
    exact ⟨0, by simp, rfl⟩
  | cons x b ih =>
    intro n hn
    obtain ⟨m, hm, hb⟩ := ih b.length rfl
    rw [List.length_cons] at hn
    subst hn
    refine ⟨2 * m + (if x then 1 else 0), ?_, ?_⟩
    · rw [pow_succ]
      split <;> omega
    · unfold bits_of at hb ⊢
      rw [List.range_succ_eq_map, List.map_cons, List.map_map]
      congr 1
      · rw [Nat.testBit_zero]
        cases x
        · simp
        · simp; omega
      · conv_rhs => rw [← hb]
        apply List.map_congr_left
        intro i _
        show (2 * m + (if x then 1 else 0)).testBit (i + 1) = m.testBit i
        rw [Nat.testBit_succ]
        congr 1
        split <;> omega

/-- Successful checks of all `2^e` cases give the condition of the zero-one
principle on every list of `n + e` truth values. -/
theorem network_check_sound (n e k r : Nat) (cs : List (Nat × Nat)) (hk : k < n + e)
    (hcs : ∀ d ∈ cs, d.1 < n + e ∧ d.2 < n + e ∧ d.1 ≠ d.2)
    (hcheck : ∀ c, c < 2 ^ e → network_check n e c k r cs = true)
    (b : List Bool) (hb : b.length = n + e) :
    (bit_sort_pairs b cs).getD k false = decide (n + e - r ≤ b.count true) := by
  obtain ⟨m, hm, hbm⟩ := exists_bits_of (b.take n) n (by simp [hb])
  obtain ⟨c, hc, hbc⟩ := exists_bits_of (b.drop n) e (by simp [hb])
  have hsplit : b = bits_of n m ++ bits_of e c := by
    rw [hbm, hbc, List.take_append_drop]
  rw [hsplit]
  exact network_check_bits_of n e c k r cs hk hcs (hcheck c hc) m hm

set_option maxRecDepth 100000 in
/-- The network of `opt_med25` passes the check on the `2^21` assignments whose
last four inputs are fixed by the bits of 0. -/
theorem opt_med25_check_0 : network_check 21 4 0 12 12 opt_med25_pairs = true := by
  decide!

set_option maxRecDepth 100000 in
/-- The network of `opt_med25` passes the check on the `2^21` assignments whose
last four inputs are fixed by the bits of 1. -/
theorem opt_med25_check_1 : network_check 21 4 1 12 12 opt_med25_pairs = true := by
  decide!

set_option maxRecDepth 100000 in
/-- The network of `opt_med25` passes the check on the `2^21` assignments whose
last four inputs are fixed by the bits of 2. -/
theorem opt_med25_check_2 : network_check 21 4 2 12 12 opt_med25_pairs = true := by
  decide!

set_option maxRecDepth 100000 in
/-- The network of `opt_med25` passes the check on the `2^21` assignments whose
last four inputs are fixed by the bits of 3. -/
theorem opt_med25_check_3 : network_check 21 4 3 12 12 opt_med25_pairs = true := by
  decide!

set_option maxRecDepth 100000 in
/-- The network of `opt_med25` passes the check on the `2^21` assignments whose
last four inputs are fixed by the bits of 4. -/
theorem opt_med25_check_4 : network_check 21 4 4 12 12 opt_med25_pairs = true := by
  decide!

set_option maxRecDepth 100000 in
/-- The network of `opt_med25` passes the check on the `2^21` assignments whose
last four inputs are fixed by the bits of 5. -/
theorem opt_med25_check_5 : network_check 21 4 5 12 12 opt_med25_pairs = true := by
  decide!

set_option maxRecDepth 100000 in
/-- The network of `opt_med25` passes the check on the `2^21` assignments whose
last four inputs are fixed by the bits of 6. -/
theorem opt_med25_check_6 : network_check 21 4 6 12 12 opt_med25_pairs = true := by
  decide!

set_option maxRecDepth 100000 in
/-- The network of `opt_med25` passes the check on the `2^21` assignments whose
last four inputs are fixed by the bits of 7. -/
theorem opt_med25_check_7 : network_check 21 4 7 12 12 opt_med25_pairs = true := by
  decide!

set_option maxRecDepth 100000 in
/-- The network of `opt_med25` passes the check on the `2^21` assignments whose
last four inputs are fixed by the bits of 8. -/
theorem opt_med25_check_8 : network_check 21 4 8 12 12 opt_med25_pairs = true := by
  decide!

set_option maxRecDepth 100000 in
/-- The network of `opt_med25` passes the check on the `2^21` assignments whose
last four inputs are fixed by the bits of 9. -/
theorem opt_med25_check_9 : network_check 21 4 9 12 12 opt_med25_pairs = true := by
  decide!

set_option maxRecDepth 100000 in
/-- The network of `opt_med25` passes the check on the `2^21` assignments whose
last four inputs are fixed by the bits of 10. -/
theorem opt_med25_check_10 : network_check 21 4 10 12 12 opt_med25_pairs = true := by
  decide!

set_option maxRecDepth 100000 in
/-- The network of `opt_med25` passes the check on the `2^21` assignments whose
last four inputs are fixed by the bits of 11. -/
theorem opt_med25_check_11 : network_check 21 4 11 12 12 opt_med25_pairs = true := by
  decide!

set_option maxRecDepth 100000 in
/-- The network of `opt_med25` passes the check on the `2^21` assignments whose
last four inputs are fixed by the bits of 12. -/
theorem opt_med25_check_12 : network_check 21 4 12 12 12 opt_med25_pairs = true := by
  decide!

set_option maxRecDepth 100000 in
/-- The network of `opt_med25` passes the check on the `2^21` assignments whose
last four inputs are fixed by the bits of 13. -/
theorem opt_med25_check_13 : network_check 21 4 13 12 12 opt_med25_pairs = true := by
  decide!

set_option maxRecDepth 100000 in
/-- The network of `opt_med25` passes the check on the `2^21` assignments whose
last four inputs are fixed by the bits of 14. -/
theorem opt_med25_check_14 : network_check 21 4 14 12 12 opt_med25_pairs = true := by
  decide!

set_option maxRecDepth 100000 in
/-- The network of `opt_med25` passes the check on the `2^21` assignments whose
last four inputs are fixed by the bits of 15. -/
theorem opt_med25_check_15 : network_check 21 4 15 12 12 opt_med25_pairs = true := by
  decide!

/-- The network of `opt_med25` passes the check in all sixteen cases, that is on
all `2^25` assignments. -/
theorem opt_med25_check (c : Nat) (hc : c < 16) :
    network_check 21 4 c 12 12 opt_med25_pairs = true := by
  have h : c = 0 ∨ c = 1 ∨ c = 2 ∨ c = 3 ∨ c = 4 ∨ c = 5 ∨ c = 6 ∨ c = 7 ∨ c = 8 ∨ c = 9 ∨ c = 10 ∨ c = 11 ∨ c = 12 ∨ c = 13 ∨ c = 14 ∨ c = 15 := by
    omega
  rcases h with rfl | rfl | rfl | rfl | rfl | rfl | rfl | rfl | rfl | rfl | rfl | rfl | rfl | rfl | rfl | rfl
  · exact opt_med25_check_0
  · exact opt_med25_check_1
  · exact opt_med25_check_2
  · exact opt_med25_check_3
  · exact opt_med25_check_4
  · exact opt_med25_check_5
  · exact opt_med25_check_6
  · exact opt_med25_check_7
  · exact opt_med25_check_8
  · exact opt_med25_check_9
  · exact opt_med25_check_10
  · exact opt_med25_check_11
  · exact opt_med25_check_12
  · exact opt_med25_check_13
  · exact opt_med25_check_14
  · exact opt_med25_check_15

set_option maxRecDepth 100000 in
/-- C15: for every array of 25 ints, `opt_med25` returns the element at index 12
of the array sorted in ascending order, i.e. its median. -/
theorem opt_med25_is_median (p : List Int) (hp : p.length = 25) :
    (ascending p)[12]? = some (opt_med25 p).1 := by
  unfold opt_med25
  dsimp only
  exact sort_pairs_selects opt_med25_pairs 25 12 12 (by omega) (by omega)
    (fun c hc => by
      have h : ∀ c ∈ opt_med25_pairs, c.1 < 25 ∧ c.2 < 25 := by decide
      exact h c hc)
    (network_check_sound 21 4 12 12 opt_med25_pairs (by omega) (by decide)
      (fun c hc => opt_med25_check c (by simpa using hc))) p hp

/-- The median of the numbers 25, 24, .., 1. -/
theorem opt_med25_is_median_witness :
    [25, 24, 23, 22, 21, 20, 19, 18, 17, 16, 15, 14, 13, 12, 11, 10, 9, 8, 7, 6, 5, 4, 3, 2,
      (1 : Int)].length = 25 ∧
    (ascending [25, 24, 23, 22, 21, 20, 19, 18, 17, 16, 15, 14, 13, 12, 11, 10, 9, 8, 7, 6, 5,
      4, 3, 2, 1])[12]?
      = some (opt_med25 [25, 24, 23, 22, 21, 20, 19, 18, 17, 16, 15, 14, 13, 12, 11, 10, 9, 8,
        7, 6, 5, 4, 3, 2, 1]).1 :=
  ⟨rfl, opt_med25_is_median [25, 24, 23, 22, 21, 20, 19, 18, 17, 16, 15, 14, 13, 12, 11, 10, 9,
    8, 7, 6, 5, 4, 3, 2, 1] rfl⟩

/-! ## Theorems: polling and initialisation -/

/-- The polls of a concatenated trace. -/
theorem polls_append (a b : List Effect) : polls (a ++ b) = polls a + polls b := by
  unfold polls; exact List.countP_append _ _ _

/-- The function `pollSensors` is one poll. -/
theorem pollSensors_polls (g : globals) (w : sensor_world) (plant : plant_struct) (now : Nat) :
    polls (pollSensors g w plant now).2 = 1 := by
  obtain ⟨reads, pubs, h, -, -, h3, h4⟩ := pollSensors_effects g w plant now
  rw [h]
  show polls ([Effect.poll now] ++ (reads ++ pubs)) = 1
  rw [polls_append, polls_append, h3, h4]
  rfl

/-- The function `changeState` writes the state and its entry time and nothing
else, and its calls to the outside are `gpio_set_level` calls only. -/
theorem changeState_frame (g : globals) (plant : plant_struct) (new_state : PlantStates)
    (now : Nat) :
    (changeState g plant new_state now).1.pins = plant.pins ∧
    (changeState g plant new_state now).1.config = plant.config ∧
    (changeState g plant new_state now).1.status.poll_median_moisture_sensor
      = plant.status.poll_median_moisture_sensor ∧
    (changeState g plant new_state now).1.status.poll_median_level_sensor
      = plant.status.poll_median_level_sensor ∧
    (changeState g plant new_state now).1.status.poll_temperature
      = plant.status.poll_temperature ∧
    (changeState g plant new_state now).1.status.poll_humidity = plant.status.poll_humidity ∧
    (changeState g plant new_state now).1.status.last_poll_time_us
      = plant.status.last_poll_time_us ∧
    (changeState g plant new_state now).1.status.initialized = plant.status.initialized ∧
    polls (changeState g plant new_state now).2 = 0 := by
  unfold changeState
  dsimp only
  split
  · refine ⟨rfl, rfl, rfl, rfl, rfl, rfl, rfl, rfl, ?_⟩
    unfold turnOnPump turnOffPump
    split
    · split <;> rfl
    · rfl
  · exact ⟨rfl, rfl, rfl, rfl, rfl, rfl, rfl, rfl, rfl⟩

/-- The guard `switch` writes the state and its entry time and nothing else, and
does not poll. -/
theorem handleStateMachine_guards_frame (g : globals) (q : plant_struct) (now : Nat) :
    (handleStateMachine_guards g q now).1.pins = q.pins ∧
    (handleStateMachine_guards g q now).1.config = q.config ∧
    (handleStateMachine_guards g q now).1.status.poll_median_moisture_sensor
      = q.status.poll_median_moisture_sensor ∧
    (handleStateMachine_guards g q now).1.status.poll_median_level_sensor
      = q.status.poll_median_level_sensor ∧
    (handleStateMachine_guards g q now).1.status.poll_temperature = q.status.poll_temperature ∧
    (handleStateMachine_guards g q now).1.status.poll_humidity = q.status.poll_humidity ∧
    (handleStateMachine_guards g q now).1.status.last_poll_time_us
      = q.status.last_poll_time_us ∧
    (handleStateMachine_guards g q now).1.status.initialized = q.status.initialized ∧
    polls (handleStateMachine_guards g q now).2 = 0 := by
  have hid : q.pins = q.pins ∧ q.config = q.config ∧
      q.status.poll_median_moisture_sensor = q.status.poll_median_moisture_sensor ∧
      q.status.poll_median_level_sensor = q.status.poll_median_level_sensor ∧
      q.status.poll_temperature = q.status.poll_temperature ∧
      q.status.poll_humidity = q.status.poll_humidity ∧
      q.status.last_poll_time_us = q.status.last_poll_time_us ∧
      q.status.initialized = q.status.initialized ∧ polls ([] : List Effect) = 0 :=
    ⟨rfl, rfl, rfl, rfl, rfl, rfl, rfl, rfl, rfl⟩
  unfold handleStateMachine_guards
  split <;> (repeat' split) <;> first
    | exact changeState_frame g q _ now
    | exact hid

/-- The polling condition, for a record in range and a timestamp not before the
last poll. -/
theorem poll_due_iff (p : plant_struct) (now : Nat) (hr : p.in_range)
    (hnow : now < 18446744073709551616) (hle : p.status.last_poll_time_us ≤ now) :
    poll_due p now = true ↔
      (p.status.state ≠ PlantStates.PLANT_ALARM ∧
        now - p.status.last_poll_time_us > p.config.polling_period_s * 1000000) := by
  obtain ⟨-, -, -, h4, -⟩ := hr
  unfold poll_due
  rw [u64_mul_period _ h4, u64_sub_of_le _ _ hle hnow]
  cases hs : p.status.state <;> simp [PlantStates.val]

/-- C17: for an initialised plant and a timestamp not before the last poll, a
tick runs `pollSensors` (once) exactly when the state at the start of the tick is
not ALARM and `now - last_poll_time_us > polling_period_s * 1000000`; when it
polls, `last_poll_time_us` becomes `now`; when it does not, the readings and
`last_poll_time_us` are unchanged. -/
theorem poll_cadence (g : globals) (w : sensor_world) (p : plant_struct) (now : Nat)
    (hr : p.in_range) (hnow : now < 18446744073709551616)
    (hi : p.status.initialized = true) (hle : p.status.last_poll_time_us ≤ now) :
    (polls (handleStateMachine g w p now).2 = 1 ↔
      (p.status.state ≠ PlantStates.PLANT_ALARM ∧
        now - p.status.last_poll_time_us > p.config.polling_period_s * 1000000)) ∧
    (polls (handleStateMachine g w p now).2 = 1 →
      (handleStateMachine g w p now).1.status.last_poll_time_us = now) ∧
    (polls (handleStateMachine g w p now).2 ≠ 1 →
      polls (handleStateMachine g w p now).2 = 0 ∧
      (handleStateMachine g w p now).1.status.poll_median_moisture_sensor
        = p.status.poll_median_moisture_sensor ∧
      (handleStateMachine g w p now).1.status.poll_median_level_sensor
        = p.status.poll_median_level_sensor ∧
      (handleStateMachine g w p now).1.status.poll_temperature = p.status.poll_temperature ∧
      (handleStateMachine g w p now).1.status.poll_humidity = p.status.poll_humidity ∧
      (handleStateMachine g w p now).1.status.last_poll_time_us
        = p.status.last_poll_time_us) := by
  have hdue := poll_due_iff p now hr hnow hle
  obtain ⟨-, -, f3, f4, f5, f6, f7, -, f9⟩ :=
    handleStateMachine_guards_frame g (after_poll g w p now) now
  rw [handleStateMachine_initialized g w p now hi]
  dsimp only
  rw [polls_append, f9, f3, f4, f5, f6, f7]
  by_cases hd : poll_due p now = true
  · have hlast : (after_poll g w p now).status.last_poll_time_us = now := by
      unfold after_poll
      rw [if_pos hd]
      exact (pollSensors_frame g w p now).2.2.2.2.2
    rw [if_pos hd, pollSensors_polls, hlast]
    exact ⟨⟨fun _ => hdue.mp hd, fun _ => rfl⟩, fun _ => rfl, fun h => absurd rfl h⟩
  · have hsame : after_poll g w p now = p := by
      unfold after_poll
      rw [if_neg hd]
    rw [if_neg hd, hsame]
    refine ⟨⟨fun h => absurd h (by decide), fun h => absurd (hdue.mpr h) hd⟩,
      fun h => absurd h (by decide), fun _ => ⟨rfl, rfl, rfl, rfl, rfl, rfl⟩⟩

/-- A plant in DRYING polled 20 s ago with a polling period of 10 s. -/
theorem poll_cadence_witness :
    (sample_plant .PLANT_DRYING 2500 3000 0 1000000).in_range ∧
    (21000000 : Nat) < 18446744073709551616 ∧
    (sample_plant .PLANT_DRYING 2500 3000 0 1000000).status.initialized = true ∧
    (sample_plant .PLANT_DRYING 2500 3000 0 1000000).status.last_poll_time_us ≤ 21000000 ∧
    polls (handleStateMachine globals_default (sample_world 2400)
      (sample_plant .PLANT_DRYING 2500 3000 0 1000000) 21000000).2 = 1 ∧
    (handleStateMachine globals_default (sample_world 2400)
      (sample_plant .PLANT_DRYING 2500 3000 0 1000000) 21000000).1.status.last_poll_time_us
        = 21000000 :=
  have h := poll_cadence globals_default (sample_world 2400)
    (sample_plant .PLANT_DRYING 2500 3000 0 1000000) 21000000 (by decide) (by decide) rfl
    (by decide)
  ⟨by decide, by decide, rfl, by decide, h.1.mpr (by decide), h.2.1 (h.1.mpr (by decide))⟩


/-- What `initPlant` does: one pump-OFF, one poll, then DRYING entered at `now`
and the plant marked initialised; configuration and pins are untouched. -/
theorem initPlant_spec (g : globals) (w : sensor_world) (p : plant_struct) (now : Nat) :
    (initPlant g w p now).1.status.state = PlantStates.PLANT_DRYING ∧
    (initPlant g w p now).1.status.state_entry_time_us = now ∧
    (initPlant g w p now).1.status.last_poll_time_us = now ∧
    (initPlant g w p now).1.status.initialized = true ∧
    (initPlant g w p now).1.status.poll_median_moisture_sensor
      = (pollSensors g w p now).1.status.poll_median_moisture_sensor ∧
    (initPlant g w p now).1.config = p.config ∧
    (initPlant g w p now).1.pins = p.pins ∧
    polls (initPlant g w p now).2 = 1 ∧
    gpio_writes (initPlant g w p now).2 = [(p.pins.pump_gpio_pin, 1)] := by
  obtain ⟨h1, h2, -, -, -, h6⟩ := pollSensors_frame g w p now
  unfold initPlant
  dsimp only
  refine ⟨rfl, rfl, h6, rfl, rfl, h2, h1, ?_, ?_⟩
  · rw [polls_append, pollSensors_polls]
    rfl
  · rw [gpio_writes_append, pollSensors_gpio_writes]
    rfl

/-- The difference of a timestamp with itself is 0. -/
theorem u64_sub_self (a : Nat) : u64_sub a a = 0 := by
  unfold u64_sub
  simp

/-- C18: the first tick of a plant with `initialized == false`, whatever its
stored state: `initPlant` commands the pump OFF, polls once and enters DRYING;
the tick polls exactly once in all, never commands the pump ON, ends with
`state_entry_time_us = last_poll_time_us = now` and the plant initialised, and
ends in DRY_HOLD exactly when the polled moisture is below `low_moisture`, in
DRYING otherwise. -/
theorem first_tick (g : globals) (w : sensor_world) (p : plant_struct) (now : Nat)
    (hi : p.status.initialized = false) :
    (initPlant g w p now).1.status.state = PlantStates.PLANT_DRYING ∧
    (initPlant g w p now).1.status.state_entry_time_us = now ∧
    (initPlant g w p now).1.status.last_poll_time_us = now ∧
    (initPlant g w p now).1.status.initialized = true ∧
    gpio_writes (initPlant g w p now).2 = [(p.pins.pump_gpio_pin, 1)] ∧
    polls (handleStateMachine g w p now).2 = 1 ∧
    gpio_writes (handleStateMachine g w p now).2 =
      (if (pollSensors g w p now).1.status.poll_median_moisture_sensor < p.config.low_moisture
        then [(p.pins.pump_gpio_pin, 1), (p.pins.pump_gpio_pin, 1)]
        else [(p.pins.pump_gpio_pin, 1)]) ∧
    (handleStateMachine g w p now).1.status.state_entry_time_us = now ∧
    (handleStateMachine g w p now).1.status.last_poll_time_us = now ∧
    (handleStateMachine g w p now).1.status.initialized = true ∧
    (handleStateMachine g w p now).1.status.state =
      (if (pollSensors g w p now).1.status.poll_median_moisture_sensor < p.config.low_moisture
        then PlantStates.PLANT_DRY_HOLD else PlantStates.PLANT_DRYING) := by
  obtain ⟨i1, i2, i3, i4, i5, i6, i7, i8, i9⟩ := initPlant_spec g w p now
  have hdue : poll_due (initPlant g w p now).1 now = false := by
    unfold poll_due
    rw [i3, u64_sub_self]
    simp
  have hrun : handleStateMachine g w p now =
      ((handleStateMachine_guards g (initPlant g w p now).1 now).1,
        (initPlant g w p now).2 ++ (handleStateMachine_guards g (initPlant g w p now).1 now).2) := by
    unfold handleStateMachine
    simp only [hi, Bool.not_false, if_true, hdue, Bool.false_eq_true, if_false,
      List.append_nil]
  rw [hrun]
  dsimp only
  generalize initPlant g w p now = q at i1 i2 i3 i4 i5 i6 i7 i8 i9 ⊢
  rw [← i5, ← i6]
  refine ⟨i1, i2, i3, i4, i9, ?_⟩
  rw [polls_append, gpio_writes_append, i8, i9, ← i7]
  unfold handleStateMachine_guards
  rw [i1]
  dsimp only
  by_cases hm : q.1.status.poll_median_moisture_sensor < q.1.config.low_moisture
  · rw [if_pos hm, if_pos hm, if_pos hm]
    unfold changeState
    rw [i1]
    refine ⟨rfl, rfl, rfl, i3, i4, rfl⟩
  · rw [if_neg hm, if_neg hm, if_neg hm]
    exact ⟨rfl, rfl, i2, i3, i4, i1⟩

/-- An uninitialised plant, stored in PUMP_ON, polled at 2000 (below 2236). -/
theorem first_tick_witness :
    sample_uninitialised.status.initialized = false ∧
    sample_uninitialised.status.state = PlantStates.PLANT_PUMP_ON ∧
    (handleStateMachine globals_default (sample_world 2000) sample_uninitialised
      5000000).1.status.state = PlantStates.PLANT_DRY_HOLD ∧
    polls (handleStateMachine globals_default (sample_world 2000) sample_uninitialised
      5000000).2 = 1 :=
  have h := first_tick globals_default (sample_world 2000) sample_uninitialised 5000000 rfl
  ⟨rfl, rfl, h.2.2.2.2.2.2.2.2.2.2.trans (by decide), h.2.2.2.2.2.1⟩

/-! ## Theorems: query and round trip -/

/-- The macro `RATIO_FROM_MOISTURE_SENSOR_VALUE` is `(raw - 720) / 1896`. -/
theorem RATIO_FROM_MOISTURE_SENSOR_VALUE_eq (x : Nat) :
    RATIO_FROM_MOISTURE_SENSOR_VALUE x = ((x : ℚ) - 720) / 1896 := by
  unfold RATIO_FROM_MOISTURE_SENSOR_VALUE MOISTURE_SENSOR_WET MOISTURE_SENSOR_DRY
  push_cast
  norm_num

/-- A ratio in [0, 1] converted to raw units and back satisfies the round-trip
bound. -/
theorem round_trip_ratio (r : ℚ) (h0 : 0 ≤ r) (h1 : r ≤ 1) :
    round_trip_bound r
      ( RATIO_FROM_MOISTURE_SENSOR_VALUE (double_to_uint16 ( MOISTURE_SENSOR_VALUE_FROM_RATIO r))) := by
  obtain ⟨hd, -, -⟩ := double_to_uint16_ratio r h0 h1
  have hq : RATIO_FROM_MOISTURE_SENSOR_VALUE
      (double_to_uint16 ( MOISTURE_SENSOR_VALUE_FROM_RATIO r)) = (⌊r * 1896⌋ : ℚ) / 1896 := by
    rw [RATIO_FROM_MOISTURE_SENSOR_VALUE_eq]
    have h2 : ((double_to_uint16 ( MOISTURE_SENSOR_VALUE_FROM_RATIO r) : Nat) : ℚ)
        = ((⌊r * 1896 + 720⌋ : Int) : ℚ) := by
      rw [← hd]; norm_cast
    have h3 : ⌊r * 1896 + 720⌋ = ⌊r * 1896⌋ + 720 := by
      exact_mod_cast Int.floor_add_int (r * 1896) 720
    rw [h2, h3]
    push_cast
    ring
  have h3' : ⌊r * 1896 + 720⌋ = ⌊r * 1896⌋ + 720 := by
    exact_mod_cast Int.floor_add_int (r * 1896) 720
  rw [hq]
  have hfl := Int.floor_le (r * 1896)
  have hlt := Int.lt_floor_add_one (r * 1896)
  refine ⟨?_, ?_, ?_, ?_⟩
  · unfold trunc
    rw [if_pos (by nlinarith), h3']
    push_cast
    ring
  · rw [lt_div_iff₀ (by norm_num)]
    linarith
  · rw [div_le_iff₀ (by norm_num)]
    exact hfl
  · constructor
    · intro h
      refine ⟨⌊r * 1896⌋, ?_⟩
      rw [div_eq_iff (by norm_num)] at h
      exact h.symm
    · rintro ⟨k, hk⟩
      rw [hk, Int.floor_intCast, div_eq_iff (by norm_num)]
      exact hk.symm


/-- The documented request is answered "CONFIG ACCEPTED" on a working store. -/
theorem request_documented_accepted :
    (process_mqqt_data (parse_as request_documented) nvs_driver_ok
        (sample_plant .PLANT_DRYING 2000 3000 0 0) nvs_empty "update").published
      = [Effect.mqtt_publish RESPONSE_TOPIC CONFIG_ACCEPTED] := by
  rw [process_mqqt_data_well_typed (parse_as request_documented) nvs_driver_ok
    (sample_plant .PLANT_DRYING 2000 3000 0 0) nvs_empty "update" (by decide)
    (config_request.json_well_typed request_documented),
    if_pos (show request_sane (parse_as request_documented "update") from
      request_documented_sane), if_pos (by decide)]

/-- Rounding to the nearest integer moves a value by at most one half. -/
theorem round_half_even_near (x : ℚ) :
    (round_half_even x : ℚ) - 1 / 2 ≤ x ∧ x ≤ (round_half_even x : ℚ) + 1 / 2 := by
  have h1 := Int.floor_le x
  have h2 := Int.lt_floor_add_one x
  unfold round_half_even
  split_ifs with a b c
  · constructor <;> linarith
  · push_cast; constructor <;> linarith
  · constructor <;> linarith
  · push_cast; constructor <;> linarith

/-- A value less than one half away from an integer is rounded to it. -/
theorem round_half_even_of_near (x : ℚ) (n : Int) (h1 : (n : ℚ) - 1 / 2 < x)
    (h2 : x < (n : ℚ) + 1 / 2) : round_half_even x = n := by
  obtain ⟨h3, h4⟩ := round_half_even_near x
  have h5 : ((round_half_even x : Int) : ℚ) < (n : ℚ) + 1 := by linarith
  have h6 : (n : ℚ) - 1 < ((round_half_even x : Int) : ℚ) := by linarith
  have h7 : round_half_even x < n + 1 := by exact_mod_cast h5
  have h8 : n - 1 < round_half_even x := by exact_mod_cast h6
  omega

/-- The number `%0.2f` prints is within 1/200 of the value. -/
theorem printf_0_2f_near (x : ℚ) : |printf_0_2f x - x| ≤ 1 / 200 := by
  obtain ⟨h1, h2⟩ := round_half_even_near (x * 100)
  unfold printf_0_2f
  rw [abs_le]
  constructor
  · rw [le_sub_iff_add_le, le_div_iff₀ (by norm_num)]
    linarith
  · rw [sub_le_iff_le_add, div_le_iff₀ (by norm_num)]
    linarith

/-- The number `%0.2f` prints for a value less than 1/200 away from `n / 100`. -/
theorem printf_0_2f_of_near (x : ℚ) (n : Int) (h1 : (n : ℚ) / 100 - 1 / 200 < x)
    (h2 : x < (n : ℚ) / 100 + 1 / 200) : printf_0_2f x = (n : ℚ) / 100 := by
  unfold printf_0_2f
  rw [round_half_even_of_near (x * 100) n (by linarith) (by linarith)]

/-- The tie 0.125 is printed as 0.12. -/
theorem printf_0_2f_eighth : printf_0_2f (1 / 8) = 3 / 25 := by
  have hf : ⌊(1 / 8 : ℚ) * 100⌋ = 12 := by
    rw [Int.floor_eq_iff]; norm_num
  unfold printf_0_2f round_half_even
  rw [hf]
  norm_num

/-- The default thresholds 2236, 2464, 2483 are printed as 0.80, 0.92, 0.93. -/
theorem default_thresholds_printed :
    printf_0_2f ((((2236 : Nat) : ℚ) - 720) / 1896) = 4 / 5 ∧
    printf_0_2f ((((2464 : Nat) : ℚ) - 720) / 1896) = 23 / 25 ∧
    printf_0_2f ((((2483 : Nat) : ℚ) - 720) / 1896) = 93 / 100 := by
  refine ⟨?_, ?_, ?_⟩
  · rw [printf_0_2f_of_near _ 80 (by norm_num) (by norm_num)]; norm_num
  · rw [printf_0_2f_of_near _ 92 (by norm_num) (by norm_num)]; norm_num
  · rw [printf_0_2f_of_near _ 93 (by norm_num) (by norm_num)]; norm_num

/-- The query branch of `process_mqqt_data`. -/
theorem process_mqqt_data_query (cJSON_Parse : String → Option cJSON) (drv : nvs_driver)
    (plant : plant_struct) (nvs : nvs_store) (data : String) (hq : is_query data = true) :
    process_mqqt_data cJSON_Parse drv plant nvs data =
      mqqt_result.mk plant nvs
        [Effect.mqtt_publish RESPONSE_TOPIC
          (mqtt_msg.query_rsp (printf_0_2f (((plant.config.low_moisture : ℚ) - 720) / 1896))
            (printf_0_2f (((plant.config.watered_moisture : ℚ) - 720) / 1896))
            (printf_0_2f (((plant.config.high_moisture : ℚ) - 720) / 1896))
            plant.config.polling_period_s plant.config.pump_on_period_s
            plant.config.pump_off_period_s plant.config.wet_hold_period_s
            plant.config.dry_hold_period_s)] false := by
  unfold process_mqqt_data
  dsimp only
  rw [if_pos hq, RATIO_FROM_MOISTURE_SENSOR_VALUE_eq, RATIO_FROM_MOISTURE_SENSOR_VALUE_eq,
    RATIO_FROM_MOISTURE_SENSOR_VALUE_eq]

/-- C19 (amended): for every payload whose first five characters are `query`,
whatever follows and whatever the parser makes of it, `process_mqqt_data`
publishes the query response with each threshold as the ratio
`(raw - 720) / 1896` printed with two decimals (`%0.2f`), hence within 1/200 of
that ratio, and the five periods as stored, and leaves the plant record and the
flash store as they were. -/
theorem query_response (cJSON_Parse : String → Option cJSON) (drv : nvs_driver)
    (plant : plant_struct) (nvs : nvs_store) (data : String) (hq : is_query data = true) :
    (process_mqqt_data cJSON_Parse drv plant nvs data).published =
      [Effect.mqtt_publish RESPONSE_TOPIC
        (mqtt_msg.query_rsp (printf_0_2f (((plant.config.low_moisture : ℚ) - 720) / 1896))
          (printf_0_2f (((plant.config.watered_moisture : ℚ) - 720) / 1896))
          (printf_0_2f (((plant.config.high_moisture : ℚ) - 720) / 1896))
          plant.config.polling_period_s plant.config.pump_on_period_s
          plant.config.pump_off_period_s plant.config.wet_hold_period_s
          plant.config.dry_hold_period_s)] ∧
    (|printf_0_2f (((plant.config.low_moisture : ℚ) - 720) / 1896)
        - ((plant.config.low_moisture : ℚ) - 720) / 1896| ≤ 1 / 200 ∧
      |printf_0_2f (((plant.config.watered_moisture : ℚ) - 720) / 1896)
        - ((plant.config.watered_moisture : ℚ) - 720) / 1896| ≤ 1 / 200 ∧
      |printf_0_2f (((plant.config.high_moisture : ℚ) - 720) / 1896)
        - ((plant.config.high_moisture : ℚ) - 720) / 1896| ≤ 1 / 200) ∧
    (process_mqqt_data cJSON_Parse drv plant nvs data).plant = plant ∧
    (process_mqqt_data cJSON_Parse drv plant nvs data).nvs = nvs ∧
    (process_mqqt_data cJSON_Parse drv plant nvs data).aborted = false := by
  rw [process_mqqt_data_query cJSON_Parse drv plant nvs data hq]
  exact ⟨rfl, ⟨printf_0_2f_near _, printf_0_2f_near _, printf_0_2f_near _⟩, rfl, rfl, rfl⟩

/-- The payload "query status" with a parser that rejects it, on the default
thresholds 2236, 2464, 2483: the response shows 0.80, 0.92, 0.93. -/
theorem query_response_witness :
    is_query "query status" = true ∧
    (process_mqqt_data (fun _ => none) nvs_driver_ok
        (sample_plant .PLANT_DRYING 2000 3000 0 0) nvs_empty "query status").published =
      [Effect.mqtt_publish RESPONSE_TOPIC
        (mqtt_msg.query_rsp (4 / 5) (23 / 25) (93 / 100) 10 1 59 1800 300)] ∧
    (process_mqqt_data (fun _ => none) nvs_driver_ok
        (sample_plant .PLANT_DRYING 2000 3000 0 0) nvs_empty "query status").plant
      = sample_plant .PLANT_DRYING 2000 3000 0 0 ∧
    (process_mqqt_data (fun _ => none) nvs_driver_ok
        (sample_plant .PLANT_DRYING 2000 3000 0 0) nvs_empty "query status").nvs = nvs_empty := by
  obtain ⟨h1, -, h2, h3, -⟩ := query_response (fun _ => none) nvs_driver_ok
    (sample_plant .PLANT_DRYING 2000 3000 0 0) nvs_empty "query status" (by decide)
  refine ⟨by decide, ?_, h2, h3⟩
  rw [h1]
  show [Effect.mqtt_publish RESPONSE_TOPIC
    (mqtt_msg.query_rsp (printf_0_2f ((((2236 : Nat) : ℚ) - 720) / 1896))
      (printf_0_2f ((((2464 : Nat) : ℚ) - 720) / 1896))
      (printf_0_2f ((((2483 : Nat) : ℚ) - 720) / 1896)) 10 1 59 1800 300)] = _
  rw [default_thresholds_printed.1, default_thresholds_printed.2.1,
    default_thresholds_printed.2.2]

/-- C19 (counterexample): on the default thresholds 2236, 2464, 2483 the
response to "query" shows 0.80, 0.92, 0.93, while the ratios
`(raw - 720) / 1896` are 379/474, 218/237 and 1763/1896: the response does not
carry the ratios themselves. -/
theorem query_response_shows_two_decimals :
    is_query "query" = true ∧
    (process_mqqt_data (fun _ => none) nvs_driver_ok
        (sample_plant .PLANT_DRYING 2000 3000 0 0) nvs_empty "query").published =
      [Effect.mqtt_publish RESPONSE_TOPIC
        (mqtt_msg.query_rsp (4 / 5) (23 / 25) (93 / 100) 10 1 59 1800 300)] ∧
    ((((sample_plant .PLANT_DRYING 2000 3000 0 0).config.low_moisture : Nat) : ℚ) - 720) / 1896
      = 379 / 474 ∧
    ((((sample_plant .PLANT_DRYING 2000 3000 0 0).config.watered_moisture : Nat) : ℚ) - 720)
      / 1896 = 218 / 237 ∧
    ((((sample_plant .PLANT_DRYING 2000 3000 0 0).config.high_moisture : Nat) : ℚ) - 720) / 1896
      = 1763 / 1896 ∧
    (process_mqqt_data (fun _ => none) nvs_driver_ok
        (sample_plant .PLANT_DRYING 2000 3000 0 0) nvs_empty "query").published ≠
      [Effect.mqtt_publish RESPONSE_TOPIC
        (mqtt_msg.query_rsp (379 / 474) (218 / 237) (1763 / 1896) 10 1 59 1800 300)] := by
  have hrun := process_mqqt_data_query (fun _ => none) nvs_driver_ok
    (sample_plant .PLANT_DRYING 2000 3000 0 0) nvs_empty "query" (by decide)
  have hpub : (process_mqqt_data (fun _ => none) nvs_driver_ok
        (sample_plant .PLANT_DRYING 2000 3000 0 0) nvs_empty "query").published =
      [Effect.mqtt_publish RESPONSE_TOPIC
        (mqtt_msg.query_rsp (4 / 5) (23 / 25) (93 / 100) 10 1 59 1800 300)] := by
    rw [hrun]
    show [Effect.mqtt_publish RESPONSE_TOPIC
      (mqtt_msg.query_rsp (printf_0_2f ((((2236 : Nat) : ℚ) - 720) / 1896))
        (printf_0_2f ((((2464 : Nat) : ℚ) - 720) / 1896))
        (printf_0_2f ((((2483 : Nat) : ℚ) - 720) / 1896)) 10 1 59 1800 300)] = _
    rw [default_thresholds_printed.1, default_thresholds_printed.2.1,
      default_thresholds_printed.2.2]
  refine ⟨by decide, hpub, ?_, ?_, ?_, ?_⟩
  · show (((2236 : Nat) : ℚ) - 720) / 1896 = 379 / 474
    norm_num
  · show (((2464 : Nat) : ℚ) - 720) / 1896 = 218 / 237
    norm_num
  · show (((2483 : Nat) : ℚ) - 720) / 1896 = 1763 / 1896
    norm_num
  · rw [hpub]
    intro h
    have h1 := (List.cons.inj h).1
    injection h1 with _ h2
    injection h2 with h3
    norm_num at h3

/-- A ratio in [0, 1] converted to raw units, back to a ratio and printed with
two decimals satisfies the bound of the amended round trip. -/
theorem reported_ratio (r : ℚ) (h0 : 0 ≤ r) (h1 : r ≤ 1) :
    reported_bound r (printf_0_2f
      ( RATIO_FROM_MOISTURE_SENSOR_VALUE (double_to_uint16 ( MOISTURE_SENSOR_VALUE_FROM_RATIO r)))) := by
  obtain ⟨hy, hlo, hhi, -⟩ := round_trip_ratio r h0 h1
  generalize RATIO_FROM_MOISTURE_SENSOR_VALUE
    (double_to_uint16 ( MOISTURE_SENSOR_VALUE_FROM_RATIO r)) = y at hy hlo hhi ⊢
  unfold reported_bound
  rw [← hy]
  have hn := printf_0_2f_near y
  have hn2 := abs_le.mp hn
  refine ⟨rfl, hlo, hhi, hn, by linarith [hn2.1], by linarith [hn2.2], ?_, ?_⟩
  · intro h
    refine ⟨round_half_even (y * 100), ?_⟩
    rw [← h]
    unfold printf_0_2f
    norm_num
  · rintro ⟨k, hk⟩
    have hr : r = (k : ℚ) / 100 := by linarith
    rw [printf_0_2f_of_near y k (by rw [← hr]; linarith) (by rw [← hr]; linarith), hr]

/-- C11 (amended): update-then-query round trip in exact arithmetic. After an
update request with the three ratios in [0, 1] was answered "CONFIG ACCEPTED",
a following query publishes a response whose three ratios are each the value
`(trunc(r * 1896 + 720) - 720) / 1896` printed with two decimals (`%0.2f`):
that value lies in `(r - 1/1896, r]`, the reported ratio is within 1/200 of it,
so it lies in `(r - 1/1896 - 1/200, r + 1/200]`, and it equals `r` exactly when
`r * 100` is an integer; the five durations are the stored seconds. -/
theorem update_then_query_round_trip (cJSON_Parse : String → Option cJSON) (drv : nvs_driver)
    (plant : plant_struct) (nvs : nvs_store) (data : String)
    (cJSON_Parse2 : String → Option cJSON) (drv2 : nvs_driver) (query : String)
    (hq : is_query data = false) (hw : well_typed_request (cJSON_Parse data))
    (hacc : (process_mqqt_data cJSON_Parse drv plant nvs data).published
      = [Effect.mqtt_publish RESPONSE_TOPIC CONFIG_ACCEPTED])
    (hlow : 0 ≤ valuedouble (request_item (cJSON_Parse data) "low_moisture") ∧
      valuedouble (request_item (cJSON_Parse data) "low_moisture") ≤ 1)
    (hwat : 0 ≤ valuedouble (request_item (cJSON_Parse data) "watered_moisture") ∧
      valuedouble (request_item (cJSON_Parse data) "watered_moisture") ≤ 1)
    (hhigh : 0 ≤ valuedouble (request_item (cJSON_Parse data) "high_moisture") ∧
      valuedouble (request_item (cJSON_Parse data) "high_moisture") ≤ 1)
    (hquery : is_query query = true) :
    ∃ low watered high : ℚ,
      (process_mqqt_data cJSON_Parse2 drv2
          (process_mqqt_data cJSON_Parse drv plant nvs data).plant
          (process_mqqt_data cJSON_Parse drv plant nvs data).nvs query).published =
        [Effect.mqtt_publish RESPONSE_TOPIC
          (mqtt_msg.query_rsp low watered high
            (process_mqqt_data cJSON_Parse drv plant nvs data).plant.config.polling_period_s
            (process_mqqt_data cJSON_Parse drv plant nvs data).plant.config.pump_on_period_s
            (process_mqqt_data cJSON_Parse drv plant nvs data).plant.config.pump_off_period_s
            (process_mqqt_data cJSON_Parse drv plant nvs data).plant.config.wet_hold_period_s
            (process_mqqt_data cJSON_Parse drv plant nvs data).plant.config.dry_hold_period_s)] ∧
      reported_bound (valuedouble (request_item (cJSON_Parse data) "low_moisture")) low ∧
      reported_bound (valuedouble (request_item (cJSON_Parse data) "watered_moisture"))
        watered ∧
      reported_bound (valuedouble (request_item (cJSON_Parse data) "high_moisture")) high := by
  obtain ⟨-, hplant, -⟩ := accepted_update_stored cJSON_Parse drv plant nvs data hq hw hacc
  have hpub := congrArg mqqt_result.published (process_mqqt_data_query cJSON_Parse2 drv2
    (process_mqqt_data cJSON_Parse drv plant nvs data).plant
    (process_mqqt_data cJSON_Parse drv plant nvs data).nvs query hquery)
  refine ⟨_, _, _, hpub, ?_, ?_, ?_⟩
  · rw [← RATIO_FROM_MOISTURE_SENSOR_VALUE_eq, hplant]
    exact reported_ratio _ hlow.1 hlow.2
  · rw [← RATIO_FROM_MOISTURE_SENSOR_VALUE_eq, hplant]
    exact reported_ratio _ hwat.1 hwat.2
  · rw [← RATIO_FROM_MOISTURE_SENSOR_VALUE_eq, hplant]
    exact reported_ratio _ hhigh.1 hhigh.2

/-- The documented request (0.80, 0.92, 0.93) followed by the payload "query". -/
theorem update_then_query_round_trip_witness :
    is_query "update" = false ∧
    well_typed_request (parse_as request_documented "update") ∧
    (process_mqqt_data (parse_as request_documented) nvs_driver_ok
        (sample_plant .PLANT_DRYING 2000 3000 0 0) nvs_empty "update").published
      = [Effect.mqtt_publish RESPONSE_TOPIC CONFIG_ACCEPTED] ∧
    is_query "query" = true ∧
    ∃ low watered high : ℚ,
      (process_mqqt_data (fun _ => none) nvs_driver_ok
          (process_mqqt_data (parse_as request_documented) nvs_driver_ok
            (sample_plant .PLANT_DRYING 2000 3000 0 0) nvs_empty "update").plant
          (process_mqqt_data (parse_as request_documented) nvs_driver_ok
            (sample_plant .PLANT_DRYING 2000 3000 0 0) nvs_empty "update").nvs
          "query").published =
        [Effect.mqtt_publish RESPONSE_TOPIC
          (mqtt_msg.query_rsp low watered high
            (process_mqqt_data (parse_as request_documented) nvs_driver_ok
              (sample_plant .PLANT_DRYING 2000 3000 0 0) nvs_empty
              "update").plant.config.polling_period_s
            (process_mqqt_data (parse_as request_documented) nvs_driver_ok
              (sample_plant .PLANT_DRYING 2000 3000 0 0) nvs_empty
              "update").plant.config.pump_on_period_s
            (process_mqqt_data (parse_as request_documented) nvs_driver_ok
              (sample_plant .PLANT_DRYING 2000 3000 0 0) nvs_empty
              "update").plant.config.pump_off_period_s
            (process_mqqt_data (parse_as request_documented) nvs_driver_ok
              (sample_plant .PLANT_DRYING 2000 3000 0 0) nvs_empty
              "update").plant.config.wet_hold_period_s
            (process_mqqt_data (parse_as request_documented) nvs_driver_ok
              (sample_plant .PLANT_DRYING 2000 3000 0 0) nvs_empty
              "update").plant.config.dry_hold_period_s)] ∧
      reported_bound
        (valuedouble (request_item (parse_as request_documented "update") "low_moisture")) low ∧
      reported_bound
        (valuedouble (request_item (parse_as request_documented "update") "watered_moisture"))
        watered ∧
      reported_bound
        (valuedouble (request_item (parse_as request_documented "update") "high_moisture"))
        high :=
  ⟨by decide, config_request.json_well_typed request_documented, request_documented_accepted,
    by decide,
    update_then_query_round_trip (parse_as request_documented) nvs_driver_ok
      (sample_plant .PLANT_DRYING 2000 3000 0 0) nvs_empty "update" (fun _ => none)
      nvs_driver_ok "query" (by decide) (config_request.json_well_typed request_documented)
      request_documented_accepted
      (by show (0 : ℚ) ≤ 4 / 5 ∧ (4 / 5 : ℚ) ≤ 1; norm_num)
      (by show (0 : ℚ) ≤ 23 / 25 ∧ (23 / 25 : ℚ) ≤ 1; norm_num)
      (by show (0 : ℚ) ≤ 93 / 100 ∧ (93 / 100 : ℚ) ≤ 1; norm_num)
      (by decide)⟩

/-- The request `request_eighths` passes the sanity check. -/
theorem request_eighths_sane : request_sane (some request_eighths.json) := by
  rw [config_request.json_sane_iff]
  norm_num [request_eighths]

/-- The configuration stored for the request `request_eighths`. -/
theorem request_eighths_converted :
    converted_config (some request_eighths.json) =
      { low_moisture := 838, watered_moisture := 957, high_moisture := 2483,
        polling_period_s := 10, pump_on_period_s := 2, pump_off_period_s := 58,
        wet_hold_period_s := 1800, dry_hold_period_s := 300 } := by
  have h1 : double_to_uint16 ( MOISTURE_SENSOR_VALUE_FROM_RATIO (1 / 16)) = 838 := by
    apply double_to_uint16_of_bounds _ _ (by norm_num) <;>
      norm_num [ MOISTURE_SENSOR_VALUE_FROM_RATIO, MOISTURE_SENSOR_WET, MOISTURE_SENSOR_DRY]
  have h2 : double_to_uint16 ( MOISTURE_SENSOR_VALUE_FROM_RATIO (1 / 8)) = 957 := by
    apply double_to_uint16_of_bounds _ _ (by norm_num) <;>
      norm_num [ MOISTURE_SENSOR_VALUE_FROM_RATIO, MOISTURE_SENSOR_WET, MOISTURE_SENSOR_DRY]
  rw [config_request.json_converted]
  show plant_watering_config_struct.mk
    (double_to_uint16 ( MOISTURE_SENSOR_VALUE_FROM_RATIO (1 / 16)))
    (double_to_uint16 ( MOISTURE_SENSOR_VALUE_FROM_RATIO (1 / 8)))
    (double_to_uint16 ( MOISTURE_SENSOR_VALUE_FROM_RATIO (93 / 100)))
    (to_uint16 10) (to_uint16 2) (to_uint16 58) (to_uint16 1800) (to_uint16 300) = _
  rw [h1, h2, converted_thresholds.2.2.2.2]
  rfl

/-- C11 (counterexample): the request with ratios 0.0625, 0.125, 0.93 is
answered "CONFIG ACCEPTED" and stored as 838, 957, 2483; the following query
shows 0.06, 0.12, 0.93. The reported 0.06 is not in `(r - 1/1896, r]` for
`r = 0.0625`, and for `r = 0.125`, where `r * 1896 = 237` is an integer, the
reported 0.12 is not `r`. -/
theorem query_reports_two_decimals :
    (0 : ℚ) ≤ 1 / 16 ∧ (1 / 16 : ℚ) ≤ 1 ∧ (0 : ℚ) ≤ 1 / 8 ∧ (1 / 8 : ℚ) ≤ 1 ∧
    (process_mqqt_data (parse_as request_eighths) nvs_driver_ok
        (sample_plant .PLANT_DRYING 2000 3000 0 0) nvs_empty "update").published
      = [Effect.mqtt_publish RESPONSE_TOPIC CONFIG_ACCEPTED] ∧
    (process_mqqt_data (fun _ => none) nvs_driver_ok
        (process_mqqt_data (parse_as request_eighths) nvs_driver_ok
          (sample_plant .PLANT_DRYING 2000 3000 0 0) nvs_empty "update").plant
        (process_mqqt_data (parse_as request_eighths) nvs_driver_ok
          (sample_plant .PLANT_DRYING 2000 3000 0 0) nvs_empty "update").nvs
        "query").published =
      [Effect.mqtt_publish RESPONSE_TOPIC
        (mqtt_msg.query_rsp (3 / 50) (3 / 25) (93 / 100) 10 2 58 1800 300)] ∧
    ¬ ((1 / 16 : ℚ) - 1 / 1896 < 3 / 50) ∧
    (1 / 8 : ℚ) * 1896 = ((237 : Int) : ℚ) ∧ (3 / 25 : ℚ) ≠ 1 / 8 ∧
    ¬ round_trip_bound (1 / 16) (3 / 50) ∧ ¬ round_trip_bound (1 / 8) (3 / 25) := by
  have hrun := process_mqqt_data_well_typed (parse_as request_eighths) nvs_driver_ok
    (sample_plant .PLANT_DRYING 2000 3000 0 0) nvs_empty "update" (by decide)
    (config_request.json_well_typed request_eighths)
  rw [if_pos (show request_sane (parse_as request_eighths "update") from
    request_eighths_sane), if_pos (by decide)] at hrun
  have hcfg : converted_config (parse_as request_eighths "update") = _ :=
    request_eighths_converted
  rw [hcfg] at hrun
  rw [hrun]
  dsimp only
  have p1 : printf_0_2f ((((838 : Nat) : ℚ) - 720) / 1896) = 3 / 50 := by
    rw [printf_0_2f_of_near _ 6 (by norm_num) (by norm_num)]; norm_num
  have p2 : printf_0_2f ((((957 : Nat) : ℚ) - 720) / 1896) = 3 / 25 := by
    rw [show (((957 : Nat) : ℚ) - 720) / 1896 = 1 / 8 by norm_num]
    exact printf_0_2f_eighth
  refine ⟨by norm_num, by norm_num, by norm_num, by norm_num, rfl, ?_, by norm_num,
    by norm_num, by norm_num, ?_, ?_⟩
  · rw [process_mqqt_data_query _ _ _ _ "query" (by decide)]
    show [Effect.mqtt_publish RESPONSE_TOPIC
      (mqtt_msg.query_rsp (printf_0_2f ((((838 : Nat) : ℚ) - 720) / 1896))
        (printf_0_2f ((((957 : Nat) : ℚ) - 720) / 1896))
        (printf_0_2f ((((2483 : Nat) : ℚ) - 720) / 1896)) 10 2 58 1800 300)] = _
    rw [p1, p2, default_thresholds_printed.2.2]
  · rintro ⟨-, h, -⟩
    norm_num at h
  · rintro ⟨-, h, -⟩
    norm_num at h

/-! ## Theorems: payloads without a usable "config" object -/

/-- C20 (counterexample): a payload that parses to an object without a "config"
member is answered "Unexpected JSON structure", while a payload whose "config"
object lacks its fields is answered "CONFIG REJECTED - Parse Failed"; the two
responses differ. -/
theorem absent_config_is_not_parse_failed :
    (process_mqqt_data (fun _ => some (cJSON.object [])) nvs_driver_ok
        (sample_plant .PLANT_DRYING 2000 3000 0 0) nvs_empty "update").published
      = [Effect.mqtt_publish RESPONSE_TOPIC (mqtt_msg.text "Unexpected JSON structure")] ∧
    (process_mqqt_data (fun _ => some (cJSON.object [("config", cJSON.object [])]))
        nvs_driver_ok (sample_plant .PLANT_DRYING 2000 3000 0 0) nvs_empty "update").published
      = [Effect.mqtt_publish RESPONSE_TOPIC (mqtt_msg.text "CONFIG REJECTED - Parse Failed")] ∧
    (process_mqqt_data (fun _ => some (cJSON.object [])) nvs_driver_ok
        (sample_plant .PLANT_DRYING 2000 3000 0 0) nvs_empty "update").published
      ≠ (process_mqqt_data (fun _ => some (cJSON.object [("config", cJSON.object [])]))
        nvs_driver_ok (sample_plant .PLANT_DRYING 2000 3000 0 0) nvs_empty "update").published := by
  decide

/-- C20 (amended): for every payload that does not start with `query` and parses
as JSON, when the nested "config" object is absent or is not an object the
response is "Unexpected JSON structure"; when it is an object but one of the
eight fields is missing or is not a number the response is
"CONFIG REJECTED - Parse Failed"; the two responses are different texts, and in
both cases the plant record and the flash store are unchanged. -/
theorem unusable_config_responses (cJSON_Parse : String → Option cJSON) (drv : nvs_driver)
    (plant : plant_struct) (nvs : nvs_store) (data : String)
    (hq : is_query data = false) (hj : (cJSON_Parse data).isSome = true) :
    (cJSON_IsObject (cJSON_GetObjectItemCaseSensitive (cJSON_Parse data) "config") = false →
      process_mqqt_data cJSON_Parse drv plant nvs data =
        mqqt_result.mk plant nvs
          [Effect.mqtt_publish RESPONSE_TOPIC UNEXPECTED_JSON_STRUCTURE] false) ∧
    (cJSON_IsObject (cJSON_GetObjectItemCaseSensitive (cJSON_Parse data) "config") = true →
      ¬ well_typed_request (cJSON_Parse data) →
      process_mqqt_data cJSON_Parse drv plant nvs data =
        mqqt_result.mk plant nvs
          [Effect.mqtt_publish RESPONSE_TOPIC CONFIG_REJECTED_PARSE] false) ∧
    UNEXPECTED_JSON_STRUCTURE ≠ CONFIG_REJECTED_PARSE := by
  have hnone : (cJSON_Parse data).isNone = false := by
    cases h : cJSON_Parse data with
    | none => rw [h] at hj; exact absurd hj (by decide)
    | some j => rfl
  refine ⟨?_, ?_, by decide⟩
  · intro hobj
    unfold process_mqqt_data
    dsimp only
    rw [if_neg (by rw [hq]; decide), if_neg (by rw [hnone]; decide),
      if_neg (by rw [hobj]; decide)]
  · intro hobj hnw
    have hnum : ¬ ((cJSON_IsNumber (request_item (cJSON_Parse data) "low_moisture") &&
        cJSON_IsNumber (request_item (cJSON_Parse data) "watered_moisture") &&
        cJSON_IsNumber (request_item (cJSON_Parse data) "high_moisture") &&
        cJSON_IsNumber (request_item (cJSON_Parse data) "polling_period_s") &&
        cJSON_IsNumber (request_item (cJSON_Parse data) "pump_on_period_s") &&
        cJSON_IsNumber (request_item (cJSON_Parse data) "pump_off_period_s") &&
        cJSON_IsNumber (request_item (cJSON_Parse data) "wet_hold_period_s") &&
        cJSON_IsNumber (request_item (cJSON_Parse data) "dry_hold_period_s")) = true) := by
      intro h
      simp only [Bool.and_eq_true] at h
      exact hnw ⟨hobj, h.1.1.1.1.1.1.1, h.1.1.1.1.1.1.2, h.1.1.1.1.1.2, h.1.1.1.1.2,
        h.1.1.1.2, h.1.1.2, h.1.2, h.2⟩
    unfold request_item at hnum
    unfold process_mqqt_data
    dsimp only
    rw [if_neg (by rw [hq]; decide), if_neg (by rw [hnone]; decide), if_pos hobj,
      if_neg hnum]

/-- A payload parsed to the empty object. -/
theorem unusable_config_responses_witness :
    is_query "update" = false ∧
    ((fun _ => some (cJSON.object [])) "update" : Option cJSON).isSome = true ∧
    process_mqqt_data (fun _ => some (cJSON.object [])) nvs_driver_ok
        (sample_plant .PLANT_DRYING 2000 3000 0 0) nvs_empty "update" =
      mqqt_result.mk (sample_plant .PLANT_DRYING 2000 3000 0 0) nvs_empty
        [Effect.mqtt_publish RESPONSE_TOPIC UNEXPECTED_JSON_STRUCTURE] false :=
  ⟨by decide, rfl,
    (unusable_config_responses (fun _ => some (cJSON.object [])) nvs_driver_ok
      (sample_plant .PLANT_DRYING 2000 3000 0 0) nvs_empty "update" (by decide) rfl).1 rfl⟩

/-! ## Theorems: what a tick can do -/

/-- A transition of the allow-list leaves the current state. -/
theorem changeState_valid_ne (s t : PlantStates) (h : changeState_valid s t = true) : t ≠ s := by
  cases s <;> cases t <;> simp [changeState_valid] at h ⊢

/-- The function `changeState` on a transition of the allow-list. -/
theorem changeState_of_valid (g : globals) (q : plant_struct) (t : PlantStates) (now : Nat)
    (h : changeState_valid q.status.state t = true) :
    changeState g q t now =
      ({ q with status := { q.status with state_entry_time_us := now, state := t } },
        if t = .PLANT_PUMP_ON then turnOnPump g q else turnOffPump q) := by
  unfold changeState
  simp only [h, if_true]

/-- The guards either leave the record alone and call nothing, or request one
transition of the allow-list. -/
theorem handleStateMachine_guards_cases (g : globals) (q : plant_struct) (now : Nat) :
    handleStateMachine_guards g q now = (q, []) ∨
    ∃ t, changeState_valid q.status.state t = true ∧
      handleStateMachine_guards g q now = changeState g q t now := by
  unfold handleStateMachine_guards
  cases hs : q.status.state <;> dsimp only <;> (repeat' split) <;>
    first
      | exact Or.inl rfl
      | exact Or.inr ⟨_, by rfl, rfl⟩


/-- The guards never end in ALARM from another state. -/
theorem handleStateMachine_guards_no_alarm (g : globals) (q : plant_struct) (now : Nat)
    (h : q.status.state ≠ PlantStates.PLANT_ALARM) :
    (handleStateMachine_guards g q now).1.status.state ≠ PlantStates.PLANT_ALARM := by
  rcases handleStateMachine_guards_cases g q now with h1 | ⟨t, ht, h1⟩
  · rw [h1]; exact h
  · rw [h1, changeState_of_valid g q t now ht]
    show t ≠ PlantStates.PLANT_ALARM
    intro ha
    rw [ha] at ht
    cases hs : q.status.state <;> rw [hs] at ht <;> simp [changeState_valid] at ht

/-- The record the guards of a tick work on: its state is the state before the
tick for an initialised plant and DRYING after an initialisation. -/
theorem handleStateMachine_eq_guards (g : globals) (w : sensor_world) (plant : plant_struct)
    (now : Nat) :
    ∃ q fx, handleStateMachine g w plant now
        = ((handleStateMachine_guards g q now).1, fx ++ (handleStateMachine_guards g q now).2) ∧
      q.status.initialized = true ∧ q.config = plant.config ∧ q.pins = plant.pins ∧
      (plant.status.initialized = true →
        q = after_poll g w plant now ∧ gpio_writes fx = []) ∧
      (plant.status.initialized = false →
        q.status.state = PlantStates.PLANT_DRYING ∧ q.status.state_entry_time_us = now ∧
        gpio_writes fx = [(plant.pins.pump_gpio_pin, 1)]) := by
  cases hi : plant.status.initialized with
  | true =>
    refine ⟨after_poll g w plant now,
      if poll_due plant now then (pollSensors g w plant now).2 else [],
      handleStateMachine_initialized g w plant now hi, ?_, ?_, ?_, ?_, ?_⟩
    · rw [(after_poll_frame g w plant now).2.2.2.2]; exact hi
    · exact (after_poll_frame g w plant now).2.1
    · exact (after_poll_frame g w plant now).1
    · intro _
      refine ⟨rfl, ?_⟩
      split
      · exact pollSensors_gpio_writes g w plant now
      · rfl
    · intro h; cases h
  | false =>
    obtain ⟨h1, h2, h3, h4, -, h6, h7, -, h9⟩ := initPlant_spec g w plant now
    have hp : poll_due (initPlant g w plant now).1 now = false := by
      unfold poll_due
      rw [h3, u64_sub_self]
      simp
    refine ⟨(initPlant g w plant now).1, (initPlant g w plant now).2, ?_, h4, h6, h7, ?_, ?_⟩
    · unfold handleStateMachine
      simp only [hi, Bool.not_false, if_true, hp, Bool.false_eq_true, if_false,
        List.append_nil]
    · intro h; cases h
    · intro _; exact ⟨h1, h2, h9⟩

/-! ## Theorems: failure of the store, defaults, what a tick leaves alone -/

/-- The result of `store_plant_to_nvs` is the error of the first driver call
that failed. -/
theorem store_plant_to_nvs_propagates (drv : nvs_driver) (nvs : nvs_store) (plant : plant_struct)
    (key : String) :
    (drv.open_err ≠ ESP_OK → (store_plant_to_nvs drv nvs plant key).1 = drv.open_err) ∧
    (drv.open_err = ESP_OK → drv.set_blob_err ≠ ESP_OK →
      (store_plant_to_nvs drv nvs plant key).1 = drv.set_blob_err) ∧
    (drv.open_err = ESP_OK → drv.set_blob_err = ESP_OK → drv.commit_err ≠ ESP_OK →
      (store_plant_to_nvs drv nvs plant key).1 = drv.commit_err) := by
  unfold store_plant_to_nvs
  refine ⟨fun h => ?_, fun h1 h2 => ?_, fun h1 h2 h3 => ?_⟩
  · simp [h]
  · simp [h1, h2]
  · simp [h1, h2, h3]

/-- Whatever the payload, "CONFIG ACCEPTED" is published only when the store of
the resulting record returned `ESP_OK`. -/
theorem accepted_only_after_store (cJSON_Parse : String → Option cJSON) (drv : nvs_driver)
    (plant : plant_struct) (nvs : nvs_store) (data : String)
    (h : Effect.mqtt_publish RESPONSE_TOPIC CONFIG_ACCEPTED
      ∈ (process_mqqt_data cJSON_Parse drv plant nvs data).published) :
    (store_plant_to_nvs drv nvs (process_mqqt_data cJSON_Parse drv plant nvs data).plant
      PLANT_NVS_KEY).1 = ESP_OK := by
  unfold process_mqqt_data at h ⊢
  dsimp only at h ⊢
  split_ifs at h ⊢ with h1 h2 h3 h4 h5 h6
  all_goals first
    | (simp [CONFIG_ACCEPTED, JSON_PARSE_ERROR, UNEXPECTED_JSON_STRUCTURE, CONFIG_REJECTED_PARSE,
        CONFIG_REJECTED_SANITY] at h; done)
    | (simpa [ESP_ERROR_CHECK] using h6)

/-- C21: for every update request that passes validation (well typed and sane),
when persisting fails - `store_plant_to_nvs` returns the error of the `nvs_open`,
`nvs_set_blob` or `nvs_commit` call that failed - `process_mqqt_data` publishes
nothing, in particular not "CONFIG ACCEPTED", and ends in the fatal error of
`ESP_ERROR_CHECK`; and whatever the payload, "CONFIG ACCEPTED" is published only
when `store_plant_to_nvs` returned `ESP_OK` on the updated record. -/
theorem store_failure_is_fatal (cJSON_Parse : String → Option cJSON) (drv : nvs_driver)
    (plant : plant_struct) (nvs : nvs_store) (data : String)
    (hq : is_query data = false) (hw : well_typed_request (cJSON_Parse data))
    (hs : request_sane (cJSON_Parse data)) :
    ((store_plant_to_nvs drv nvs
        { plant with config := converted_config (cJSON_Parse data) } PLANT_NVS_KEY).1 ≠ ESP_OK →
      Effect.mqtt_publish RESPONSE_TOPIC CONFIG_ACCEPTED
        ∉ (process_mqqt_data cJSON_Parse drv plant nvs data).published ∧
      (process_mqqt_data cJSON_Parse drv plant nvs data).published = [] ∧
      (process_mqqt_data cJSON_Parse drv plant nvs data).aborted = true) ∧
    (drv.open_err ≠ ESP_OK →
      (store_plant_to_nvs drv nvs
        { plant with config := converted_config (cJSON_Parse data) } PLANT_NVS_KEY).1
        = drv.open_err) ∧
    (drv.open_err = ESP_OK → drv.set_blob_err ≠ ESP_OK →
      (store_plant_to_nvs drv nvs
        { plant with config := converted_config (cJSON_Parse data) } PLANT_NVS_KEY).1
        = drv.set_blob_err) ∧
    (drv.open_err = ESP_OK → drv.set_blob_err = ESP_OK → drv.commit_err ≠ ESP_OK →
      (store_plant_to_nvs drv nvs
        { plant with config := converted_config (cJSON_Parse data) } PLANT_NVS_KEY).1
        = drv.commit_err) ∧
    (∀ (payload : String),
      Effect.mqtt_publish RESPONSE_TOPIC CONFIG_ACCEPTED
        ∈ (process_mqqt_data cJSON_Parse drv plant nvs payload).published →
      (store_plant_to_nvs drv nvs (process_mqqt_data cJSON_Parse drv plant nvs payload).plant
        PLANT_NVS_KEY).1 = ESP_OK) := by
  refine ⟨fun hf => ?_, (store_plant_to_nvs_propagates drv nvs _ _).1,
    (store_plant_to_nvs_propagates drv nvs _ _).2.1,
    (store_plant_to_nvs_propagates drv nvs _ _).2.2,
    fun payload => accepted_only_after_store cJSON_Parse drv plant nvs payload⟩
  have hok : ¬ drv.store_ok := fun h => hf ((store_plant_to_nvs_ok_iff drv nvs _ _).mpr h)
  rw [process_mqqt_data_well_typed cJSON_Parse drv plant nvs data hq hw]
  simp [hs, hok]

/-- The documented request with a failing `nvs_commit`. -/
theorem store_failure_is_fatal_witness :
    is_query "update" = false ∧
    well_typed_request (parse_as request_documented "update") ∧
    request_sane (parse_as request_documented "update") ∧
    (store_plant_to_nvs nvs_driver_commit_fails nvs_empty
        { sample_plant .PLANT_DRYING 2000 3000 0 0 with
            config := converted_config (parse_as request_documented "update") }
        PLANT_NVS_KEY).1 ≠ ESP_OK ∧
    (process_mqqt_data (parse_as request_documented) nvs_driver_commit_fails
        (sample_plant .PLANT_DRYING 2000 3000 0 0) nvs_empty "update").published = [] ∧
    (process_mqqt_data (parse_as request_documented) nvs_driver_commit_fails
        (sample_plant .PLANT_DRYING 2000 3000 0 0) nvs_empty "update").aborted = true :=
  ⟨by decide, config_request.json_well_typed request_documented, request_documented_sane,
    by decide,
    ((store_failure_is_fatal (parse_as request_documented) nvs_driver_commit_fails
      (sample_plant .PLANT_DRYING 2000 3000 0 0) nvs_empty "update" (by decide)
      (config_request.json_well_typed request_documented) request_documented_sane).1
      (by decide)).2⟩

/-- C27: the compiled-in default configuration is low_moisture = 2236,
watered_moisture = 2464, high_moisture = 2483 (the ratios 0.80, 0.92, 0.93
through the macro) with periods 10, 1, 59, 1800 and 300 seconds, and it
satisfies the configuration invariant. -/
theorem plant_default_config :
    plant_default.config =
      { low_moisture := 2236
        watered_moisture := 2464
        high_moisture := 2483
        polling_period_s := 10
        pump_on_period_s := 1
        pump_off_period_s := 59
        wet_hold_period_s := 1800
        dry_hold_period_s := 300 } ∧
    config_invariant plant_default.config := by
  obtain ⟨-, -, h80, h92, h93⟩ := converted_thresholds
  have e80 : (80 / 100 : ℚ) = 4 / 5 := by norm_num
  have e92 : (92 / 100 : ℚ) = 23 / 25 := by norm_num
  have hc : plant_default.config =
      { low_moisture := 2236
        watered_moisture := 2464
        high_moisture := 2483
        polling_period_s := 10
        pump_on_period_s := 1
        pump_off_period_s := 59
        wet_hold_period_s := 1800
        dry_hold_period_s := 300 } := by
    unfold plant_default
    dsimp only
    rw [e80, e92, h80, h92, h93]
  refine ⟨hc, ?_⟩
  rw [hc]
  unfold config_invariant
  decide

/-- A tick leaves the configuration and the pins alone. -/
theorem handleStateMachine_frame (g : globals) (w : sensor_world) (plant : plant_struct)
    (now : Nat) :
    (handleStateMachine g w plant now).1.config = plant.config ∧
    (handleStateMachine g w plant now).1.pins = plant.pins := by
  unfold handleStateMachine
  dsimp only
  obtain ⟨hgp, hgc, -⟩ := handleStateMachine_guards_frame g
    (if poll_due (if (!plant.status.initialized) = true then initPlant g w plant now
        else (plant, [])).1 now = true
      then pollSensors g w (if (!plant.status.initialized) = true then initPlant g w plant now
        else (plant, [])).1 now
      else ((if (!plant.status.initialized) = true then initPlant g w plant now
        else (plant, [])).1, [])).1 now
  rw [hgp, hgc]
  have h1 : (if (!plant.status.initialized) = true then initPlant g w plant now
        else (plant, [])).1.config = plant.config ∧
      (if (!plant.status.initialized) = true then initPlant g w plant now
        else (plant, [])).1.pins = plant.pins := by
    split
    · exact ⟨(initPlant_spec g w plant now).2.2.2.2.2.1,
        (initPlant_spec g w plant now).2.2.2.2.2.2.1⟩
    · exact ⟨rfl, rfl⟩
  generalize (if (!plant.status.initialized) = true then initPlant g w plant now
        else (plant, [])).1 = q at h1 ⊢
  split
  · obtain ⟨hp, hc, -⟩ := pollSensors_frame g w q now
    rw [hp, hc]; exact ⟨h1.1, h1.2⟩
  · exact ⟨h1.1, h1.2⟩

/-- The record after `process_mqqt_data`: the record before, or, for a request
that is well typed and passes the sanity check, the record with the converted
configuration. -/
theorem process_mqqt_data_plant (cJSON_Parse : String → Option cJSON) (drv : nvs_driver)
    (plant : plant_struct) (nvs : nvs_store) (data : String) :
    (process_mqqt_data cJSON_Parse drv plant nvs data).plant = plant ∨
    (is_query data = false ∧ well_typed_request (cJSON_Parse data) ∧
      request_sane (cJSON_Parse data) ∧
      (process_mqqt_data cJSON_Parse drv plant nvs data).plant
        = { plant with config := converted_config (cJSON_Parse data) }) := by
  have hs := sanity_check_iff (cJSON_Parse data)
  unfold request_item at hs
  unfold process_mqqt_data
  dsimp only
  split_ifs with h1 h2 h3 h4 h5 h6
  all_goals first
    | exact Or.inl rfl
    | (right
       simp only [Bool.and_eq_true] at h4
       refine ⟨by simpa using h1, ?_, hs.mp h5, rfl⟩
       unfold well_typed_request request_item
       tauto)

/-- C26: the state machine never changes the configuration: for every plant,
initialised or not, every timestamp and all hardware answers, a tick of
`handleStateMachine` - and each of `initPlant`, `pollSensors`, `changeState` and
the guards - leaves the eight configuration fields and the pins unchanged;
`process_mqqt_data` never changes the pins or the status, and it changes the
configuration only for an update request that is well typed and passes the
sanity check, where it writes the converted configuration. -/
theorem tick_preserves_config (g : globals) (w : sensor_world) (plant : plant_struct)
    (now : Nat) (cJSON_Parse : String → Option cJSON) (drv : nvs_driver) (nvs : nvs_store)
    (data : String) :
    ((handleStateMachine g w plant now).1.config = plant.config ∧
      (handleStateMachine g w plant now).1.pins = plant.pins) ∧
    ((initPlant g w plant now).1.config = plant.config ∧
      (initPlant g w plant now).1.pins = plant.pins) ∧
    ((pollSensors g w plant now).1.config = plant.config ∧
      (pollSensors g w plant now).1.pins = plant.pins) ∧
    (∀ t, (changeState g plant t now).1.config = plant.config ∧
      (changeState g plant t now).1.pins = plant.pins) ∧
    ((handleStateMachine_guards g plant now).1.config = plant.config ∧
      (handleStateMachine_guards g plant now).1.pins = plant.pins) ∧
    ((process_mqqt_data cJSON_Parse drv plant nvs data).plant.pins = plant.pins ∧
      (process_mqqt_data cJSON_Parse drv plant nvs data).plant.status = plant.status) ∧
    ((process_mqqt_data cJSON_Parse drv plant nvs data).plant.config ≠ plant.config →
      is_query data = false ∧ well_typed_request (cJSON_Parse data) ∧
      request_sane (cJSON_Parse data) ∧
      (process_mqqt_data cJSON_Parse drv plant nvs data).plant.config
        = converted_config (cJSON_Parse data)) := by
  refine ⟨handleStateMachine_frame g w plant now,
    ⟨(initPlant_spec g w plant now).2.2.2.2.2.1, (initPlant_spec g w plant now).2.2.2.2.2.2.1⟩,
    ⟨(pollSensors_frame g w plant now).2.1, (pollSensors_frame g w plant now).1⟩,
    fun t => ⟨(changeState_frame g plant t now).2.1, (changeState_frame g plant t now).1⟩,
    ⟨(handleStateMachine_guards_frame g plant now).2.1,
      (handleStateMachine_guards_frame g plant now).1⟩, ?_, ?_⟩
  · rcases process_mqqt_data_plant cJSON_Parse drv plant nvs data with h | ⟨-, -, -, h⟩
    · rw [h]; exact ⟨rfl, rfl⟩
    · rw [h]; exact ⟨rfl, rfl⟩
  · intro hne
    rcases process_mqqt_data_plant cJSON_Parse drv plant nvs data with h | ⟨h1, h2, h3, h⟩
    · rw [h] at hne; exact absurd rfl hne
    · rw [h]; exact ⟨h1, h2, h3, rfl⟩

/-- One tick never ends in ALARM unless the plant was initialised and in ALARM. -/
theorem handleStateMachine_no_alarm (g : globals) (w : sensor_world) (plant : plant_struct)
    (now : Nat)
    (h : plant.status.state ≠ PlantStates.PLANT_ALARM ∨ plant.status.initialized = false) :
    (handleStateMachine g w plant now).1.status.state ≠ PlantStates.PLANT_ALARM := by
  obtain ⟨q, fx, he, -, -, -, h1, h2⟩ := handleStateMachine_eq_guards g w plant now
  rw [he]
  apply handleStateMachine_guards_no_alarm
  cases hi : plant.status.initialized with
  | true =>
    rw [(h1 hi).1, (after_poll_frame g w plant now).2.2.1]
    rcases h with h | h
    · exact h
    · rw [hi] at h; cases h
  | false =>
    rw [(h2 hi).1]
    decide

/-- C23: for every plant whose state is not ALARM, initialised or not, whatever
the configuration, the readings and the timestamp, the state after one tick of
`handleStateMachine` is not ALARM: every move of the guard table is a pair of
the allow-list of `changeState`; hence the state is not ALARM after any number
of ticks. -/
theorem alarm_unreachable (g : globals) (w : sensor_world) (plant : plant_struct) (now : Nat)
    (h : plant.status.state ≠ PlantStates.PLANT_ALARM) :
    (handleStateMachine g w plant now).1.status.state ≠ PlantStates.PLANT_ALARM ∧
    (∀ (s : PlantStates) (m elapsed : Nat) (c : plant_watering_config_struct),
      guard_table s m elapsed c = s ∨ changeState_valid s (guard_table s m elapsed c) = true) ∧
    (∀ l : List (sensor_world × Nat),
      (ticks g plant l).status.state ≠ PlantStates.PLANT_ALARM) := by
  refine ⟨handleStateMachine_no_alarm g w plant now (Or.inl h), ?_, ?_⟩
  · intro s m elapsed c
    unfold guard_table
    cases s <;> dsimp only <;> (repeat' split) <;> simp [changeState_valid]
  · intro l
    induction l generalizing plant with
    | nil => exact h
    | cons a l ih =>
      obtain ⟨w2, now2⟩ := a
      exact ih _ (handleStateMachine_no_alarm g w2 plant now2 (Or.inl h))

/-- The uninitialised plant `sample_uninitialised` (stored state PUMP_ON) and
the default plant. -/
theorem alarm_unreachable_witness :
    sample_uninitialised.status.state ≠ PlantStates.PLANT_ALARM ∧
    (handleStateMachine globals_default (sample_world 2000) sample_uninitialised
      5).1.status.state ≠ PlantStates.PLANT_ALARM ∧
    (∀ l : List (sensor_world × Nat),
      (ticks globals_default plant_default l).status.state ≠ PlantStates.PLANT_ALARM) :=
  ⟨by decide,
    (alarm_unreachable globals_default (sample_world 2000) sample_uninitialised 5
      (by decide)).1,
    (alarm_unreachable globals_default (sample_world 2000) plant_default 5
      (by unfold plant_default plant_status_struct_default; decide)).2.2⟩

/-- One tick of an initialised plant: either the guards change nothing (state
and entry time stay, no pump command), or the state moves to another state of
the allow-list, the entry time becomes `now` and the pump is commanded. -/
theorem handleStateMachine_cases (g : globals) (w : sensor_world) (p : plant_struct) (now : Nat)
    (hi : p.status.initialized = true) :
    ((handleStateMachine g w p now).1 = after_poll g w p now ∧
      gpio_writes (handleStateMachine g w p now).2 = []) ∨
    (∃ t, changeState_valid p.status.state t = true ∧
      (handleStateMachine g w p now).1.status.state = t ∧
      (handleStateMachine g w p now).1.status.state_entry_time_us = now ∧
      gpio_writes (handleStateMachine g w p now).2 =
        gpio_writes (if t = .PLANT_PUMP_ON then turnOnPump g (after_poll g w p now)
          else turnOffPump (after_poll g w p now))) := by
  have hpoll : gpio_writes (if poll_due p now = true then (pollSensors g w p now).2 else []) = [] := by
    split
    · exact pollSensors_gpio_writes g w p now
    · rfl
  rw [handleStateMachine_initialized g w p now hi]
  rcases handleStateMachine_guards_cases g (after_poll g w p now) now with h1 | ⟨t, ht, h1⟩
  · left
    rw [h1]
    exact ⟨rfl, by rw [gpio_writes_append, hpoll]; rfl⟩
  · right
    rw [h1, changeState_of_valid g _ t now ht]
    rw [(after_poll_frame g w p now).2.2.1] at ht
    exact ⟨t, ht, rfl, rfl, by rw [gpio_writes_append, hpoll]; rfl⟩

/-- A tick of an initialised plant in DRYING whose reading is not below
`low_moisture` changes nothing but what the poll writes. -/
theorem drying_tick (g : globals) (w : sensor_world) (p : plant_struct) (now : Nat)
    (hi : p.status.initialized = true) (hs : p.status.state = PlantStates.PLANT_DRYING)
    (hm : ¬ (after_poll g w p now).status.poll_median_moisture_sensor < p.config.low_moisture) :
    (handleStateMachine g w p now).1 = after_poll g w p now := by
  rw [handleStateMachine_initialized g w p now hi]
  obtain ⟨-, h2, h3, -⟩ := after_poll_frame g w p now
  unfold handleStateMachine_guards
  rw [h3, hs]
  dsimp only
  rw [h2, if_neg hm]

/-- C24: for every initialised plant and tick of `handleStateMachine`: when the
state after the tick equals the state before it, `state_entry_time_us` is
unchanged and no pump command is issued; when the state changed,
`state_entry_time_us` is the timestamp of the tick. In particular a plant in
DRYING whose reading is not below `low_moisture` at any tick stays in DRYING
with its entry time untouched over any number of ticks. -/
theorem unchanged_state_keeps_entry_time (g : globals) (w : sensor_world) (p : plant_struct)
    (now : Nat) (hi : p.status.initialized = true) :
    ((handleStateMachine g w p now).1.status.state = p.status.state →
      (handleStateMachine g w p now).1.status.state_entry_time_us
        = p.status.state_entry_time_us ∧
      gpio_writes (handleStateMachine g w p now).2 = []) ∧
    ((handleStateMachine g w p now).1.status.state ≠ p.status.state →
      (handleStateMachine g w p now).1.status.state_entry_time_us = now) ∧
    (p.status.state = PlantStates.PLANT_DRYING →
      ∀ l : List (sensor_world × Nat),
        readings_all (fun m => ¬ m < p.config.low_moisture) g p l →
        (ticks g p l).status.state = PlantStates.PLANT_DRYING ∧
        (ticks g p l).status.state_entry_time_us = p.status.state_entry_time_us) := by
  obtain ⟨-, hc, h3, h4, h5⟩ := after_poll_frame g w p now
  refine ⟨fun h => ?_, fun h => ?_, fun hs l => ?_⟩
  · rcases handleStateMachine_cases g w p now hi with ⟨h1, h2⟩ | ⟨t, ht, h1, -, -⟩
    · exact ⟨by rw [h1, h4], h2⟩
    · exact absurd (h1.symm.trans h) (changeState_valid_ne _ _ ht)
  · rcases handleStateMachine_cases g w p now hi with ⟨h1, -⟩ | ⟨t, -, -, h2, -⟩
    · exact absurd (by rw [h1, h3]) h
    · exact h2
  · clear hc h3 h4 h5
    generalize hlow : p.config.low_moisture = low
    generalize hentry : p.status.state_entry_time_us = entry
    induction l generalizing p with
    | nil => intro _; exact ⟨hs, hentry⟩
    | cons a l ih =>
      obtain ⟨w2, now2⟩ := a
      intro hr
      obtain ⟨hr1, hr2⟩ := hr
      obtain ⟨-, hc, h3, h4, h5⟩ := after_poll_frame g w2 p now2
      have ht := drying_tick g w2 p now2 hi hs (hlow ▸ hr1)
      show (ticks g (handleStateMachine g w2 p now2).1 l).status.state = _ ∧
        (ticks g (handleStateMachine g w2 p now2).1 l).status.state_entry_time_us = _
      rw [ht] at hr2 ⊢
      exact ih _ (h5.trans hi) (h3.trans hs) (by rw [hc]; exact hlow) (h4.trans hentry) hr2

/-- A plant in DRYING since 7 us with the default thresholds. -/
theorem unchanged_state_keeps_entry_time_witness :
    (sample_plant .PLANT_DRYING 2500 3000 7 0).status.initialized = true ∧
    (sample_plant .PLANT_DRYING 2500 3000 7 0).status.state = PlantStates.PLANT_DRYING ∧
    (∀ l : List (sensor_world × Nat),
      readings_all
        (fun m => ¬ m < (sample_plant .PLANT_DRYING 2500 3000 7 0).config.low_moisture)
        globals_default (sample_plant .PLANT_DRYING 2500 3000 7 0) l →
      (ticks globals_default (sample_plant .PLANT_DRYING 2500 3000 7 0) l).status.state
        = PlantStates.PLANT_DRYING ∧
      (ticks globals_default (sample_plant .PLANT_DRYING 2500 3000 7 0)
        l).status.state_entry_time_us
        = (sample_plant .PLANT_DRYING 2500 3000 7 0).status.state_entry_time_us) :=
  ⟨rfl, rfl,
    (unchanged_state_keeps_entry_time globals_default (sample_world 2500)
      (sample_plant .PLANT_DRYING 2500 3000 7 0) 8 rfl).2.2 rfl⟩

/-! ## Theorems: the pump as explicit state -/

/-- A trace without a pump command leaves the last commanded level alone. -/
theorem last_pump_command_nil (pin : Nat) (prev : Option Nat) (fx : List Effect)
    (h : gpio_writes fx = []) : last_pump_command pin prev fx = prev := by
  unfold last_pump_command
  rw [h]
  rfl

/-- The last commanded level after a trace whose last pump command is on `pin`. -/
theorem last_pump_command_concat (pin : Nat) (prev : Option Nat) (fx : List Effect)
    (l : List (Nat × Nat)) (v : Nat) (h : gpio_writes fx = l ++ [(pin, v)]) :
    last_pump_command pin prev fx = some v := by
  unfold last_pump_command
  rw [h, List.filter_append]
  simp

/-- The pump commands of `turnOnPump`: none, or one ON (level 0) on the pump pin. -/
theorem turnOnPump_gpio_writes (g : globals) (q : plant_struct) :
    gpio_writes (turnOnPump g q) = [] ∨
    gpio_writes (turnOnPump g q) = [(q.pins.pump_gpio_pin, 0)] := by
  unfold turnOnPump
  split
  · right; rfl
  · left; rfl

/-- The level last commanded on the pump pin after one tick: OFF, or ON with
the plant in PUMP_ON, or the level commanded before when the tick of an
initialised plant commanded nothing (the state then stays or becomes PUMP_ON). -/
theorem handleStateMachine_pump (g : globals) (w : sensor_world) (p : plant_struct) (now : Nat)
    (prev : Option Nat) :
    (handleStateMachine g w p now).1.status.initialized = true ∧
    (last_pump_command p.pins.pump_gpio_pin prev (handleStateMachine g w p now).2 = some 1 ∨
      (last_pump_command p.pins.pump_gpio_pin prev (handleStateMachine g w p now).2 = some 0 ∧
        (handleStateMachine g w p now).1.status.state = PlantStates.PLANT_PUMP_ON) ∨
      (last_pump_command p.pins.pump_gpio_pin prev (handleStateMachine g w p now).2 = prev ∧
        p.status.initialized = true ∧
        ((handleStateMachine g w p now).1.status.state = p.status.state ∨
          (handleStateMachine g w p now).1.status.state = PlantStates.PLANT_PUMP_ON))) := by
  obtain ⟨q, fx, he, hqi, -, hqp, h1, h2⟩ := handleStateMachine_eq_guards g w p now
  rw [he]
  dsimp only
  have hfx : gpio_writes fx = [] ∨ gpio_writes fx = [(p.pins.pump_gpio_pin, 1)] := by
    cases hi : p.status.initialized with
    | true => exact Or.inl (h1 hi).2
    | false => exact Or.inr (h2 hi).2.2
  rcases handleStateMachine_guards_cases g q now with hg | ⟨t, ht, hg⟩
  · rw [hg]
    refine ⟨hqi, ?_⟩
    cases hi : p.status.initialized with
    | true =>
      right; right
      refine ⟨last_pump_command_nil _ _ _ ?_, rfl, Or.inl ?_⟩
      · rw [gpio_writes_append, (h1 hi).2]; rfl
      · show q.status.state = _
        rw [(h1 hi).1, (after_poll_frame g w p now).2.2.1]
    | false =>
      left
      apply last_pump_command_concat _ _ _ []
      rw [gpio_writes_append, (h2 hi).2.2]; rfl
  · rw [hg, changeState_of_valid g q t now ht]
    dsimp only
    refine ⟨hqi, ?_⟩
    by_cases hon : t = PlantStates.PLANT_PUMP_ON
    · rw [if_pos hon]
      rcases turnOnPump_gpio_writes g q with hw | hw
      · cases hi : p.status.initialized with
        | true =>
          right; right
          refine ⟨last_pump_command_nil _ _ _ ?_, rfl, Or.inr hon⟩
          rw [gpio_writes_append, (h1 hi).2, hw]; rfl
        | false =>
          rw [(h2 hi).1, hon] at ht
          simp [changeState_valid] at ht
      · right; left
        refine ⟨last_pump_command_concat _ _ _ (gpio_writes fx) _ ?_, hon⟩
        rw [gpio_writes_append, hw, hqp]
    · rw [if_neg hon]
      left
      apply last_pump_command_concat _ _ _ (gpio_writes fx)
      rw [gpio_writes_append]
      unfold turnOffPump
      rw [hqp]
      rfl

/-- The invariant of the running controller. -/
theorem controller_run_invariant (steps : List controller_step) (s : plant_struct × Option Nat)
    (h1 : s.2 = some 0 → s.1.status.initialized = true ∧
      s.1.status.state = PlantStates.PLANT_PUMP_ON)
    (h2 : s.1.status.initialized = true → s.2 = some 0 ∨ s.2 = some 1) :
    ((controller_run s steps).2 = some 0 →
      (controller_run s steps).1.status.initialized = true ∧
      (controller_run s steps).1.status.state = PlantStates.PLANT_PUMP_ON) ∧
    ((controller_run s steps).1.status.initialized = true →
      (controller_run s steps).2 = some 0 ∨ (controller_run s steps).2 = some 1) := by
  induction steps generalizing s with
  | nil => exact ⟨h1, h2⟩
  | cons a steps ih =>
    cases a with
    | tick g w now =>
      show ((controller_run ((handleStateMachine g w s.1 now).1,
          last_pump_command s.1.pins.pump_gpio_pin s.2 (handleStateMachine g w s.1 now).2)
          steps).2 = some 0 → _) ∧ _
      obtain ⟨hi, hc⟩ := handleStateMachine_pump g w s.1 now s.2
      apply ih
      · intro h0
        refine ⟨hi, ?_⟩
        dsimp only at h0 ⊢
        rcases hc with hc | ⟨-, hc⟩ | ⟨hc, hpi, hc2⟩
        · rw [hc] at h0; cases h0
        · exact hc
        · rw [hc] at h0
          rcases hc2 with hc2 | hc2
          · rw [hc2]; exact (h1 h0).2
          · exact hc2
      · intro _
        dsimp only
        rcases hc with hc | ⟨hc, -⟩ | ⟨hc, hpi, -⟩
        · exact Or.inr hc
        · exact Or.inl hc
        · rw [hc]; exact h2 hpi
    | configure c =>
      show ((controller_run ({ s.1 with config := c }, s.2) steps).2 = some 0 → _) ∧ _
      exact ih _ h1 h2

/-- Steps that hold no tick leave the record uninitialised and the pump
without a command; after steps that hold a tick the record is initialised. -/
theorem controller_run_initialized (steps : List controller_step)
    (s : plant_struct × Option Nat) :
    (has_tick steps = false → (controller_run s steps).2 = s.2 ∧
      (controller_run s steps).1.status = s.1.status) ∧
    (has_tick steps = true ∨ s.1.status.initialized = true →
      (controller_run s steps).1.status.initialized = true) := by
  induction steps generalizing s with
  | nil =>
    refine ⟨fun _ => ⟨rfl, rfl⟩, fun h => ?_⟩
    rcases h with h | h
    · cases h
    · exact h
  | cons a steps ih =>
    cases a with
    | tick g w now =>
      refine ⟨fun h => (by cases h), fun _ => ?_⟩
      show (controller_run ((handleStateMachine g w s.1 now).1,
        last_pump_command s.1.pins.pump_gpio_pin s.2 (handleStateMachine g w s.1 now).2)
        steps).1.status.initialized = true
      exact (ih _).2 (Or.inr (handleStateMachine_pump g w s.1 now s.2).1)
    | configure c =>
      refine ⟨fun h => ?_, fun h => ?_⟩
      · exact (ih ({ s.1 with config := c }, s.2)).1 h
      · exact (ih ({ s.1 with config := c }, s.2)).2 h

/-- C28: with the level last commanded on the pump pin as explicit state (none
before the first command, 0 = ON, 1 = OFF: the pump is active low), in every
state reached from an uninitialised plant by any sequence of ticks of
`handleStateMachine` (any flags, hardware answers and timestamps) and changes of
the configuration between ticks: when the pump is commanded ON the state is
PUMP_ON; equivalently, as soon as the sequence holds a tick, whenever the state
is DRYING, DRY_HOLD, PUMP_DELAY or WET_HOLD the last pump command is OFF, and the
last command is ON or OFF; before the first tick no command has been issued. -/
theorem pump_on_only_in_PUMP_ON (p : plant_struct) (steps : List controller_step)
    (hi : p.status.initialized = false) :
    ((controller_run (p, none) steps).2 = some 0 →
      (controller_run (p, none) steps).1.status.state = PlantStates.PLANT_PUMP_ON) ∧
    (has_tick steps = true →
      ((controller_run (p, none) steps).2 = some 0 ∨
        (controller_run (p, none) steps).2 = some 1) ∧
      (((controller_run (p, none) steps).1.status.state = PlantStates.PLANT_DRYING ∨
          (controller_run (p, none) steps).1.status.state = PlantStates.PLANT_DRY_HOLD ∨
          (controller_run (p, none) steps).1.status.state = PlantStates.PLANT_PUMP_DELAY ∨
          (controller_run (p, none) steps).1.status.state = PlantStates.PLANT_WET_HOLD) →
        (controller_run (p, none) steps).2 = some 1)) ∧
    (has_tick steps = false → (controller_run (p, none) steps).2 = none) := by
  obtain ⟨h1, h2⟩ := controller_run_invariant steps (p, none)
    (fun h => by cases h) (fun h => by rw [hi] at h; cases h)
  obtain ⟨h3, h4⟩ := controller_run_initialized steps (p, none)
  refine ⟨fun h => (h1 h).2, fun ht => ⟨h2 (h4 (Or.inl ht)), fun hs => ?_⟩,
    fun hn => (h3 hn).1⟩
  · rcases h2 (h4 (Or.inl ht)) with h0 | h0
    · have := (h1 h0).2
      rw [this] at hs
      simp at hs
    · exact h0

set_option maxRecDepth 100000 in
/-- The plant `sample_uninitialised` on hardware that answers 2100 on both
channels (moisture below `low_moisture`, level above 2048): the first tick
initialises and moves to DRY_HOLD, the tick after 300 s moves to PUMP_DELAY and
the tick after another 59 s moves to PUMP_ON with the pump commanded ON. -/
theorem pump_on_only_in_PUMP_ON_witness :
    sample_uninitialised.status.initialized = false ∧
    (controller_run (sample_uninitialised, none)
      [.tick globals_default (sample_world 2100) 5,
        .tick globals_default (sample_world 2100) 300000006,
        .configure sample_config,
        .tick globals_default (sample_world 2100) 359000007]).2 = some 0 ∧
    (controller_run (sample_uninitialised, none)
      [.tick globals_default (sample_world 2100) 5,
        .tick globals_default (sample_world 2100) 300000006,
        .configure sample_config,
        .tick globals_default (sample_world 2100) 359000007]).1.status.state
      = PlantStates.PLANT_PUMP_ON ∧
    (controller_run (sample_uninitialised, none)
      [.tick globals_default (sample_world 2100) 5,
        .tick globals_default (sample_world 2100) 300000006]).1.status.state
      = PlantStates.PLANT_PUMP_DELAY ∧
    (controller_run (sample_uninitialised, none)
      [.tick globals_default (sample_world 2100) 5,
        .tick globals_default (sample_world 2100) 300000006]).2 = some 1 :=
  ⟨rfl, by decide,
    (pump_on_only_in_PUMP_ON sample_uninitialised
      [.tick globals_default (sample_world 2100) 5,
        .tick globals_default (sample_world 2100) 300000006,
        .configure sample_config,
        .tick globals_default (sample_world 2100) 359000007] rfl).1 (by decide),
    by decide,
    ((pump_on_only_in_PUMP_ON sample_uninitialised
      [.tick globals_default (sample_world 2100) 5,
        .tick globals_default (sample_world 2100) 300000006] rfl).2.1 rfl).2
      (Or.inr (Or.inr (Or.inl (by decide))))⟩

/-! ## Theorems: the persistence round trip -/

/-- A successful `store_plant_to_nvs` leaves the record under the key. -/
theorem store_plant_to_nvs_stored (drv : nvs_driver) (nvs : nvs_store) (p : plant_struct)
    (key : String) (hs : (store_plant_to_nvs drv nvs p key).1 = ESP_OK) :
    (store_plant_to_nvs drv nvs p key).2 key = some p := by
  have hok := (store_plant_to_nvs_ok_iff drv nvs p key).mp hs
  obtain ⟨h1, h2, h3⟩ := hok
  unfold store_plant_to_nvs
  simp [h1, h2, h3]

/-- The three answers of `nvs_get_blob`: a failure of the call, the blob, or
`ESP_ERR_NVS_NOT_FOUND`. -/
theorem nvs_get_blob_cases (err : esp_err_t) (nvs : nvs_store) (key : String) :
    (err ≠ ESP_OK ∧ err ≠ ESP_ERR_NVS_NOT_FOUND ∧ nvs_get_blob err nvs key = (err, none)) ∨
    (∃ b, nvs key = some b ∧ nvs_get_blob err nvs key = (ESP_OK, some b)) ∨
    (nvs key = none ∧ nvs_get_blob err nvs key = (ESP_ERR_NVS_NOT_FOUND, none)) := by
  unfold nvs_get_blob
  by_cases h : err ≠ ESP_OK ∧ err ≠ ESP_ERR_NVS_NOT_FOUND
  · rw [if_pos h]
    exact Or.inl ⟨h.1, h.2, rfl⟩
  · rw [if_neg h]
    cases hk : nvs key with
    | none => exact Or.inr (Or.inr ⟨rfl, rfl⟩)
    | some b => exact Or.inr (Or.inl ⟨b, rfl, rfl⟩)

/-- A successful `read_plant_from_nvs` of a key that holds a record. -/
theorem read_plant_from_nvs_found (drv : nvs_driver) (nvs : nvs_store) (caller p : plant_struct)
    (key : String) (hk : nvs key = some p)
    (hr : (read_plant_from_nvs drv nvs caller key).1 = ESP_OK) :
    (read_plant_from_nvs drv nvs caller key).2 =
      { p with status := plant_status_struct_default } := by
  unfold read_plant_from_nvs at hr ⊢
  by_cases h1 : drv.open_err ≠ ESP_OK
  · rw [if_pos h1] at hr
    exact absurd hr h1
  · rw [if_neg h1] at hr ⊢
    dsimp only at hr ⊢
    rcases nvs_get_blob_cases drv.get_size_err nvs key with ⟨a1, a2, a3⟩ | ⟨b, b1, b2⟩ | ⟨c1, -⟩
    · rw [a3] at hr
      rw [if_pos ⟨a1, a2⟩] at hr
      exact absurd hr a1
    · rw [b2] at hr ⊢
      have hsz : (if (some b).isSome = true then sizeof_plant_struct else 0) > 0 := by
        simp [sizeof_plant_struct]
      have hno : ¬ ((ESP_OK, some b).1 ≠ ESP_OK ∧ (ESP_OK, some b).1 ≠ ESP_ERR_NVS_NOT_FOUND) :=
        fun h => h.1 rfl
      rw [if_neg hno, if_pos hsz] at hr ⊢
      rcases nvs_get_blob_cases drv.get_blob_err nvs key with ⟨a1, a2, a3⟩ | ⟨b', b1', b2'⟩ | ⟨c1, -⟩
      · rw [a3] at hr
        rw [if_pos a1] at hr
        exact absurd hr a1
      · rw [b2']
        have hbp : b' = p := Option.some.inj (b1'.symm.trans hk)
        rw [if_neg (fun h => h rfl), hbp]
      · rw [hk] at c1; cases c1
    · rw [hk] at c1; cases c1

/-- The function `read_plant_from_nvs` on a key that holds no record. -/
theorem read_plant_from_nvs_not_found (drv : nvs_driver) (nvs : nvs_store)
    (caller : plant_struct) (key : String) (hk : nvs key = none) :
    (read_plant_from_nvs drv nvs caller key).2 = caller ∧
    (drv.open_err = ESP_OK →
      (nvs_get_blob drv.get_size_err nvs key).1 = ESP_ERR_NVS_NOT_FOUND →
      (read_plant_from_nvs drv nvs caller key).1 = ESP_OK) := by
  unfold read_plant_from_nvs
  by_cases h1 : drv.open_err ≠ ESP_OK
  · rw [if_pos h1]
    exact ⟨rfl, fun h => absurd h h1⟩
  · rw [if_neg h1]
    dsimp only
    rcases nvs_get_blob_cases drv.get_size_err nvs key with ⟨a1, a2, a3⟩ | ⟨b, b1, -⟩ | ⟨-, c2⟩
    · rw [a3]
      rw [if_pos ⟨a1, a2⟩]
      exact ⟨rfl, fun _ h => absurd h a2⟩
    · rw [hk] at b1; cases b1
    · rw [c2]
      have hno : ¬ ((ESP_ERR_NVS_NOT_FOUND, (none : Option plant_struct)).1 ≠ ESP_OK ∧
          (ESP_ERR_NVS_NOT_FOUND, (none : Option plant_struct)).1 ≠ ESP_ERR_NVS_NOT_FOUND) :=
        fun h => h.2 rfl
      have hsz : ¬ ((if (none : Option plant_struct).isSome = true
          then sizeof_plant_struct else 0) > 0) := by
        simp
      rw [if_neg hno, if_neg hsz]
      exact ⟨rfl, fun _ _ => rfl⟩

/-- C22: for every plant record `p`, after a successful
`store_plant_to_nvs` of `p` under a key, a successful `read_plant_from_nvs` of
that key yields a record whose configuration (all eight fields) and pins are
those of `p` and whose status is `plant_status_struct_default` (state DRYING,
not initialised, both times and both medians 0) whatever the status of `p`; and
when no record exists under the key the caller's record is left unchanged, and
the read returns `ESP_OK` once `nvs_open` succeeded and the size query reported
`ESP_ERR_NVS_NOT_FOUND`. -/
theorem store_read_round_trip (drv drv2 : nvs_driver) (nvs : nvs_store)
    (p caller : plant_struct) (key : String)
    (hs : (store_plant_to_nvs drv nvs p key).1 = ESP_OK)
    (hr : (read_plant_from_nvs drv2 (store_plant_to_nvs drv nvs p key).2 caller key).1
      = ESP_OK) :
    ((read_plant_from_nvs drv2 (store_plant_to_nvs drv nvs p key).2 caller key).2.config
        = p.config ∧
      (read_plant_from_nvs drv2 (store_plant_to_nvs drv nvs p key).2 caller key).2.pins
        = p.pins ∧
      (read_plant_from_nvs drv2 (store_plant_to_nvs drv nvs p key).2 caller key).2.status
        = plant_status_struct_default) ∧
    (plant_status_struct_default.state = PlantStates.PLANT_DRYING ∧
      plant_status_struct_default.initialized = false ∧
      plant_status_struct_default.state_entry_time_us = 0 ∧
      plant_status_struct_default.last_poll_time_us = 0 ∧
      plant_status_struct_default.poll_median_moisture_sensor = 0 ∧
      plant_status_struct_default.poll_median_level_sensor = 0) ∧
    (∀ (empty : nvs_store), empty key = none →
      (read_plant_from_nvs drv2 empty caller key).2 = caller ∧
      (drv2.open_err = ESP_OK →
        (nvs_get_blob drv2.get_size_err empty key).1 = ESP_ERR_NVS_NOT_FOUND →
        (read_plant_from_nvs drv2 empty caller key).1 = ESP_OK)) := by
  refine ⟨?_, ⟨rfl, rfl, rfl, rfl, rfl, rfl⟩,
    fun empty he => read_plant_from_nvs_not_found drv2 empty caller key he⟩
  rw [read_plant_from_nvs_found drv2 _ caller p key
    (store_plant_to_nvs_stored drv nvs p key hs) hr]
  exact ⟨rfl, rfl, rfl⟩

/-- A plant in PUMP_ON stored on a working driver and read back into the
default plant. -/
theorem store_read_round_trip_witness :
    (store_plant_to_nvs nvs_driver_ok nvs_empty
      (sample_plant .PLANT_PUMP_ON 2000 3000 5 6) PLANT_NVS_KEY).1 = ESP_OK ∧
    (read_plant_from_nvs nvs_driver_ok (store_plant_to_nvs nvs_driver_ok nvs_empty
      (sample_plant .PLANT_PUMP_ON 2000 3000 5 6) PLANT_NVS_KEY).2
      (sample_plant .PLANT_DRYING 0 0 0 0) PLANT_NVS_KEY).1 = ESP_OK ∧
    (read_plant_from_nvs nvs_driver_ok (store_plant_to_nvs nvs_driver_ok nvs_empty
      (sample_plant .PLANT_PUMP_ON 2000 3000 5 6) PLANT_NVS_KEY).2
      (sample_plant .PLANT_DRYING 0 0 0 0) PLANT_NVS_KEY).2.status
        = plant_status_struct_default :=
  ⟨by decide, by decide,
    (store_read_round_trip nvs_driver_ok nvs_driver_ok nvs_empty
      (sample_plant .PLANT_PUMP_ON 2000 3000 5 6) (sample_plant .PLANT_DRYING 0 0 0 0)
      PLANT_NVS_KEY (by decide) (by decide)).1.2.2⟩

/-! ## Theorems: acquisition -/

/-- In real acquisition mode `pollSensors` stores the 16-bit value of the
`opt_med9` result of each channel's nine samples and reads the two channels
nine times, in turn. -/
theorem pollSensors_real (g : globals) (w : sensor_world) (plant : plant_struct) (now : Nat)
    (hf : g.use_fake_poll = false) :
    (pollSensors g w plant now).1.status.poll_median_moisture_sensor
      = to_uint16 (opt_med9 (moisture_samples w plant)).1 ∧
    (pollSensors g w plant now).1.status.poll_median_level_sensor
      = to_uint16 (opt_med9 (level_samples w plant)).1 ∧
    adc_reads (pollSensors g w plant now).2 =
      (List.replicate 9 [plant.pins.moisture_sensor_adc1_channel,
        plant.pins.level_sensor_adc1_channel]).flatten := by
  have em : moisture_samples w plant = (List.range 9).map
      (fun i => w.adc1_get_raw plant.pins.moisture_sensor_adc1_channel (2 * i)) := rfl
  have el : level_samples w plant = (List.range 9).map
      (fun i => w.adc1_get_raw plant.pins.level_sensor_adc1_channel (2 * i + 1)) := rfl
  rw [em, el]
  unfold pollSensors
  dsimp only
  rw [hf]
  simp only [Bool.false_eq_true, if_false]
  generalize opt_med9 ((List.range 9).map
      (fun i => w.adc1_get_raw plant.pins.moisture_sensor_adc1_channel (2 * i))) = rm
  generalize opt_med9 ((List.range 9).map
      (fun i => w.adc1_get_raw plant.pins.level_sensor_adc1_channel (2 * i + 1))) = rl
  refine ⟨?_, ?_, ?_⟩
  · split <;> rfl
  · split <;> rfl
  · by_cases h : (w.client && g.mqtt_connected) = true
    · rw [if_pos h]; rfl
    · rw [if_neg h]; rfl

/-- The element at index 4 of the sorted samples is one of the samples. -/
theorem ascending_getElem_mem (p : List Int) (i : Nat) (m : Int)
    (h : (ascending p)[i]? = some m) : m ∈ p := by
  have hperm : (ascending p).Perm p := List.perm_insertionSort _ p
  exact hperm.mem_iff.mp (List.mem_iff_getElem?.mpr ⟨i, h⟩)

/-- The stored median of nine samples of the 12-bit range. -/
theorem stored_median (p : List Int) (hp : p.length = 9) :
    (∃ m, (ascending p)[4]? = some m ∧ to_uint16 (opt_med9 p).1 = to_uint16 m) ∧
    ((∀ x ∈ p, 0 ≤ x ∧ x ≤ 4095) →
      (ascending p)[4]? = some (to_uint16 (opt_med9 p).1 : Int) ∧
      ((to_uint16 (opt_med9 p).1 : Nat) : Int) ∈ p ∧
      ∀ lo hi : Int, (∀ x ∈ p, lo ≤ x ∧ x ≤ hi) →
        lo ≤ (to_uint16 (opt_med9 p).1 : Int) ∧ (to_uint16 (opt_med9 p).1 : Int) ≤ hi) := by
  have hsel := opt_med9_selects p hp
  generalize (opt_med9 p).1 = y at hsel ⊢
  refine ⟨⟨y, hsel, rfl⟩, fun hr => ?_⟩
  have hy : y ∈ p := ascending_getElem_mem p 4 y hsel
  have hcast : (to_uint16 y : Int) = y :=
    to_uint16_of_lt y (hr y hy).1 (by have := (hr y hy).2; omega)
  rw [hcast]
  exact ⟨hsel, hy, fun lo hi hb => hb y hy⟩

/-- C25: in real acquisition mode (fake-poll flag off) `pollSensors` reads the
moisture and the level channel nine times each, stores in
`poll_median_moisture_sensor` and `poll_median_level_sensor` the 16-bit value of
the median (the element at index 4 of the sorted nine samples, the 5th
smallest) of the respective samples, and sets `last_poll_time_us` to now; for
samples in 0..4095 the stored value is that median exactly, is one of the
samples and lies between any lower and upper bound of the samples, so between
the smallest and the largest. -/
theorem pollSensors_stores_medians (g : globals) (w : sensor_world) (plant : plant_struct)
    (now : Nat) (hf : g.use_fake_poll = false) :
    adc_reads (pollSensors g w plant now).2 =
      (List.replicate 9 [plant.pins.moisture_sensor_adc1_channel,
        plant.pins.level_sensor_adc1_channel]).flatten ∧
    (moisture_samples w plant).length = 9 ∧ (level_samples w plant).length = 9 ∧
    (pollSensors g w plant now).1.status.last_poll_time_us = now ∧
    (∃ m, (ascending (moisture_samples w plant))[4]? = some m ∧
      (pollSensors g w plant now).1.status.poll_median_moisture_sensor = to_uint16 m) ∧
    (∃ m, (ascending (level_samples w plant))[4]? = some m ∧
      (pollSensors g w plant now).1.status.poll_median_level_sensor = to_uint16 m) ∧
    ((∀ x ∈ moisture_samples w plant, 0 ≤ x ∧ x ≤ 4095) →
      (ascending (moisture_samples w plant))[4]?
        = some ((pollSensors g w plant now).1.status.poll_median_moisture_sensor : Int) ∧
      ((pollSensors g w plant now).1.status.poll_median_moisture_sensor : Int)
        ∈ moisture_samples w plant ∧
      ∀ lo hi : Int, (∀ x ∈ moisture_samples w plant, lo ≤ x ∧ x ≤ hi) →
        lo ≤ ((pollSensors g w plant now).1.status.poll_median_moisture_sensor : Int) ∧
        ((pollSensors g w plant now).1.status.poll_median_moisture_sensor : Int) ≤ hi) ∧
    ((∀ x ∈ level_samples w plant, 0 ≤ x ∧ x ≤ 4095) →
      (ascending (level_samples w plant))[4]?
        = some ((pollSensors g w plant now).1.status.poll_median_level_sensor : Int) ∧
      ((pollSensors g w plant now).1.status.poll_median_level_sensor : Int)
        ∈ level_samples w plant ∧
      ∀ lo hi : Int, (∀ x ∈ level_samples w plant, lo ≤ x ∧ x ≤ hi) →
        lo ≤ ((pollSensors g w plant now).1.status.poll_median_level_sensor : Int) ∧
        ((pollSensors g w plant now).1.status.poll_median_level_sensor : Int) ≤ hi) := by
  obtain ⟨hm, hl, hreads⟩ := pollSensors_real g w plant now hf
  have hlm : (moisture_samples w plant).length = 9 := by
    unfold moisture_samples; rw [List.length_map, List.length_range]
  have hll : (level_samples w plant).length = 9 := by
    unfold level_samples; rw [List.length_map, List.length_range]
  rw [hm, hl]
  exact ⟨hreads, hlm, hll, (pollSensors_frame g w plant now).2.2.2.2.2,
    (stored_median _ hlm).1, (stored_median _ hll).1,
    (stored_median _ hlm).2, (stored_median _ hll).2⟩

/-- A poll of the default pins at 7 us on hardware that answers 2000. -/
theorem pollSensors_stores_medians_witness :
    globals_default.use_fake_poll = false ∧
    adc_reads (pollSensors globals_default (sample_world 2000)
      (sample_plant .PLANT_DRYING 0 0 0 0) 7).2
      = [4, 5, 4, 5, 4, 5, 4, 5, 4, 5, 4, 5, 4, 5, 4, 5, 4, 5] ∧
    (pollSensors globals_default (sample_world 2000)
      (sample_plant .PLANT_DRYING 0 0 0 0) 7).1.status.last_poll_time_us = 7 :=
  ⟨rfl,
    (pollSensors_stores_medians globals_default (sample_world 2000)
      (sample_plant .PLANT_DRYING 0 0 0 0) 7 rfl).1,
    (pollSensors_stores_medians globals_default (sample_world 2000)
      (sample_plant .PLANT_DRYING 0 0 0 0) 7 rfl).2.2.2.1⟩

/-! ## Theorems: the truncated mean of the network of six -/

/-- Truncated division by two, by cases on the sign. -/
theorem tdiv_two (v : Int) :
    (0 ≤ v → Int.tdiv v 2 = v / 2) ∧ (v < 0 → Int.tdiv v 2 = -((-v) / 2)) := by
  constructor
  · intro h
    exact Int.tdiv_eq_ediv h (by decide)
  · intro h
    have h1 : Int.tdiv (-(-v)) 2 = -(Int.tdiv (-v) 2) := Int.neg_tdiv (-v) 2
    rw [neg_neg] at h1
    rw [h1, Int.tdiv_eq_ediv (by omega) (by decide)]

/-- Half of an `int` converted to `double`, truncated toward zero, is the
truncated quotient by two. -/
theorem trunc_half (v : Int) : trunc ((v : ℚ) * (1 / 2)) = Int.tdiv v 2 := by
  unfold trunc
  by_cases h : 0 ≤ v
  · have hq : (0 : ℚ) ≤ (v : ℚ) * (1 / 2) := by
      have : (0 : ℚ) ≤ (v : ℚ) := by exact_mod_cast h
      positivity
    rw [if_pos hq, (tdiv_two v).1 h, Int.floor_eq_iff]
    have h2 : v = 2 * (v / 2) + v % 2 := (Int.ediv_add_emod v 2).symm
    have h3 : 0 ≤ v % 2 ∧ v % 2 < 2 := by omega
    have h4 : ((v : ℚ)) = 2 * ((v / 2 : Int) : ℚ) + ((v % 2 : Int) : ℚ) := by
      exact_mod_cast h2
    have h5 : (0 : ℚ) ≤ ((v % 2 : Int) : ℚ) := by exact_mod_cast h3.1
    have h6 : ((v % 2 : Int) : ℚ) < 2 := by exact_mod_cast h3.2
    constructor <;> linarith
  · have hneg : v < 0 := by omega
    have hq : ¬ (0 : ℚ) ≤ (v : ℚ) * (1 / 2) := by
      have : (v : ℚ) < 0 := by exact_mod_cast hneg
      intro h0
      linarith
    rw [if_neg hq, (tdiv_two v).2 hneg, Int.ceil_eq_iff]
    have h2 : -v = 2 * ((-v) / 2) + (-v) % 2 := (Int.ediv_add_emod (-v) 2).symm
    have h3 : 0 ≤ (-v) % 2 ∧ (-v) % 2 < 2 := by omega
    have h4 : -((v : ℚ)) = 2 * (((-v) / 2 : Int) : ℚ) + (((-v) % 2 : Int) : ℚ) := by
      exact_mod_cast h2
    have h5 : (0 : ℚ) ≤ (((-v) % 2 : Int) : ℚ) := by exact_mod_cast h3.1
    have h6 : (((-v) % 2 : Int) : ℚ) < 2 := by exact_mod_cast h3.2
    push_cast
    constructor <;> linarith

/-- C29: for every array of 6 ints whose central order statistics s2 <= s3
(the elements at indices 2 and 3 of the sorted array) have a sum that fits in
an `int`, `opt_med6` returns (s2 + s3) / 2 truncated toward zero: the exact mean
when the sum is even, the mean rounded down when the sum is odd and positive,
the mean rounded up when the sum is odd and negative. -/
theorem opt_med6_truncates_toward_zero (p : List Int) (hp : p.length = 6)
    (hlo : -2147483648 ≤ (ascending p).getD 2 0 + (ascending p).getD 3 0)
    (hhi : (ascending p).getD 2 0 + (ascending p).getD 3 0 ≤ 2147483647) :
    (ascending p).getD 2 0 ≤ (ascending p).getD 3 0 ∧
    (opt_med6 p).1 = Int.tdiv ((ascending p).getD 2 0 + (ascending p).getD 3 0) 2 ∧
    (((ascending p).getD 2 0 + (ascending p).getD 3 0) % 2 = 0 →
      2 * (opt_med6 p).1 = (ascending p).getD 2 0 + (ascending p).getD 3 0) ∧
    (((ascending p).getD 2 0 + (ascending p).getD 3 0) % 2 = 1 →
      0 < (ascending p).getD 2 0 + (ascending p).getD 3 0 →
      2 * (opt_med6 p).1 = (ascending p).getD 2 0 + (ascending p).getD 3 0 - 1) ∧
    (((ascending p).getD 2 0 + (ascending p).getD 3 0) % 2 = 1 →
      (ascending p).getD 2 0 + (ascending p).getD 3 0 < 0 →
      2 * (opt_med6 p).1 = (ascending p).getD 2 0 + (ascending p).getD 3 0 + 1) := by
  have hle : (ascending p).getD 2 0 ≤ (ascending p).getD 3 0 := by
    obtain ⟨h2, h3, -⟩ := opt_med6_central p hp
    have e2 : (ascending p).getD 2 0 = min ((sort_pairs p opt_med6_pairs).getD 2 0)
        ((sort_pairs p opt_med6_pairs).getD 3 0) := by
      rw [List.getD_eq_getElem?_getD, h2]; rfl
    have e3 : (ascending p).getD 3 0 = max ((sort_pairs p opt_med6_pairs).getD 2 0)
        ((sort_pairs p opt_med6_pairs).getD 3 0) := by
      rw [List.getD_eq_getElem?_getD, h3]; rfl
    rw [e2, e3]
    exact le_trans (min_le_left _ _) (le_max_left _ _)
  have hval : (opt_med6 p).1
      = Int.tdiv ((ascending p).getD 2 0 + (ascending p).getD 3 0) 2 := by
    rw [opt_med6_of_ascending p hp, to_int32_of_fits _ hlo hhi, trunc_half]
  refine ⟨hle, hval, ?_, ?_, ?_⟩
  all_goals
    rw [hval]
    generalize (ascending p).getD 2 0 + (ascending p).getD 3 0 = v
    intro h1
    by_cases h0 : 0 ≤ v
    · rw [(tdiv_two v).1 h0]; omega
    · rw [(tdiv_two v).2 (by omega)]; omega

/-- The array -6, -5, -4, -3, -2, -1: the central values -4 and -3 have the
odd negative sum -7, and the result is -3. -/
theorem opt_med6_truncates_toward_zero_witness :
    [(-6 : Int), -5, -4, -3, -2, -1].length = 6 ∧
    -2147483648 ≤ (ascending [-6, -5, -4, -3, -2, -1]).getD 2 0
      + (ascending [-6, -5, -4, -3, -2, -1]).getD 3 0 ∧
    (ascending [-6, -5, -4, -3, -2, -1]).getD 2 0
      + (ascending [-6, -5, -4, -3, -2, -1]).getD 3 0 ≤ 2147483647 ∧
    (opt_med6 [-6, -5, -4, -3, -2, -1]).1
      = Int.tdiv ((ascending [-6, -5, -4, -3, -2, -1]).getD 2 0
        + (ascending [-6, -5, -4, -3, -2, -1]).getD 3 0) 2 ∧
    Int.tdiv ((ascending [-6, -5, -4, -3, -2, -1]).getD 2 0
        + (ascending [-6, -5, -4, -3, -2, -1]).getD 3 0) 2 = -3 :=
  ⟨rfl, by decide, by decide,
    (opt_med6_truncates_toward_zero [-6, -5, -4, -3, -2, -1] rfl (by decide) (by decide)).2.1,
    by decide⟩

/-! ## Theorems: the moisture guards against each other -/

/-- The moisture guard of PUMP_DELAY: the guards end in WET_HOLD exactly when
the reading is at least `high_moisture`. -/
theorem guards_pump_delay (g : globals) (q : plant_struct) (now : Nat)
    (hs : q.status.state = PlantStates.PLANT_PUMP_DELAY) :
    (handleStateMachine_guards g q now).1.status.state = PlantStates.PLANT_WET_HOLD ↔
      q.status.poll_median_moisture_sensor ≥ q.config.high_moisture := by
  unfold handleStateMachine_guards
  rw [hs]
  dsimp only
  split_ifs with h1 h2 <;> simp [changeState, changeState_valid, hs, h1]

/-- The moisture guard of WET_HOLD: the guards end in PUMP_DELAY exactly when
the reading is at most `watered_moisture`. -/
theorem guards_wet_hold (g : globals) (q : plant_struct) (now : Nat)
    (hs : q.status.state = PlantStates.PLANT_WET_HOLD) :
    (handleStateMachine_guards g q now).1.status.state = PlantStates.PLANT_PUMP_DELAY ↔
      q.status.poll_median_moisture_sensor ≤ q.config.watered_moisture := by
  unfold handleStateMachine_guards
  rw [hs]
  dsimp only
  split_ifs with h1 h2 <;> simp [changeState, changeState_valid, hs, h1]

/-- The guard of DRYING: the guards end in DRY_HOLD exactly when the reading
is below `low_moisture`. -/
theorem guards_drying (g : globals) (q : plant_struct) (now : Nat)
    (hs : q.status.state = PlantStates.PLANT_DRYING) :
    (handleStateMachine_guards g q now).1.status.state = PlantStates.PLANT_DRY_HOLD ↔
      q.status.poll_median_moisture_sensor < q.config.low_moisture := by
  unfold handleStateMachine_guards
  rw [hs]
  dsimp only
  split_ifs with h1 <;> simp [changeState, changeState_valid, hs, h1]

/-- The moisture guard of DRY_HOLD: the guards end in DRYING exactly when the
reading is above `low_moisture`. -/
theorem guards_dry_hold (g : globals) (q : plant_struct) (now : Nat)
    (hs : q.status.state = PlantStates.PLANT_DRY_HOLD) :
    (handleStateMachine_guards g q now).1.status.state = PlantStates.PLANT_DRYING ↔
      q.status.poll_median_moisture_sensor > q.config.low_moisture := by
  unfold handleStateMachine_guards
  rw [hs]
  dsimp only
  split_ifs with h1 h2 <;> simp [changeState, changeState_valid, hs, h1]

/-- The state after a tick of an initialised plant is the state the guards
give on the record after the polling step. -/
theorem handleStateMachine_state (g : globals) (w : sensor_world) (p : plant_struct) (now : Nat)
    (hi : p.status.initialized = true) :
    (handleStateMachine g w p now).1.status.state
      = (handleStateMachine_guards g (after_poll g w p now) now).1.status.state ∧
    (handleStateMachine g w p now).1.status.initialized = true ∧
    (handleStateMachine g w p now).1.config = p.config := by
  rw [handleStateMachine_initialized g w p now hi]
  obtain ⟨-, hc, -, -, -, -, -, hin, -⟩ :=
    handleStateMachine_guards_frame g (after_poll g w p now) now
  obtain ⟨-, hc2, -, -, hi2⟩ := after_poll_frame g w p now
  exact ⟨rfl, by rw [hin, hi2, hi], by rw [hc, hc2]⟩

/-- With `watered_moisture = high_moisture = m` and every reading equal to `m`,
a tick moves PUMP_DELAY to WET_HOLD and WET_HOLD to PUMP_DELAY. -/
theorem alternating_tick (g : globals) (w : sensor_world) (p : plant_struct) (now : Nat)
    (m : Nat) (hi : p.status.initialized = true)
    (hw : p.config.watered_moisture = m) (hh : p.config.high_moisture = m)
    (hm : (after_poll g w p now).status.poll_median_moisture_sensor = m) :
    (p.status.state = PlantStates.PLANT_PUMP_DELAY →
      (handleStateMachine g w p now).1.status.state = PlantStates.PLANT_WET_HOLD) ∧
    (p.status.state = PlantStates.PLANT_WET_HOLD →
      (handleStateMachine g w p now).1.status.state = PlantStates.PLANT_PUMP_DELAY) := by
  obtain ⟨-, hc, hst, -⟩ := after_poll_frame g w p now
  rw [(handleStateMachine_state g w p now hi).1]
  constructor
  · intro hs
    rw [guards_pump_delay g _ now (hst.trans hs), hc, hh, hm]
  · intro hs
    rw [guards_wet_hold g _ now (hst.trans hs), hc, hw, hm]

/-- With `watered_moisture = high_moisture = m` and every reading equal to `m`,
consecutive ticks alternate between PUMP_DELAY and WET_HOLD. -/
theorem alternating_ticks (g : globals) (m : Nat) (l : List (sensor_world × Nat))
    (p : plant_struct) (hi : p.status.initialized = true)
    (hw : p.config.watered_moisture = m) (hh : p.config.high_moisture = m)
    (hr : readings_all (fun r => r = m) g p l) :
    (p.status.state = PlantStates.PLANT_PUMP_DELAY →
      (ticks g p l).status.state =
        if l.length % 2 = 0 then PlantStates.PLANT_PUMP_DELAY
        else PlantStates.PLANT_WET_HOLD) ∧
    (p.status.state = PlantStates.PLANT_WET_HOLD →
      (ticks g p l).status.state =
        if l.length % 2 = 0 then PlantStates.PLANT_WET_HOLD
        else PlantStates.PLANT_PUMP_DELAY) := by
  induction l generalizing p with
  | nil => exact ⟨fun h => h, fun h => h⟩
  | cons a l ih =>
    obtain ⟨w, now⟩ := a
    obtain ⟨hr1, hr2⟩ := hr
    obtain ⟨-, hi2, hc2⟩ := handleStateMachine_state g w p now hi
    obtain ⟨ha1, ha2⟩ := alternating_tick g w p now m hi hw hh hr1
    obtain ⟨ih1, ih2⟩ := ih (handleStateMachine g w p now).1 hi2
      (by rw [hc2]; exact hw) (by rw [hc2]; exact hh) hr2
    have hlen : (((w, now) :: l).length % 2 = 0) ↔ ¬ (l.length % 2 = 0) := by
      rw [List.length_cons]; omega
    constructor
    · intro hs
      show (ticks g (handleStateMachine g w p now).1 l).status.state = _
      rw [ih2 (ha1 hs)]
      by_cases hl : l.length % 2 = 0
      · rw [if_pos hl, if_neg (fun h => hlen.mp h hl)]
      · rw [if_neg hl, if_pos (hlen.mpr hl)]
    · intro hs
      show (ticks g (handleStateMachine g w p now).1 l).status.state = _
      rw [ih1 (ha2 hs)]
      by_cases hl : l.length % 2 = 0
      · rw [if_pos hl, if_neg (fun h => hlen.mp h hl)]
      · rw [if_neg hl, if_pos (hlen.mpr hl)]

/-- C30: on one reading and one configuration the PUMP_DELAY -> WET_HOLD guard
and the WET_HOLD -> PUMP_DELAY guard both fire exactly when high_moisture <=
reading <= watered_moisture; so with watered_moisture < high_moisture a move
between PUMP_DELAY and WET_HOLD is not reversed by the next tick on the same
reading, whereas with watered_moisture = high_moisture = m and every reading
equal to m consecutive ticks alternate between PUMP_DELAY and WET_HOLD and
never reach PUMP_ON; and the DRYING -> DRY_HOLD and DRY_HOLD -> DRYING guards
never both fire on one reading. -/
theorem moisture_guards_overlap (g : globals) (w1 w2 : sensor_world) (p : plant_struct)
    (now1 now2 : Nat) (hi : p.status.initialized = true) :
    (∀ (q : plant_struct) (t1 t2 : Nat),
      ((handleStateMachine_guards g (in_state q .PLANT_PUMP_DELAY) t1).1.status.state
          = PlantStates.PLANT_WET_HOLD ∧
        (handleStateMachine_guards g (in_state q .PLANT_WET_HOLD) t2).1.status.state
          = PlantStates.PLANT_PUMP_DELAY) ↔
      (q.config.high_moisture ≤ q.status.poll_median_moisture_sensor ∧
        q.status.poll_median_moisture_sensor ≤ q.config.watered_moisture)) ∧
    (p.config.watered_moisture < p.config.high_moisture →
      (after_poll g w2 (handleStateMachine g w1 p now1).1 now2).status.poll_median_moisture_sensor
        = (after_poll g w1 p now1).status.poll_median_moisture_sensor →
      (p.status.state = PlantStates.PLANT_PUMP_DELAY →
        (handleStateMachine g w1 p now1).1.status.state = PlantStates.PLANT_WET_HOLD →
        (handleStateMachine g w2 (handleStateMachine g w1 p now1).1 now2).1.status.state
          ≠ PlantStates.PLANT_PUMP_DELAY) ∧
      (p.status.state = PlantStates.PLANT_WET_HOLD →
        (handleStateMachine g w1 p now1).1.status.state = PlantStates.PLANT_PUMP_DELAY →
        (handleStateMachine g w2 (handleStateMachine g w1 p now1).1 now2).1.status.state
          ≠ PlantStates.PLANT_WET_HOLD)) ∧
    (∀ (m : Nat) (l : List (sensor_world × Nat)),
      p.config.watered_moisture = m → p.config.high_moisture = m →
      readings_all (fun r => r = m) g p l →
      (p.status.state = PlantStates.PLANT_PUMP_DELAY →
        (ticks g p l).status.state =
          (if l.length % 2 = 0 then PlantStates.PLANT_PUMP_DELAY
            else PlantStates.PLANT_WET_HOLD) ∧
        (ticks g p l).status.state ≠ PlantStates.PLANT_PUMP_ON) ∧
      (p.status.state = PlantStates.PLANT_WET_HOLD →
        (ticks g p l).status.state =
          (if l.length % 2 = 0 then PlantStates.PLANT_WET_HOLD
            else PlantStates.PLANT_PUMP_DELAY) ∧
        (ticks g p l).status.state ≠ PlantStates.PLANT_PUMP_ON)) ∧
    (∀ (q : plant_struct) (t1 t2 : Nat),
      ¬ ((handleStateMachine_guards g (in_state q .PLANT_DRYING) t1).1.status.state
          = PlantStates.PLANT_DRY_HOLD ∧
        (handleStateMachine_guards g (in_state q .PLANT_DRY_HOLD) t2).1.status.state
          = PlantStates.PLANT_DRYING)) := by
  refine ⟨fun q t1 t2 => ?_, fun hlt hsame => ⟨fun hs h1 => ?_, fun hs h1 => ?_⟩,
    fun m l hw hh hr => ⟨fun hs => ?_, fun hs => ?_⟩, fun q t1 t2 => ?_⟩
  · rw [guards_pump_delay g (in_state q .PLANT_PUMP_DELAY) t1 rfl,
      guards_wet_hold g (in_state q .PLANT_WET_HOLD) t2 rfl]
    exact Iff.rfl
  · obtain ⟨e1, hi1, hc1⟩ := handleStateMachine_state g w1 p now1 hi
    obtain ⟨-, hc, hst, -⟩ := after_poll_frame g w1 p now1
    have h1' := h1
    rw [e1, guards_pump_delay g _ now1 (hst.trans hs), hc] at h1
    obtain ⟨e2, -, -⟩ := handleStateMachine_state g w2 (handleStateMachine g w1 p now1).1 now2 hi1
    obtain ⟨-, hc', hst', -⟩ := after_poll_frame g w2 (handleStateMachine g w1 p now1).1 now2
    rw [e2, Ne, guards_wet_hold g _ now2 (hst'.trans h1'), hc', hc1, hsame]
    omega
  · obtain ⟨e1, hi1, hc1⟩ := handleStateMachine_state g w1 p now1 hi
    obtain ⟨-, hc, hst, -⟩ := after_poll_frame g w1 p now1
    have h1' := h1
    rw [e1, guards_wet_hold g _ now1 (hst.trans hs), hc] at h1
    obtain ⟨e2, -, -⟩ := handleStateMachine_state g w2 (handleStateMachine g w1 p now1).1 now2 hi1
    obtain ⟨-, hc', hst', -⟩ := after_poll_frame g w2 (handleStateMachine g w1 p now1).1 now2
    rw [e2, Ne, guards_pump_delay g _ now2 (hst'.trans h1'), hc', hc1, hsame]
    omega
  · have h := (alternating_ticks g m l p hi hw hh hr).1 hs
    refine ⟨h, ?_⟩
    rw [h]
    split <;> decide
  · have h := (alternating_ticks g m l p hi hw hh hr).2 hs
    refine ⟨h, ?_⟩
    rw [h]
    split <;> decide
  · rw [guards_drying g (in_state q .PLANT_DRYING) t1 rfl,
      guards_dry_hold g (in_state q .PLANT_DRY_HOLD) t2 rfl]
    show ¬ (q.status.poll_median_moisture_sensor < q.config.low_moisture ∧
      q.status.poll_median_moisture_sensor > q.config.low_moisture)
    omega

/-- A plant in PUMP_DELAY with the default thresholds. -/
theorem moisture_guards_overlap_witness :
    (sample_plant .PLANT_PUMP_DELAY 2483 3000 0 0).status.initialized = true ∧
    (∀ (q : plant_struct) (t1 t2 : Nat),
      ¬ ((handleStateMachine_guards globals_default (in_state q .PLANT_DRYING)
            t1).1.status.state = PlantStates.PLANT_DRY_HOLD ∧
        (handleStateMachine_guards globals_default (in_state q .PLANT_DRY_HOLD)
            t2).1.status.state = PlantStates.PLANT_DRYING)) :=
  ⟨rfl,
    (moisture_guards_overlap globals_default (sample_world 2483) (sample_world 2483)
      (sample_plant .PLANT_PUMP_DELAY 2483 3000 0 0) 1 2 rfl).2.2.2⟩

end PlantThing
